import Mathlib

set_option maxRecDepth 8192
set_option linter.unusedVariables false

/-!
Verification development for the PL011 UART register-access crate.

The crate consists of three layers, all shallowly embedded here:
* the bit-field codec and typed conversions (the `bitstuff` support
  crate's `FromBits` / `ToBits` / `TryFromBits` impls, and the
  `trimmed_new` truncating constructors of its narrow integer types);
* the per-register value types with one accessor / `with_`-builder pair
  per field, taken verbatim (masks, shifts, literals) from the
  macro-expanded source `src/expanded.rs`;
* the volatile register access layer of `src/lib.rs` (`read_register`,
  `write_register`, `update_register` and the named per-register
  accessors of the `UART` block), modelled operationally on an explicit
  memory together with a trace of the volatile accesses each operation
  issues.

Rust machine integers are modelled as `Nat` (raw register storage, with
masking exactly where the source masks) and as `Fin (2^n)` (the narrow
field-pattern types `u1`..`u8`, `u16`), `Bool`, and subtypes for
`NonZeroU8` / `NonZeroU16`.  Rust `Result<T, E>` is modelled by
`RustResult`.
-/

/-- Model of Rust `Result<T, E>` (`Ok` / `Err`). -/
inductive RustResult (T : Type) (E : Type) where
  | ok (value : T)
  | err (error : E)
deriving DecidableEq, Repr

/-- Bitwise complement at width `w`: models Rust's `!` on a `w`-bit
unsigned integer (`!m = m XOR (2^w - 1)`). -/
def notW (w m : Nat) : Nat := m ^^^ (2 ^ w - 1)

/-- Rust `!` on `u8`. -/
def not8 : Nat → Nat := notW 8

/-- Rust `!` on `u16`. -/
def not16 : Nat → Nat := notW 16

/-- Rust `!` on `u32`. -/
def not32 : Nat → Nat := notW 32

/-- `bitstuff::ints::u1::trimmed_new`: truncate to a 1-bit pattern.
The source first casts the shifted register to the host width (`as _`);
that cast truncates to a multiple of every trim modulus used here, so
composing it with the trim is the single `% 2` below. -/
def bitstuff.u1.trimmed_new (n : Nat) : Fin 2 := ⟨n % 2, by omega⟩

/-- `bitstuff::ints::u2::trimmed_new`: truncate to a 2-bit pattern. -/
def bitstuff.u2.trimmed_new (n : Nat) : Fin 4 := ⟨n % 4, by omega⟩

/-- `bitstuff::ints::u3::trimmed_new`: truncate to a 3-bit pattern. -/
def bitstuff.u3.trimmed_new (n : Nat) : Fin 8 := ⟨n % 8, by omega⟩

/-- `bitstuff::ints::u6::trimmed_new`: truncate to a 6-bit pattern. -/
def bitstuff.u6.trimmed_new (n : Nat) : Fin 64 := ⟨n % 64, by omega⟩

/-- Rust `as u8` truncating cast. -/
def bitstuff.u8.cast (n : Nat) : Fin 256 := ⟨n % 256, by omega⟩

/-- Rust `as u16` truncating cast. -/
def bitstuff.u16.cast (n : Nat) : Fin 65536 := ⟨n % 65536, by omega⟩

/-- Modelled from the spec: `bitstuff`'s `<bool as FromBits>::from_bits`
on a `u1` pattern (total decode, pattern `1` is `true`).  The `bitstuff`
crate is an external collaborator whose source is not under `src/`. -/
def bitstuff.boolFromBits (v : Fin 2) : Bool := v.val == 1

/-- Modelled from the spec: `bitstuff`'s `<bool as ToBits>::to_bits`
(total encode, `true` is pattern `1`). -/
def bitstuff.boolToBits (b : Bool) : Fin 2 := if b then 1 else 0

/-- Rust `core::num::NonZeroU8`: a nonzero 8-bit unsigned integer. -/
abbrev NonZeroU8 : Type := {n : Nat // 0 < n ∧ n < 256}

/-- Rust `core::num::NonZeroU16`: a nonzero 16-bit unsigned integer. -/
abbrev NonZeroU16 : Type := {n : Nat // 0 < n ∧ n < 65536}

/-- Modelled from the spec: `bitstuff`'s fallible decode
`<NonZeroU8 as TryFromBits>::try_from_bits` — the reserved pattern `0`
is rejected carrying the raw pattern, every other 8-bit pattern decodes
to itself. -/
def bitstuff.NonZeroU8.try_from_bits (p : Fin 256) : RustResult NonZeroU8 (Fin 256) :=
  if h : 0 < p.val then .ok ⟨p.val, h, p.isLt⟩ else .err p

/-- Modelled from the spec: `bitstuff`'s fallible decode
`<NonZeroU16 as TryFromBits>::try_from_bits` — the reserved pattern `0`
is rejected carrying the raw pattern, every other 16-bit pattern decodes
to itself. -/
def bitstuff.NonZeroU16.try_from_bits (p : Fin 65536) : RustResult NonZeroU16 (Fin 65536) :=
  if h : 0 < p.val then .ok ⟨p.val, h, p.isLt⟩ else .err p

/-- `registrers::WordLength` — the number of data bits in a frame
(source: `src/registrers.rs`, discriminants `0b00`..`0b11`). -/
inductive WordLength where
  | FiveBits
  | SixBits
  | SevenBits
  | EightBits
deriving DecidableEq, Repr

/-- `Default` for `WordLength` (`#[default] FiveBits`). -/
def WordLength.default : WordLength := .FiveBits

/-- `<WordLength as FromBits>::from_bits` from `src/expanded.rs`: the
match on the `u2` pattern value; the source's final arm is the
unreachable-code panic, which on a 2-bit input can never be taken, so
it is rendered here as the impossible case of `value < 4`. -/
def WordLength.from_bits (value : Fin 4) : WordLength :=
  match h : value.val with
  | 0 => .FiveBits
  | 1 => .SixBits
  | 2 => .SevenBits
  | 3 => .EightBits
  | n + 4 => absurd (h ▸ value.isLt) (by omega)

/-- `<WordLength as FromBits>::from_bits` with the source's
unreachable-code panic arm kept observable as `none`: the literal match
of `src/expanded.rs` lines 520-529 (`0,1,2,3` then the panic arm). -/
def WordLength.from_bits_checked (value : Fin 4) : Option WordLength :=
  match value.val with
  | 0 => some .FiveBits
  | 1 => some .SixBits
  | 2 => some .SevenBits
  | 3 => some .EightBits
  | _ => none

/-- `<WordLength as ToBits>::to_bits` from `src/expanded.rs`. -/
def WordLength.to_bits (self : WordLength) : Fin 4 :=
  bitstuff.u2.trimmed_new
    (match self with
     | .FiveBits => 0
     | .SixBits => 1
     | .SevenBits => 2
     | .EightBits => 3)

/-- `registrers::FIFOLevelSelect` — receive/transmit interrupt FIFO
level trigger points (source: `src/registrers.rs`, discriminants
`0b000`..`0b100`). -/
inductive FIFOLevelSelect where
  | OneEighth
  | OneFourth
  | OneHalf
  | ThreeFourth
  | SevenEighth
deriving DecidableEq, Repr

/-- `Default` for `FIFOLevelSelect` (`#[default] OneHalf`). -/
def FIFOLevelSelect.default : FIFOLevelSelect := .OneHalf

/-- `<FIFOLevelSelect as TryFromBits>::try_from_bits` from
`src/expanded.rs` lines 923-936: patterns `0`..`4` decode to the five
levels in order, patterns `5`..`7` are rejected carrying the raw `u3`
pattern. -/
def FIFOLevelSelect.try_from_bits (value : Fin 8) : RustResult FIFOLevelSelect (Fin 8) :=
  match value.val with
  | 0 => .ok .OneEighth
  | 1 => .ok .OneFourth
  | 2 => .ok .OneHalf
  | 3 => .ok .ThreeFourth
  | 4 => .ok .SevenEighth
  | _ => .err value

/-- `<FIFOLevelSelect as ToBits>::to_bits` from `src/expanded.rs`. -/
def FIFOLevelSelect.to_bits (self : FIFOLevelSelect) : Fin 8 :=
  bitstuff.u3.trimmed_new
    (match self with
     | .OneEighth => 0
     | .OneFourth => 1
     | .OneHalf => 2
     | .ThreeFourth => 3
     | .SevenEighth => 4)

/-! ### Core bit-range codec lemmas

These are the two facts the spec's §4.1 codec contract rests on: an
insertion at a bit range never disturbs a disjoint bit range, and
extraction after insertion at the same range returns the inserted
pattern.  All register accessors below are instances of these shapes. -/

/-- Bits of a value below `2^n` at positions `≥ n` are zero. -/
theorem testBit_eq_false_of_lt_pow {v n i : Nat} (h : v < 2 ^ n) (hi : n ≤ i) :
    v.testBit i = false :=
  Nat.testBit_lt_two_pow (lt_of_lt_of_le h (Nat.pow_le_pow_right (by omega) hi))

/-- Field isolation at the raw-bit level: inserting an `n₂`-bit pattern
at offset `o₂` (via the source's mask-and-or) does not change the
`n₁`-bit pattern extracted at a disjoint offset `o₁`. -/
theorem extract_insert_disjoint (w o₁ n₁ o₂ n₂ M x val : Nat)
    (hm : M = (2 ^ n₂ - 1) <<< o₂) (hval : val < 2 ^ n₂)
    (hd : o₁ + n₁ ≤ o₂ ∨ o₂ + n₂ ≤ o₁) (hw : o₁ + n₁ ≤ w) :
    (((x &&& notW w M) ||| (val <<< o₂)) >>> o₁) % 2 ^ n₁ = (x >>> o₁) % 2 ^ n₁ := by
  subst hm
  apply Nat.eq_of_testBit_eq
  intro i
  simp only [Nat.testBit_mod_two_pow, Nat.testBit_shiftRight, Nat.testBit_lor,
    Nat.testBit_land, notW, Nat.testBit_xor, Nat.testBit_shiftLeft,
    Nat.testBit_two_pow_sub_one]
  by_cases hi : i < n₁
  · have hjw : o₁ + i < w := by omega
    rcases hd with hd | hd
    · have h1 : ¬ (o₂ ≤ o₁ + i) := by omega
      simp [hi, h1, hjw]
    · have h2 : o₂ ≤ o₁ + i := by omega
      have h3 : ¬ (o₁ + i - o₂ < n₂) := by omega
      have h4 : (val).testBit (o₁ + i - o₂) = false :=
        testBit_eq_false_of_lt_pow hval (by omega)
      simp [hi, h2, h3, h4, hjw]
  · simp [hi]

/-- Round trip at the raw-bit level: extracting at offset `o` after
inserting pattern `val < 2^n` there returns `val`. -/
theorem extract_insert_self (w o n M x val : Nat)
    (hm : M = (2 ^ n - 1) <<< o) (hval : val < 2 ^ n) (hw : o + n ≤ w) :
    (((x &&& notW w M) ||| (val <<< o)) >>> o) % 2 ^ n = val := by
  subst hm
  have hv : val % 2 ^ n = val := Nat.mod_eq_of_lt hval
  apply Nat.eq_of_testBit_eq
  intro i
  simp only [Nat.testBit_mod_two_pow, Nat.testBit_shiftRight, Nat.testBit_lor,
    Nat.testBit_land, notW, Nat.testBit_xor, Nat.testBit_shiftLeft,
    Nat.testBit_two_pow_sub_one]
  by_cases hi : i < n
  · have hjw : o + i < w := by omega
    have h2 : o ≤ o + i := by omega
    have h3 : o + i - o < n := by omega
    simp [hi, h2, h3, hjw]
  · have h4 : (val).testBit i = false := testBit_eq_false_of_lt_pow hval (by omega)
    simp [hi, h4]

/-! ### Shape lemmas

Every accessor of the register catalogue is one of a handful of
getter/setter shapes (a `bool` field, a `u8` field, a `WordLength`
field, a `FIFOLevelSelect` field, ...).  The lemmas below instantiate
the core codec lemmas once per shape; the per-register, per-field facts
are then single applications of these. -/

/-- Encoding a `bool` yields a 1-bit pattern. -/
theorem boolToBits_val_lt (b : Bool) : (bitstuff.boolToBits b).val < 2 ^ 1 := by
  cases b <;> decide

/-- A `u8` value is an 8-bit pattern. -/
theorem u8_val_lt (v : Fin 256) : v.val < 2 ^ 8 := v.isLt

/-- A `u6` value is a 6-bit pattern. -/
theorem u6_val_lt (v : Fin 64) : v.val < 2 ^ 6 := v.isLt

/-- Encoding a `WordLength` yields a 2-bit pattern. -/
theorem wordLengthToBits_val_lt (v : WordLength) : (WordLength.to_bits v).val < 2 ^ 2 :=
  (WordLength.to_bits v).isLt

/-- Encoding a `FIFOLevelSelect` yields a 3-bit pattern. -/
theorem fifoToBits_val_lt (v : FIFOLevelSelect) : (FIFOLevelSelect.to_bits v).val < 2 ^ 3 :=
  (FIFOLevelSelect.to_bits v).isLt

/-- A `NonZeroU8` value is an 8-bit pattern. -/
theorem nonZeroU8_val_lt (v : NonZeroU8) : v.val < 2 ^ 8 := v.2.2

/-- A `NonZeroU16` value is a 16-bit pattern. -/
theorem nonZeroU16_val_lt (v : NonZeroU16) : v.val < 2 ^ 16 := v.2.2

/-- Isolation, `bool` getter shape: a disjoint insertion does not change
a 1-bit field read. -/
theorem isol_bool (w o₁ o₂ n₂ M x val : Nat)
    (hm : M = (2 ^ n₂ - 1) <<< o₂) (hval : val < 2 ^ n₂)
    (hd : o₁ + 1 ≤ o₂ ∨ o₂ + n₂ ≤ o₁) (hw : o₁ + 1 ≤ w) :
    bitstuff.boolFromBits (bitstuff.u1.trimmed_new (((x &&& notW w M) ||| (val <<< o₂)) >>> o₁))
      = bitstuff.boolFromBits (bitstuff.u1.trimmed_new (x >>> o₁)) := by
  have h := extract_insert_disjoint w o₁ 1 o₂ n₂ M x val hm hval hd hw
  simp only [pow_one] at h
  simp only [bitstuff.boolFromBits, bitstuff.u1.trimmed_new, h]

/-- Isolation, `u8` getter shape. -/
theorem isol_u8 (w o₁ o₂ n₂ M x val : Nat)
    (hm : M = (2 ^ n₂ - 1) <<< o₂) (hval : val < 2 ^ n₂)
    (hd : o₁ + 8 ≤ o₂ ∨ o₂ + n₂ ≤ o₁) (hw : o₁ + 8 ≤ w) :
    bitstuff.u8.cast (((x &&& notW w M) ||| (val <<< o₂)) >>> o₁)
      = bitstuff.u8.cast (x >>> o₁) := by
  have h := extract_insert_disjoint w o₁ 8 o₂ n₂ M x val hm hval hd hw
  norm_num at h
  exact Fin.ext h

/-- Isolation, `WordLength` getter shape. -/
theorem isol_wordlength (w o₁ o₂ n₂ M x val : Nat)
    (hm : M = (2 ^ n₂ - 1) <<< o₂) (hval : val < 2 ^ n₂)
    (hd : o₁ + 2 ≤ o₂ ∨ o₂ + n₂ ≤ o₁) (hw : o₁ + 2 ≤ w) :
    WordLength.from_bits (bitstuff.u2.trimmed_new (((x &&& notW w M) ||| (val <<< o₂)) >>> o₁))
      = WordLength.from_bits (bitstuff.u2.trimmed_new (x >>> o₁)) := by
  have h := extract_insert_disjoint w o₁ 2 o₂ n₂ M x val hm hval hd hw
  norm_num at h
  exact congrArg WordLength.from_bits (Fin.ext h)

/-- Isolation, `FIFOLevelSelect` getter shape. -/
theorem isol_fifo (w o₁ o₂ n₂ M x val : Nat)
    (hm : M = (2 ^ n₂ - 1) <<< o₂) (hval : val < 2 ^ n₂)
    (hd : o₁ + 3 ≤ o₂ ∨ o₂ + n₂ ≤ o₁) (hw : o₁ + 3 ≤ w) :
    FIFOLevelSelect.try_from_bits (bitstuff.u3.trimmed_new (((x &&& notW w M) ||| (val <<< o₂)) >>> o₁))
      = FIFOLevelSelect.try_from_bits (bitstuff.u3.trimmed_new (x >>> o₁)) := by
  have h := extract_insert_disjoint w o₁ 3 o₂ n₂ M x val hm hval hd hw
  norm_num at h
  exact congrArg FIFOLevelSelect.try_from_bits (Fin.ext h)

/-- Setting then reading a `bool` field returns the set value. -/
theorem get_set_bool (w o M x : Nat) (v : Bool)
    (hm : M = (2 ^ 1 - 1) <<< o) (hw : o + 1 ≤ w) :
    bitstuff.boolFromBits (bitstuff.u1.trimmed_new
      (((x &&& notW w M) ||| ((bitstuff.boolToBits v).val <<< o)) >>> o)) = v := by
  have h := extract_insert_self w o 1 M x (bitstuff.boolToBits v).val hm
    (boolToBits_val_lt v) hw
  simp only [pow_one] at h
  simp only [bitstuff.boolFromBits, bitstuff.u1.trimmed_new, h]
  cases v <;> rfl

/-- Setting then reading a `u8` field returns the set value. -/
theorem get_set_u8 (w o M x : Nat) (v : Fin 256)
    (hm : M = (2 ^ 8 - 1) <<< o) (hw : o + 8 ≤ w) :
    bitstuff.u8.cast (((x &&& notW w M) ||| (v.val <<< o)) >>> o) = v := by
  have h := extract_insert_self w o 8 M x v.val hm (u8_val_lt v) hw
  norm_num at h
  exact Fin.ext (by simpa [bitstuff.u8.cast] using h)

/-- Setting then reading a `WordLength` field returns the set value. -/
theorem get_set_wordlength (w o M x : Nat) (v : WordLength)
    (hm : M = (2 ^ 2 - 1) <<< o) (hw : o + 2 ≤ w) :
    WordLength.from_bits (bitstuff.u2.trimmed_new
      (((x &&& notW w M) ||| ((WordLength.to_bits v).val <<< o)) >>> o)) = v := by
  have h := extract_insert_self w o 2 M x (WordLength.to_bits v).val hm
    (wordLengthToBits_val_lt v) hw
  norm_num at h
  have heq : bitstuff.u2.trimmed_new
      (((x &&& notW w M) ||| ((WordLength.to_bits v).val <<< o)) >>> o)
      = WordLength.to_bits v := Fin.ext (by simpa [bitstuff.u2.trimmed_new] using h)
  rw [heq]
  cases v <;> rfl

/-- Setting then reading a `FIFOLevelSelect` field returns the set
value as a success. -/
theorem get_set_fifo (w o M x : Nat) (v : FIFOLevelSelect)
    (hm : M = (2 ^ 3 - 1) <<< o) (hw : o + 3 ≤ w) :
    FIFOLevelSelect.try_from_bits (bitstuff.u3.trimmed_new
      (((x &&& notW w M) ||| ((FIFOLevelSelect.to_bits v).val <<< o)) >>> o))
      = .ok v := by
  have h := extract_insert_self w o 3 M x (FIFOLevelSelect.to_bits v).val hm
    (fifoToBits_val_lt v) hw
  norm_num at h
  have heq : bitstuff.u3.trimmed_new
      (((x &&& notW w M) ||| ((FIFOLevelSelect.to_bits v).val <<< o)) >>> o)
      = FIFOLevelSelect.to_bits v := Fin.ext (by simpa [bitstuff.u3.trimmed_new] using h)
  rw [heq]
  cases v <;> rfl
/-- `registrers::DataRegister` from `src/expanded.rs`: a 32-bit register value. -/
structure DataRegister where
  raw : Nat
deriving DecidableEq, Repr

/-- Storage width of `DataRegister` (`u32`). -/
def DataRegister.width : Nat := 32

/-- `Default` for `DataRegister`: wraps the default (zero) raw value. -/
def DataRegister.default : DataRegister := ⟨0⟩

/-- Field accessor `DataRegister::overrun_error` (bit offset 11). -/
def DataRegister.overrun_error (self : DataRegister) : Bool :=
  bitstuff.boolFromBits (bitstuff.u1.trimmed_new (self.raw >>> 11))

/-- Field builder `DataRegister::with_overrun_error` (mask `0b100000000000`). -/
def DataRegister.with_overrun_error (self : DataRegister) (value : Bool) : DataRegister :=
  ⟨(self.raw &&& not32 0b100000000000) ||| ((bitstuff.boolToBits value).val <<< 11)⟩

/-- Field accessor `DataRegister::break_error` (bit offset 10). -/
def DataRegister.break_error (self : DataRegister) : Bool :=
  bitstuff.boolFromBits (bitstuff.u1.trimmed_new (self.raw >>> 10))

/-- Field builder `DataRegister::with_break_error` (mask `0b10000000000`). -/
def DataRegister.with_break_error (self : DataRegister) (value : Bool) : DataRegister :=
  ⟨(self.raw &&& not32 0b10000000000) ||| ((bitstuff.boolToBits value).val <<< 10)⟩

/-- Field accessor `DataRegister::parity_error` (bit offset 9). -/
def DataRegister.parity_error (self : DataRegister) : Bool :=
  bitstuff.boolFromBits (bitstuff.u1.trimmed_new (self.raw >>> 9))

/-- Field builder `DataRegister::with_parity_error` (mask `0b1000000000`). -/
def DataRegister.with_parity_error (self : DataRegister) (value : Bool) : DataRegister :=
  ⟨(self.raw &&& not32 0b1000000000) ||| ((bitstuff.boolToBits value).val <<< 9)⟩

/-- Field accessor `DataRegister::framing_error` (bit offset 8). -/
def DataRegister.framing_error (self : DataRegister) : Bool :=
  bitstuff.boolFromBits (bitstuff.u1.trimmed_new (self.raw >>> 8))

/-- Field builder `DataRegister::with_framing_error` (mask `0b100000000`). -/
def DataRegister.with_framing_error (self : DataRegister) (value : Bool) : DataRegister :=
  ⟨(self.raw &&& not32 0b100000000) ||| ((bitstuff.boolToBits value).val <<< 8)⟩

/-- Field accessor `DataRegister::data` (bit offset 0). -/
def DataRegister.data (self : DataRegister) : Fin 256 :=
  bitstuff.u8.cast (self.raw >>> 0)

/-- Field builder `DataRegister::with_data` (mask `0b11111111`). -/
def DataRegister.with_data (self : DataRegister) (value : Fin 256) : DataRegister :=
  ⟨(self.raw &&& not32 0b11111111) ||| (value.val <<< 0)⟩

/-- `registrers::ReceiveStatusRegister` from `src/expanded.rs`: a 32-bit register value. -/
structure ReceiveStatusRegister where
  raw : Nat
deriving DecidableEq, Repr

/-- Storage width of `ReceiveStatusRegister` (`u32`). -/
def ReceiveStatusRegister.width : Nat := 32

/-- `Default` for `ReceiveStatusRegister`: wraps the default (zero) raw value. -/
def ReceiveStatusRegister.default : ReceiveStatusRegister := ⟨0⟩

/-- Field accessor `ReceiveStatusRegister::overrun_error` (bit offset 3). -/
def ReceiveStatusRegister.overrun_error (self : ReceiveStatusRegister) : Bool :=
  bitstuff.boolFromBits (bitstuff.u1.trimmed_new (self.raw >>> 3))

/-- Field builder `ReceiveStatusRegister::with_overrun_error` (mask `0b1000`). -/
def ReceiveStatusRegister.with_overrun_error (self : ReceiveStatusRegister) (value : Bool) : ReceiveStatusRegister :=
  ⟨(self.raw &&& not32 0b1000) ||| ((bitstuff.boolToBits value).val <<< 3)⟩

/-- Field accessor `ReceiveStatusRegister::break_error` (bit offset 2). -/
def ReceiveStatusRegister.break_error (self : ReceiveStatusRegister) : Bool :=
  bitstuff.boolFromBits (bitstuff.u1.trimmed_new (self.raw >>> 2))

/-- Field builder `ReceiveStatusRegister::with_break_error` (mask `0b100`). -/
def ReceiveStatusRegister.with_break_error (self : ReceiveStatusRegister) (value : Bool) : ReceiveStatusRegister :=
  ⟨(self.raw &&& not32 0b100) ||| ((bitstuff.boolToBits value).val <<< 2)⟩

/-- Field accessor `ReceiveStatusRegister::parity_error` (bit offset 1). -/
def ReceiveStatusRegister.parity_error (self : ReceiveStatusRegister) : Bool :=
  bitstuff.boolFromBits (bitstuff.u1.trimmed_new (self.raw >>> 1))

/-- Field builder `ReceiveStatusRegister::with_parity_error` (mask `0b10`). -/
def ReceiveStatusRegister.with_parity_error (self : ReceiveStatusRegister) (value : Bool) : ReceiveStatusRegister :=
  ⟨(self.raw &&& not32 0b10) ||| ((bitstuff.boolToBits value).val <<< 1)⟩

/-- Field accessor `ReceiveStatusRegister::framing_error` (bit offset 0). -/
def ReceiveStatusRegister.framing_error (self : ReceiveStatusRegister) : Bool :=
  bitstuff.boolFromBits (bitstuff.u1.trimmed_new (self.raw >>> 0))

/-- Field builder `ReceiveStatusRegister::with_framing_error` (mask `0b1`). -/
def ReceiveStatusRegister.with_framing_error (self : ReceiveStatusRegister) (value : Bool) : ReceiveStatusRegister :=
  ⟨(self.raw &&& not32 0b1) ||| ((bitstuff.boolToBits value).val <<< 0)⟩

/-- `registrers::FlagRegister` from `src/expanded.rs`: a 32-bit register value. -/
structure FlagRegister where
  raw : Nat
deriving DecidableEq, Repr

/-- Storage width of `FlagRegister` (`u32`). -/
def FlagRegister.width : Nat := 32

/-- `Default` for `FlagRegister`: wraps the default (zero) raw value. -/
def FlagRegister.default : FlagRegister := ⟨0⟩

/-- Field accessor `FlagRegister::ring_indicator` (bit offset 8). -/
def FlagRegister.ring_indicator (self : FlagRegister) : Bool :=
  bitstuff.boolFromBits (bitstuff.u1.trimmed_new (self.raw >>> 8))

/-- Field builder `FlagRegister::with_ring_indicator` (mask `0b100000000`). -/
def FlagRegister.with_ring_indicator (self : FlagRegister) (value : Bool) : FlagRegister :=
  ⟨(self.raw &&& not32 0b100000000) ||| ((bitstuff.boolToBits value).val <<< 8)⟩

/-- Field accessor `FlagRegister::transmit_fifo_empty` (bit offset 7). -/
def FlagRegister.transmit_fifo_empty (self : FlagRegister) : Bool :=
  bitstuff.boolFromBits (bitstuff.u1.trimmed_new (self.raw >>> 7))

/-- Field builder `FlagRegister::with_transmit_fifo_empty` (mask `0b10000000`). -/
def FlagRegister.with_transmit_fifo_empty (self : FlagRegister) (value : Bool) : FlagRegister :=
  ⟨(self.raw &&& not32 0b10000000) ||| ((bitstuff.boolToBits value).val <<< 7)⟩

/-- Field accessor `FlagRegister::receive_fifo_full` (bit offset 6). -/
def FlagRegister.receive_fifo_full (self : FlagRegister) : Bool :=
  bitstuff.boolFromBits (bitstuff.u1.trimmed_new (self.raw >>> 6))

/-- Field builder `FlagRegister::with_receive_fifo_full` (mask `0b1000000`). -/
def FlagRegister.with_receive_fifo_full (self : FlagRegister) (value : Bool) : FlagRegister :=
  ⟨(self.raw &&& not32 0b1000000) ||| ((bitstuff.boolToBits value).val <<< 6)⟩

/-- Field accessor `FlagRegister::transmit_fifo_full` (bit offset 5). -/
def FlagRegister.transmit_fifo_full (self : FlagRegister) : Bool :=
  bitstuff.boolFromBits (bitstuff.u1.trimmed_new (self.raw >>> 5))

/-- Field builder `FlagRegister::with_transmit_fifo_full` (mask `0b100000`). -/
def FlagRegister.with_transmit_fifo_full (self : FlagRegister) (value : Bool) : FlagRegister :=
  ⟨(self.raw &&& not32 0b100000) ||| ((bitstuff.boolToBits value).val <<< 5)⟩

/-- Field accessor `FlagRegister::receive_fifo_empty` (bit offset 4). -/
def FlagRegister.receive_fifo_empty (self : FlagRegister) : Bool :=
  bitstuff.boolFromBits (bitstuff.u1.trimmed_new (self.raw >>> 4))

/-- Field builder `FlagRegister::with_receive_fifo_empty` (mask `0b10000`). -/
def FlagRegister.with_receive_fifo_empty (self : FlagRegister) (value : Bool) : FlagRegister :=
  ⟨(self.raw &&& not32 0b10000) ||| ((bitstuff.boolToBits value).val <<< 4)⟩

/-- Field accessor `FlagRegister::uart_busy` (bit offset 3). -/
def FlagRegister.uart_busy (self : FlagRegister) : Bool :=
  bitstuff.boolFromBits (bitstuff.u1.trimmed_new (self.raw >>> 3))

/-- Field builder `FlagRegister::with_uart_busy` (mask `0b1000`). -/
def FlagRegister.with_uart_busy (self : FlagRegister) (value : Bool) : FlagRegister :=
  ⟨(self.raw &&& not32 0b1000) ||| ((bitstuff.boolToBits value).val <<< 3)⟩

/-- Field accessor `FlagRegister::data_carrier_detect` (bit offset 2). -/
def FlagRegister.data_carrier_detect (self : FlagRegister) : Bool :=
  bitstuff.boolFromBits (bitstuff.u1.trimmed_new (self.raw >>> 2))

/-- Field builder `FlagRegister::with_data_carrier_detect` (mask `0b100`). -/
def FlagRegister.with_data_carrier_detect (self : FlagRegister) (value : Bool) : FlagRegister :=
  ⟨(self.raw &&& not32 0b100) ||| ((bitstuff.boolToBits value).val <<< 2)⟩

/-- Field accessor `FlagRegister::data_set_ready` (bit offset 1). -/
def FlagRegister.data_set_ready (self : FlagRegister) : Bool :=
  bitstuff.boolFromBits (bitstuff.u1.trimmed_new (self.raw >>> 1))

/-- Field builder `FlagRegister::with_data_set_ready` (mask `0b10`). -/
def FlagRegister.with_data_set_ready (self : FlagRegister) (value : Bool) : FlagRegister :=
  ⟨(self.raw &&& not32 0b10) ||| ((bitstuff.boolToBits value).val <<< 1)⟩

/-- Field accessor `FlagRegister::clear_to_send` (bit offset 0). -/
def FlagRegister.clear_to_send (self : FlagRegister) : Bool :=
  bitstuff.boolFromBits (bitstuff.u1.trimmed_new (self.raw >>> 0))

/-- Field builder `FlagRegister::with_clear_to_send` (mask `0b1`). -/
def FlagRegister.with_clear_to_send (self : FlagRegister) (value : Bool) : FlagRegister :=
  ⟨(self.raw &&& not32 0b1) ||| ((bitstuff.boolToBits value).val <<< 0)⟩

/-- `registrers::IrDALowPowerRegister` from `src/expanded.rs`: a 8-bit register value. -/
structure IrDALowPowerRegister where
  raw : Nat
deriving DecidableEq, Repr

/-- Storage width of `IrDALowPowerRegister` (`u8`). -/
def IrDALowPowerRegister.width : Nat := 8

/-- `Default` for `IrDALowPowerRegister`: wraps the default (zero) raw value. -/
def IrDALowPowerRegister.default : IrDALowPowerRegister := ⟨0⟩

/-- Field accessor `IrDALowPowerRegister::low_power_divisor_value` (bit offset 0). -/
def IrDALowPowerRegister.low_power_divisor_value (self : IrDALowPowerRegister) : RustResult NonZeroU8 (Fin 256) :=
  bitstuff.NonZeroU8.try_from_bits (bitstuff.u8.cast (self.raw >>> 0))

/-- Field builder `IrDALowPowerRegister::with_low_power_divisor_value` (mask `0b11111111`). -/
def IrDALowPowerRegister.with_low_power_divisor_value (self : IrDALowPowerRegister) (value : NonZeroU8) : IrDALowPowerRegister :=
  ⟨(self.raw &&& not8 0b11111111) ||| (value.val <<< 0)⟩

/-- `registrers::IntegerBaudRateDivisorRegister` from `src/expanded.rs`: a 16-bit register value. -/
structure IntegerBaudRateDivisorRegister where
  raw : Nat
deriving DecidableEq, Repr

/-- Storage width of `IntegerBaudRateDivisorRegister` (`u16`). -/
def IntegerBaudRateDivisorRegister.width : Nat := 16

/-- `Default` for `IntegerBaudRateDivisorRegister`: wraps the default (zero) raw value. -/
def IntegerBaudRateDivisorRegister.default : IntegerBaudRateDivisorRegister := ⟨0⟩

/-- Field accessor `IntegerBaudRateDivisorRegister::integer_baud_rate_divisor` (bit offset 0). -/
def IntegerBaudRateDivisorRegister.integer_baud_rate_divisor (self : IntegerBaudRateDivisorRegister) : RustResult NonZeroU16 (Fin 65536) :=
  bitstuff.NonZeroU16.try_from_bits (bitstuff.u16.cast (self.raw >>> 0))

/-- Field builder `IntegerBaudRateDivisorRegister::with_integer_baud_rate_divisor` (mask `0b1111111111111111`). -/
def IntegerBaudRateDivisorRegister.with_integer_baud_rate_divisor (self : IntegerBaudRateDivisorRegister) (value : NonZeroU16) : IntegerBaudRateDivisorRegister :=
  ⟨(self.raw &&& not16 0b1111111111111111) ||| (value.val <<< 0)⟩

/-- `registrers::FractionalBaudRateDivisorRegister` from `src/expanded.rs`: a 8-bit register value. -/
structure FractionalBaudRateDivisorRegister where
  raw : Nat
deriving DecidableEq, Repr

/-- Storage width of `FractionalBaudRateDivisorRegister` (`u8`). -/
def FractionalBaudRateDivisorRegister.width : Nat := 8

/-- `Default` for `FractionalBaudRateDivisorRegister`: wraps the default (zero) raw value. -/
def FractionalBaudRateDivisorRegister.default : FractionalBaudRateDivisorRegister := ⟨0⟩

/-- Field accessor `FractionalBaudRateDivisorRegister::fractional_baud_rate_divisor` (bit offset 0). -/
def FractionalBaudRateDivisorRegister.fractional_baud_rate_divisor (self : FractionalBaudRateDivisorRegister) : Fin 64 :=
  bitstuff.u6.trimmed_new (self.raw >>> 0)

/-- Field builder `FractionalBaudRateDivisorRegister::with_fractional_baud_rate_divisor` (mask `0b111111`). -/
def FractionalBaudRateDivisorRegister.with_fractional_baud_rate_divisor (self : FractionalBaudRateDivisorRegister) (value : Fin 64) : FractionalBaudRateDivisorRegister :=
  ⟨(self.raw &&& not8 0b111111) ||| (value.val <<< 0)⟩

/-- `registrers::LineControlRegister` from `src/expanded.rs`: a 16-bit register value. -/
structure LineControlRegister where
  raw : Nat
deriving DecidableEq, Repr

/-- Storage width of `LineControlRegister` (`u16`). -/
def LineControlRegister.width : Nat := 16

/-- `Default` for `LineControlRegister`: wraps the default (zero) raw value. -/
def LineControlRegister.default : LineControlRegister := ⟨0⟩

/-- Field accessor `LineControlRegister::stick_parity` (bit offset 7). -/
def LineControlRegister.stick_parity (self : LineControlRegister) : Bool :=
  bitstuff.boolFromBits (bitstuff.u1.trimmed_new (self.raw >>> 7))

/-- Field builder `LineControlRegister::with_stick_parity` (mask `0b10000000`). -/
def LineControlRegister.with_stick_parity (self : LineControlRegister) (value : Bool) : LineControlRegister :=
  ⟨(self.raw &&& not16 0b10000000) ||| ((bitstuff.boolToBits value).val <<< 7)⟩

/-- Field accessor `LineControlRegister::word_length` (bit offset 5). -/
def LineControlRegister.word_length (self : LineControlRegister) : WordLength :=
  WordLength.from_bits (bitstuff.u2.trimmed_new (self.raw >>> 5))

/-- Field builder `LineControlRegister::with_word_length` (mask `0b1100000`). -/
def LineControlRegister.with_word_length (self : LineControlRegister) (value : WordLength) : LineControlRegister :=
  ⟨(self.raw &&& not16 0b1100000) ||| ((WordLength.to_bits value).val <<< 5)⟩

/-- Field accessor `LineControlRegister::enable_fifos` (bit offset 4). -/
def LineControlRegister.enable_fifos (self : LineControlRegister) : Bool :=
  bitstuff.boolFromBits (bitstuff.u1.trimmed_new (self.raw >>> 4))

/-- Field builder `LineControlRegister::with_enable_fifos` (mask `0b10000`). -/
def LineControlRegister.with_enable_fifos (self : LineControlRegister) (value : Bool) : LineControlRegister :=
  ⟨(self.raw &&& not16 0b10000) ||| ((bitstuff.boolToBits value).val <<< 4)⟩

/-- Field accessor `LineControlRegister::two_stop_bits_select` (bit offset 3). -/
def LineControlRegister.two_stop_bits_select (self : LineControlRegister) : Bool :=
  bitstuff.boolFromBits (bitstuff.u1.trimmed_new (self.raw >>> 3))

/-- Field builder `LineControlRegister::with_two_stop_bits_select` (mask `0b1000`). -/
def LineControlRegister.with_two_stop_bits_select (self : LineControlRegister) (value : Bool) : LineControlRegister :=
  ⟨(self.raw &&& not16 0b1000) ||| ((bitstuff.boolToBits value).val <<< 3)⟩

/-- Field accessor `LineControlRegister::even_parity_select` (bit offset 2). -/
def LineControlRegister.even_parity_select (self : LineControlRegister) : Bool :=
  bitstuff.boolFromBits (bitstuff.u1.trimmed_new (self.raw >>> 2))

/-- Field builder `LineControlRegister::with_even_parity_select` (mask `0b100`). -/
def LineControlRegister.with_even_parity_select (self : LineControlRegister) (value : Bool) : LineControlRegister :=
  ⟨(self.raw &&& not16 0b100) ||| ((bitstuff.boolToBits value).val <<< 2)⟩

/-- Field accessor `LineControlRegister::parity_enable` (bit offset 1). -/
def LineControlRegister.parity_enable (self : LineControlRegister) : Bool :=
  bitstuff.boolFromBits (bitstuff.u1.trimmed_new (self.raw >>> 1))

/-- Field builder `LineControlRegister::with_parity_enable` (mask `0b10`). -/
def LineControlRegister.with_parity_enable (self : LineControlRegister) (value : Bool) : LineControlRegister :=
  ⟨(self.raw &&& not16 0b10) ||| ((bitstuff.boolToBits value).val <<< 1)⟩

/-- Field accessor `LineControlRegister::send_break` (bit offset 0). -/
def LineControlRegister.send_break (self : LineControlRegister) : Bool :=
  bitstuff.boolFromBits (bitstuff.u1.trimmed_new (self.raw >>> 0))

/-- Field builder `LineControlRegister::with_send_break` (mask `0b1`). -/
def LineControlRegister.with_send_break (self : LineControlRegister) (value : Bool) : LineControlRegister :=
  ⟨(self.raw &&& not16 0b1) ||| ((bitstuff.boolToBits value).val <<< 0)⟩

/-- `registrers::ControlRegister` from `src/expanded.rs`: a 16-bit register value. -/
structure ControlRegister where
  raw : Nat
deriving DecidableEq, Repr

/-- Storage width of `ControlRegister` (`u16`). -/
def ControlRegister.width : Nat := 16

/-- `Default` for `ControlRegister`: wraps the default (zero) raw value. -/
def ControlRegister.default : ControlRegister := ⟨0⟩

/-- Field accessor `ControlRegister::CTS_hardware_flow_control_enable` (bit offset 15). -/
def ControlRegister.CTS_hardware_flow_control_enable (self : ControlRegister) : Bool :=
  bitstuff.boolFromBits (bitstuff.u1.trimmed_new (self.raw >>> 15))

/-- Field builder `ControlRegister::with_CTS_hardware_flow_control_enable` (mask `0b1000000000000000`). -/
def ControlRegister.with_CTS_hardware_flow_control_enable (self : ControlRegister) (value : Bool) : ControlRegister :=
  ⟨(self.raw &&& not16 0b1000000000000000) ||| ((bitstuff.boolToBits value).val <<< 15)⟩

/-- Field accessor `ControlRegister::RTS_hardware_flow_control_enable` (bit offset 14). -/
def ControlRegister.RTS_hardware_flow_control_enable (self : ControlRegister) : Bool :=
  bitstuff.boolFromBits (bitstuff.u1.trimmed_new (self.raw >>> 14))

/-- Field builder `ControlRegister::with_RTS_hardware_flow_control_enable` (mask `0b100000000000000`). -/
def ControlRegister.with_RTS_hardware_flow_control_enable (self : ControlRegister) (value : Bool) : ControlRegister :=
  ⟨(self.raw &&& not16 0b100000000000000) ||| ((bitstuff.boolToBits value).val <<< 14)⟩

/-- Field accessor `ControlRegister::out2` (bit offset 13). -/
def ControlRegister.out2 (self : ControlRegister) : Bool :=
  bitstuff.boolFromBits (bitstuff.u1.trimmed_new (self.raw >>> 13))

/-- Field builder `ControlRegister::with_out2` (mask `0b10000000000000`). -/
def ControlRegister.with_out2 (self : ControlRegister) (value : Bool) : ControlRegister :=
  ⟨(self.raw &&& not16 0b10000000000000) ||| ((bitstuff.boolToBits value).val <<< 13)⟩

/-- Field accessor `ControlRegister::out1` (bit offset 12). -/
def ControlRegister.out1 (self : ControlRegister) : Bool :=
  bitstuff.boolFromBits (bitstuff.u1.trimmed_new (self.raw >>> 12))

/-- Field builder `ControlRegister::with_out1` (mask `0b1000000000000`). -/
def ControlRegister.with_out1 (self : ControlRegister) (value : Bool) : ControlRegister :=
  ⟨(self.raw &&& not16 0b1000000000000) ||| ((bitstuff.boolToBits value).val <<< 12)⟩

/-- Field accessor `ControlRegister::request_to_send` (bit offset 11). -/
def ControlRegister.request_to_send (self : ControlRegister) : Bool :=
  bitstuff.boolFromBits (bitstuff.u1.trimmed_new (self.raw >>> 11))

/-- Field builder `ControlRegister::with_request_to_send` (mask `0b100000000000`). -/
def ControlRegister.with_request_to_send (self : ControlRegister) (value : Bool) : ControlRegister :=
  ⟨(self.raw &&& not16 0b100000000000) ||| ((bitstuff.boolToBits value).val <<< 11)⟩

/-- Field accessor `ControlRegister::data_transmit_ready` (bit offset 10). -/
def ControlRegister.data_transmit_ready (self : ControlRegister) : Bool :=
  bitstuff.boolFromBits (bitstuff.u1.trimmed_new (self.raw >>> 10))

/-- Field builder `ControlRegister::with_data_transmit_ready` (mask `0b10000000000`). -/
def ControlRegister.with_data_transmit_ready (self : ControlRegister) (value : Bool) : ControlRegister :=
  ⟨(self.raw &&& not16 0b10000000000) ||| ((bitstuff.boolToBits value).val <<< 10)⟩

/-- Field accessor `ControlRegister::receive_enable` (bit offset 9). -/
def ControlRegister.receive_enable (self : ControlRegister) : Bool :=
  bitstuff.boolFromBits (bitstuff.u1.trimmed_new (self.raw >>> 9))

/-- Field builder `ControlRegister::with_receive_enable` (mask `0b1000000000`). -/
def ControlRegister.with_receive_enable (self : ControlRegister) (value : Bool) : ControlRegister :=
  ⟨(self.raw &&& not16 0b1000000000) ||| ((bitstuff.boolToBits value).val <<< 9)⟩

/-- Field accessor `ControlRegister::transmit_enable` (bit offset 8). -/
def ControlRegister.transmit_enable (self : ControlRegister) : Bool :=
  bitstuff.boolFromBits (bitstuff.u1.trimmed_new (self.raw >>> 8))

/-- Field builder `ControlRegister::with_transmit_enable` (mask `0b100000000`). -/
def ControlRegister.with_transmit_enable (self : ControlRegister) (value : Bool) : ControlRegister :=
  ⟨(self.raw &&& not16 0b100000000) ||| ((bitstuff.boolToBits value).val <<< 8)⟩

/-- Field accessor `ControlRegister::loopback_enable` (bit offset 7). -/
def ControlRegister.loopback_enable (self : ControlRegister) : Bool :=
  bitstuff.boolFromBits (bitstuff.u1.trimmed_new (self.raw >>> 7))

/-- Field builder `ControlRegister::with_loopback_enable` (mask `0b10000000`). -/
def ControlRegister.with_loopback_enable (self : ControlRegister) (value : Bool) : ControlRegister :=
  ⟨(self.raw &&& not16 0b10000000) ||| ((bitstuff.boolToBits value).val <<< 7)⟩

/-- Field accessor `ControlRegister::SIR_enable` (bit offset 1). -/
def ControlRegister.SIR_enable (self : ControlRegister) : Bool :=
  bitstuff.boolFromBits (bitstuff.u1.trimmed_new (self.raw >>> 1))

/-- Field builder `ControlRegister::with_SIR_enable` (mask `0b10`). -/
def ControlRegister.with_SIR_enable (self : ControlRegister) (value : Bool) : ControlRegister :=
  ⟨(self.raw &&& not16 0b10) ||| ((bitstuff.boolToBits value).val <<< 1)⟩

/-- Field accessor `ControlRegister::UART_enable` (bit offset 0). -/
def ControlRegister.UART_enable (self : ControlRegister) : Bool :=
  bitstuff.boolFromBits (bitstuff.u1.trimmed_new (self.raw >>> 0))

/-- Field builder `ControlRegister::with_UART_enable` (mask `0b1`). -/
def ControlRegister.with_UART_enable (self : ControlRegister) (value : Bool) : ControlRegister :=
  ⟨(self.raw &&& not16 0b1) ||| ((bitstuff.boolToBits value).val <<< 0)⟩

/-- `registrers::InterruptFIFOLevelSelectRegister` from `src/expanded.rs`: a 16-bit register value. -/
structure InterruptFIFOLevelSelectRegister where
  raw : Nat
deriving DecidableEq, Repr

/-- Storage width of `InterruptFIFOLevelSelectRegister` (`u16`). -/
def InterruptFIFOLevelSelectRegister.width : Nat := 16

/-- Field accessor `InterruptFIFOLevelSelectRegister::receive_interrupt_FIFO_level_select` (bit offset 3). -/
def InterruptFIFOLevelSelectRegister.receive_interrupt_FIFO_level_select (self : InterruptFIFOLevelSelectRegister) : RustResult FIFOLevelSelect (Fin 8) :=
  FIFOLevelSelect.try_from_bits (bitstuff.u3.trimmed_new (self.raw >>> 3))

/-- Field builder `InterruptFIFOLevelSelectRegister::with_receive_interrupt_FIFO_level_select` (mask `0b111000`). -/
def InterruptFIFOLevelSelectRegister.with_receive_interrupt_FIFO_level_select (self : InterruptFIFOLevelSelectRegister) (value : FIFOLevelSelect) : InterruptFIFOLevelSelectRegister :=
  ⟨(self.raw &&& not16 0b111000) ||| ((FIFOLevelSelect.to_bits value).val <<< 3)⟩

/-- Field accessor `InterruptFIFOLevelSelectRegister::transmit_interrupt_FIFO_level_select` (bit offset 0). -/
def InterruptFIFOLevelSelectRegister.transmit_interrupt_FIFO_level_select (self : InterruptFIFOLevelSelectRegister) : RustResult FIFOLevelSelect (Fin 8) :=
  FIFOLevelSelect.try_from_bits (bitstuff.u3.trimmed_new (self.raw >>> 0))

/-- Field builder `InterruptFIFOLevelSelectRegister::with_transmit_interrupt_FIFO_level_select` (mask `0b111`). -/
def InterruptFIFOLevelSelectRegister.with_transmit_interrupt_FIFO_level_select (self : InterruptFIFOLevelSelectRegister) (value : FIFOLevelSelect) : InterruptFIFOLevelSelectRegister :=
  ⟨(self.raw &&& not16 0b111) ||| ((FIFOLevelSelect.to_bits value).val <<< 0)⟩

/-- `registrers::InterruptMaskSetClearRegister` from `src/expanded.rs`: a 16-bit register value. -/
structure InterruptMaskSetClearRegister where
  raw : Nat
deriving DecidableEq, Repr

/-- Storage width of `InterruptMaskSetClearRegister` (`u16`). -/
def InterruptMaskSetClearRegister.width : Nat := 16

/-- Field accessor `InterruptMaskSetClearRegister::overrun_error_interrupt_mask` (bit offset 10). -/
def InterruptMaskSetClearRegister.overrun_error_interrupt_mask (self : InterruptMaskSetClearRegister) : Bool :=
  bitstuff.boolFromBits (bitstuff.u1.trimmed_new (self.raw >>> 10))

/-- Field builder `InterruptMaskSetClearRegister::with_overrun_error_interrupt_mask` (mask `0b10000000000`). -/
def InterruptMaskSetClearRegister.with_overrun_error_interrupt_mask (self : InterruptMaskSetClearRegister) (value : Bool) : InterruptMaskSetClearRegister :=
  ⟨(self.raw &&& not16 0b10000000000) ||| ((bitstuff.boolToBits value).val <<< 10)⟩

/-- Field accessor `InterruptMaskSetClearRegister::break_error_interrupt_mask` (bit offset 9). -/
def InterruptMaskSetClearRegister.break_error_interrupt_mask (self : InterruptMaskSetClearRegister) : Bool :=
  bitstuff.boolFromBits (bitstuff.u1.trimmed_new (self.raw >>> 9))

/-- Field builder `InterruptMaskSetClearRegister::with_break_error_interrupt_mask` (mask `0b1000000000`). -/
def InterruptMaskSetClearRegister.with_break_error_interrupt_mask (self : InterruptMaskSetClearRegister) (value : Bool) : InterruptMaskSetClearRegister :=
  ⟨(self.raw &&& not16 0b1000000000) ||| ((bitstuff.boolToBits value).val <<< 9)⟩

/-- Field accessor `InterruptMaskSetClearRegister::parity_error_interrupt_mask` (bit offset 8). -/
def InterruptMaskSetClearRegister.parity_error_interrupt_mask (self : InterruptMaskSetClearRegister) : Bool :=
  bitstuff.boolFromBits (bitstuff.u1.trimmed_new (self.raw >>> 8))

/-- Field builder `InterruptMaskSetClearRegister::with_parity_error_interrupt_mask` (mask `0b100000000`). -/
def InterruptMaskSetClearRegister.with_parity_error_interrupt_mask (self : InterruptMaskSetClearRegister) (value : Bool) : InterruptMaskSetClearRegister :=
  ⟨(self.raw &&& not16 0b100000000) ||| ((bitstuff.boolToBits value).val <<< 8)⟩

/-- Field accessor `InterruptMaskSetClearRegister::framing_error_interrupt_mask` (bit offset 7). -/
def InterruptMaskSetClearRegister.framing_error_interrupt_mask (self : InterruptMaskSetClearRegister) : Bool :=
  bitstuff.boolFromBits (bitstuff.u1.trimmed_new (self.raw >>> 7))

/-- Field builder `InterruptMaskSetClearRegister::with_framing_error_interrupt_mask` (mask `0b10000000`). -/
def InterruptMaskSetClearRegister.with_framing_error_interrupt_mask (self : InterruptMaskSetClearRegister) (value : Bool) : InterruptMaskSetClearRegister :=
  ⟨(self.raw &&& not16 0b10000000) ||| ((bitstuff.boolToBits value).val <<< 7)⟩

/-- Field accessor `InterruptMaskSetClearRegister::receive_timeout_interrupt_mask` (bit offset 6). -/
def InterruptMaskSetClearRegister.receive_timeout_interrupt_mask (self : InterruptMaskSetClearRegister) : Bool :=
  bitstuff.boolFromBits (bitstuff.u1.trimmed_new (self.raw >>> 6))

/-- Field builder `InterruptMaskSetClearRegister::with_receive_timeout_interrupt_mask` (mask `0b1000000`). -/
def InterruptMaskSetClearRegister.with_receive_timeout_interrupt_mask (self : InterruptMaskSetClearRegister) (value : Bool) : InterruptMaskSetClearRegister :=
  ⟨(self.raw &&& not16 0b1000000) ||| ((bitstuff.boolToBits value).val <<< 6)⟩

/-- Field accessor `InterruptMaskSetClearRegister::transmit_interrupt_mask` (bit offset 5). -/
def InterruptMaskSetClearRegister.transmit_interrupt_mask (self : InterruptMaskSetClearRegister) : Bool :=
  bitstuff.boolFromBits (bitstuff.u1.trimmed_new (self.raw >>> 5))

/-- Field builder `InterruptMaskSetClearRegister::with_transmit_interrupt_mask` (mask `0b100000`). -/
def InterruptMaskSetClearRegister.with_transmit_interrupt_mask (self : InterruptMaskSetClearRegister) (value : Bool) : InterruptMaskSetClearRegister :=
  ⟨(self.raw &&& not16 0b100000) ||| ((bitstuff.boolToBits value).val <<< 5)⟩

/-- Field accessor `InterruptMaskSetClearRegister::receive_interrupt_mask` (bit offset 4). -/
def InterruptMaskSetClearRegister.receive_interrupt_mask (self : InterruptMaskSetClearRegister) : Bool :=
  bitstuff.boolFromBits (bitstuff.u1.trimmed_new (self.raw >>> 4))

/-- Field builder `InterruptMaskSetClearRegister::with_receive_interrupt_mask` (mask `0b10000`). -/
def InterruptMaskSetClearRegister.with_receive_interrupt_mask (self : InterruptMaskSetClearRegister) (value : Bool) : InterruptMaskSetClearRegister :=
  ⟨(self.raw &&& not16 0b10000) ||| ((bitstuff.boolToBits value).val <<< 4)⟩

/-- Field accessor `InterruptMaskSetClearRegister::nUARTDSR_modem_interrupt_mask` (bit offset 3). -/
def InterruptMaskSetClearRegister.nUARTDSR_modem_interrupt_mask (self : InterruptMaskSetClearRegister) : Bool :=
  bitstuff.boolFromBits (bitstuff.u1.trimmed_new (self.raw >>> 3))

/-- Field builder `InterruptMaskSetClearRegister::with_nUARTDSR_modem_interrupt_mask` (mask `0b1000`). -/
def InterruptMaskSetClearRegister.with_nUARTDSR_modem_interrupt_mask (self : InterruptMaskSetClearRegister) (value : Bool) : InterruptMaskSetClearRegister :=
  ⟨(self.raw &&& not16 0b1000) ||| ((bitstuff.boolToBits value).val <<< 3)⟩

/-- Field accessor `InterruptMaskSetClearRegister::nUARTDCD_modem_interrupt_mask` (bit offset 2). -/
def InterruptMaskSetClearRegister.nUARTDCD_modem_interrupt_mask (self : InterruptMaskSetClearRegister) : Bool :=
  bitstuff.boolFromBits (bitstuff.u1.trimmed_new (self.raw >>> 2))

/-- Field builder `InterruptMaskSetClearRegister::with_nUARTDCD_modem_interrupt_mask` (mask `0b100`). -/
def InterruptMaskSetClearRegister.with_nUARTDCD_modem_interrupt_mask (self : InterruptMaskSetClearRegister) (value : Bool) : InterruptMaskSetClearRegister :=
  ⟨(self.raw &&& not16 0b100) ||| ((bitstuff.boolToBits value).val <<< 2)⟩

/-- Field accessor `InterruptMaskSetClearRegister::nUARTCTS_modem_interrupt_mask` (bit offset 1). -/
def InterruptMaskSetClearRegister.nUARTCTS_modem_interrupt_mask (self : InterruptMaskSetClearRegister) : Bool :=
  bitstuff.boolFromBits (bitstuff.u1.trimmed_new (self.raw >>> 1))

/-- Field builder `InterruptMaskSetClearRegister::with_nUARTCTS_modem_interrupt_mask` (mask `0b10`). -/
def InterruptMaskSetClearRegister.with_nUARTCTS_modem_interrupt_mask (self : InterruptMaskSetClearRegister) (value : Bool) : InterruptMaskSetClearRegister :=
  ⟨(self.raw &&& not16 0b10) ||| ((bitstuff.boolToBits value).val <<< 1)⟩

/-- Field accessor `InterruptMaskSetClearRegister::nUARTRI_modem_interrupt_mask` (bit offset 0). -/
def InterruptMaskSetClearRegister.nUARTRI_modem_interrupt_mask (self : InterruptMaskSetClearRegister) : Bool :=
  bitstuff.boolFromBits (bitstuff.u1.trimmed_new (self.raw >>> 0))

/-- Field builder `InterruptMaskSetClearRegister::with_nUARTRI_modem_interrupt_mask` (mask `0b1`). -/
def InterruptMaskSetClearRegister.with_nUARTRI_modem_interrupt_mask (self : InterruptMaskSetClearRegister) (value : Bool) : InterruptMaskSetClearRegister :=
  ⟨(self.raw &&& not16 0b1) ||| ((bitstuff.boolToBits value).val <<< 0)⟩
/-! ### Field isolation instances

For every register and every ordered pair of distinct fields `(g, f)`:
setting `f` leaves a read of `g` unchanged.  One instance of the shape
lemmas per pair. -/

theorem isol_DR_overrun_error_break_error (r : DataRegister) (v : Bool) :
    (r.with_break_error v).overrun_error = r.overrun_error :=
  isol_bool 32 11 10 1 0b10000000000 r.raw (bitstuff.boolToBits v).val (by decide)
    (boolToBits_val_lt v) (by omega) (by omega)

theorem isol_DR_overrun_error_parity_error (r : DataRegister) (v : Bool) :
    (r.with_parity_error v).overrun_error = r.overrun_error :=
  isol_bool 32 11 9 1 0b1000000000 r.raw (bitstuff.boolToBits v).val (by decide)
    (boolToBits_val_lt v) (by omega) (by omega)

theorem isol_DR_overrun_error_framing_error (r : DataRegister) (v : Bool) :
    (r.with_framing_error v).overrun_error = r.overrun_error :=
  isol_bool 32 11 8 1 0b100000000 r.raw (bitstuff.boolToBits v).val (by decide)
    (boolToBits_val_lt v) (by omega) (by omega)

theorem isol_DR_overrun_error_data (r : DataRegister) (v : Fin 256) :
    (r.with_data v).overrun_error = r.overrun_error :=
  isol_bool 32 11 0 8 0b11111111 r.raw v.val (by decide)
    (u8_val_lt v) (by omega) (by omega)

theorem isol_DR_break_error_overrun_error (r : DataRegister) (v : Bool) :
    (r.with_overrun_error v).break_error = r.break_error :=
  isol_bool 32 10 11 1 0b100000000000 r.raw (bitstuff.boolToBits v).val (by decide)
    (boolToBits_val_lt v) (by omega) (by omega)

theorem isol_DR_break_error_parity_error (r : DataRegister) (v : Bool) :
    (r.with_parity_error v).break_error = r.break_error :=
  isol_bool 32 10 9 1 0b1000000000 r.raw (bitstuff.boolToBits v).val (by decide)
    (boolToBits_val_lt v) (by omega) (by omega)

theorem isol_DR_break_error_framing_error (r : DataRegister) (v : Bool) :
    (r.with_framing_error v).break_error = r.break_error :=
  isol_bool 32 10 8 1 0b100000000 r.raw (bitstuff.boolToBits v).val (by decide)
    (boolToBits_val_lt v) (by omega) (by omega)

theorem isol_DR_break_error_data (r : DataRegister) (v : Fin 256) :
    (r.with_data v).break_error = r.break_error :=
  isol_bool 32 10 0 8 0b11111111 r.raw v.val (by decide)
    (u8_val_lt v) (by omega) (by omega)

theorem isol_DR_parity_error_overrun_error (r : DataRegister) (v : Bool) :
    (r.with_overrun_error v).parity_error = r.parity_error :=
  isol_bool 32 9 11 1 0b100000000000 r.raw (bitstuff.boolToBits v).val (by decide)
    (boolToBits_val_lt v) (by omega) (by omega)

theorem isol_DR_parity_error_break_error (r : DataRegister) (v : Bool) :
    (r.with_break_error v).parity_error = r.parity_error :=
  isol_bool 32 9 10 1 0b10000000000 r.raw (bitstuff.boolToBits v).val (by decide)
    (boolToBits_val_lt v) (by omega) (by omega)

theorem isol_DR_parity_error_framing_error (r : DataRegister) (v : Bool) :
    (r.with_framing_error v).parity_error = r.parity_error :=
  isol_bool 32 9 8 1 0b100000000 r.raw (bitstuff.boolToBits v).val (by decide)
    (boolToBits_val_lt v) (by omega) (by omega)

theorem isol_DR_parity_error_data (r : DataRegister) (v : Fin 256) :
    (r.with_data v).parity_error = r.parity_error :=
  isol_bool 32 9 0 8 0b11111111 r.raw v.val (by decide)
    (u8_val_lt v) (by omega) (by omega)

theorem isol_DR_framing_error_overrun_error (r : DataRegister) (v : Bool) :
    (r.with_overrun_error v).framing_error = r.framing_error :=
  isol_bool 32 8 11 1 0b100000000000 r.raw (bitstuff.boolToBits v).val (by decide)
    (boolToBits_val_lt v) (by omega) (by omega)

theorem isol_DR_framing_error_break_error (r : DataRegister) (v : Bool) :
    (r.with_break_error v).framing_error = r.framing_error :=
  isol_bool 32 8 10 1 0b10000000000 r.raw (bitstuff.boolToBits v).val (by decide)
    (boolToBits_val_lt v) (by omega) (by omega)

theorem isol_DR_framing_error_parity_error (r : DataRegister) (v : Bool) :
    (r.with_parity_error v).framing_error = r.framing_error :=
  isol_bool 32 8 9 1 0b1000000000 r.raw (bitstuff.boolToBits v).val (by decide)
    (boolToBits_val_lt v) (by omega) (by omega)

theorem isol_DR_framing_error_data (r : DataRegister) (v : Fin 256) :
    (r.with_data v).framing_error = r.framing_error :=
  isol_bool 32 8 0 8 0b11111111 r.raw v.val (by decide)
    (u8_val_lt v) (by omega) (by omega)

theorem isol_DR_data_overrun_error (r : DataRegister) (v : Bool) :
    (r.with_overrun_error v).data = r.data :=
  isol_u8 32 0 11 1 0b100000000000 r.raw (bitstuff.boolToBits v).val (by decide)
    (boolToBits_val_lt v) (by omega) (by omega)

theorem isol_DR_data_break_error (r : DataRegister) (v : Bool) :
    (r.with_break_error v).data = r.data :=
  isol_u8 32 0 10 1 0b10000000000 r.raw (bitstuff.boolToBits v).val (by decide)
    (boolToBits_val_lt v) (by omega) (by omega)

theorem isol_DR_data_parity_error (r : DataRegister) (v : Bool) :
    (r.with_parity_error v).data = r.data :=
  isol_u8 32 0 9 1 0b1000000000 r.raw (bitstuff.boolToBits v).val (by decide)
    (boolToBits_val_lt v) (by omega) (by omega)

theorem isol_DR_data_framing_error (r : DataRegister) (v : Bool) :
    (r.with_framing_error v).data = r.data :=
  isol_u8 32 0 8 1 0b100000000 r.raw (bitstuff.boolToBits v).val (by decide)
    (boolToBits_val_lt v) (by omega) (by omega)

theorem isol_RSR_overrun_error_break_error (r : ReceiveStatusRegister) (v : Bool) :
    (r.with_break_error v).overrun_error = r.overrun_error :=
  isol_bool 32 3 2 1 0b100 r.raw (bitstuff.boolToBits v).val (by decide)
    (boolToBits_val_lt v) (by omega) (by omega)

theorem isol_RSR_overrun_error_parity_error (r : ReceiveStatusRegister) (v : Bool) :
    (r.with_parity_error v).overrun_error = r.overrun_error :=
  isol_bool 32 3 1 1 0b10 r.raw (bitstuff.boolToBits v).val (by decide)
    (boolToBits_val_lt v) (by omega) (by omega)

theorem isol_RSR_overrun_error_framing_error (r : ReceiveStatusRegister) (v : Bool) :
    (r.with_framing_error v).overrun_error = r.overrun_error :=
  isol_bool 32 3 0 1 0b1 r.raw (bitstuff.boolToBits v).val (by decide)
    (boolToBits_val_lt v) (by omega) (by omega)

theorem isol_RSR_break_error_overrun_error (r : ReceiveStatusRegister) (v : Bool) :
    (r.with_overrun_error v).break_error = r.break_error :=
  isol_bool 32 2 3 1 0b1000 r.raw (bitstuff.boolToBits v).val (by decide)
    (boolToBits_val_lt v) (by omega) (by omega)

theorem isol_RSR_break_error_parity_error (r : ReceiveStatusRegister) (v : Bool) :
    (r.with_parity_error v).break_error = r.break_error :=
  isol_bool 32 2 1 1 0b10 r.raw (bitstuff.boolToBits v).val (by decide)
    (boolToBits_val_lt v) (by omega) (by omega)

theorem isol_RSR_break_error_framing_error (r : ReceiveStatusRegister) (v : Bool) :
    (r.with_framing_error v).break_error = r.break_error :=
  isol_bool 32 2 0 1 0b1 r.raw (bitstuff.boolToBits v).val (by decide)
    (boolToBits_val_lt v) (by omega) (by omega)

theorem isol_RSR_parity_error_overrun_error (r : ReceiveStatusRegister) (v : Bool) :
    (r.with_overrun_error v).parity_error = r.parity_error :=
  isol_bool 32 1 3 1 0b1000 r.raw (bitstuff.boolToBits v).val (by decide)
    (boolToBits_val_lt v) (by omega) (by omega)

theorem isol_RSR_parity_error_break_error (r : ReceiveStatusRegister) (v : Bool) :
    (r.with_break_error v).parity_error = r.parity_error :=
  isol_bool 32 1 2 1 0b100 r.raw (bitstuff.boolToBits v).val (by decide)
    (boolToBits_val_lt v) (by omega) (by omega)

theorem isol_RSR_parity_error_framing_error (r : ReceiveStatusRegister) (v : Bool) :
    (r.with_framing_error v).parity_error = r.parity_error :=
  isol_bool 32 1 0 1 0b1 r.raw (bitstuff.boolToBits v).val (by decide)
    (boolToBits_val_lt v) (by omega) (by omega)

theorem isol_RSR_framing_error_overrun_error (r : ReceiveStatusRegister) (v : Bool) :
    (r.with_overrun_error v).framing_error = r.framing_error :=
  isol_bool 32 0 3 1 0b1000 r.raw (bitstuff.boolToBits v).val (by decide)
    (boolToBits_val_lt v) (by omega) (by omega)

theorem isol_RSR_framing_error_break_error (r : ReceiveStatusRegister) (v : Bool) :
    (r.with_break_error v).framing_error = r.framing_error :=
  isol_bool 32 0 2 1 0b100 r.raw (bitstuff.boolToBits v).val (by decide)
    (boolToBits_val_lt v) (by omega) (by omega)

theorem isol_RSR_framing_error_parity_error (r : ReceiveStatusRegister) (v : Bool) :
    (r.with_parity_error v).framing_error = r.framing_error :=
  isol_bool 32 0 1 1 0b10 r.raw (bitstuff.boolToBits v).val (by decide)
    (boolToBits_val_lt v) (by omega) (by omega)

theorem isol_FR_ring_indicator_transmit_fifo_empty (r : FlagRegister) (v : Bool) :
    (r.with_transmit_fifo_empty v).ring_indicator = r.ring_indicator :=
  isol_bool 32 8 7 1 0b10000000 r.raw (bitstuff.boolToBits v).val (by decide)
    (boolToBits_val_lt v) (by omega) (by omega)

theorem isol_FR_ring_indicator_receive_fifo_full (r : FlagRegister) (v : Bool) :
    (r.with_receive_fifo_full v).ring_indicator = r.ring_indicator :=
  isol_bool 32 8 6 1 0b1000000 r.raw (bitstuff.boolToBits v).val (by decide)
    (boolToBits_val_lt v) (by omega) (by omega)

theorem isol_FR_ring_indicator_transmit_fifo_full (r : FlagRegister) (v : Bool) :
    (r.with_transmit_fifo_full v).ring_indicator = r.ring_indicator :=
  isol_bool 32 8 5 1 0b100000 r.raw (bitstuff.boolToBits v).val (by decide)
    (boolToBits_val_lt v) (by omega) (by omega)

theorem isol_FR_ring_indicator_receive_fifo_empty (r : FlagRegister) (v : Bool) :
    (r.with_receive_fifo_empty v).ring_indicator = r.ring_indicator :=
  isol_bool 32 8 4 1 0b10000 r.raw (bitstuff.boolToBits v).val (by decide)
    (boolToBits_val_lt v) (by omega) (by omega)

theorem isol_FR_ring_indicator_uart_busy (r : FlagRegister) (v : Bool) :
    (r.with_uart_busy v).ring_indicator = r.ring_indicator :=
  isol_bool 32 8 3 1 0b1000 r.raw (bitstuff.boolToBits v).val (by decide)
    (boolToBits_val_lt v) (by omega) (by omega)

theorem isol_FR_ring_indicator_data_carrier_detect (r : FlagRegister) (v : Bool) :
    (r.with_data_carrier_detect v).ring_indicator = r.ring_indicator :=
  isol_bool 32 8 2 1 0b100 r.raw (bitstuff.boolToBits v).val (by decide)
    (boolToBits_val_lt v) (by omega) (by omega)

theorem isol_FR_ring_indicator_data_set_ready (r : FlagRegister) (v : Bool) :
    (r.with_data_set_ready v).ring_indicator = r.ring_indicator :=
  isol_bool 32 8 1 1 0b10 r.raw (bitstuff.boolToBits v).val (by decide)
    (boolToBits_val_lt v) (by omega) (by omega)

theorem isol_FR_ring_indicator_clear_to_send (r : FlagRegister) (v : Bool) :
    (r.with_clear_to_send v).ring_indicator = r.ring_indicator :=
  isol_bool 32 8 0 1 0b1 r.raw (bitstuff.boolToBits v).val (by decide)
    (boolToBits_val_lt v) (by omega) (by omega)

theorem isol_FR_transmit_fifo_empty_ring_indicator (r : FlagRegister) (v : Bool) :
    (r.with_ring_indicator v).transmit_fifo_empty = r.transmit_fifo_empty :=
  isol_bool 32 7 8 1 0b100000000 r.raw (bitstuff.boolToBits v).val (by decide)
    (boolToBits_val_lt v) (by omega) (by omega)

theorem isol_FR_transmit_fifo_empty_receive_fifo_full (r : FlagRegister) (v : Bool) :
    (r.with_receive_fifo_full v).transmit_fifo_empty = r.transmit_fifo_empty :=
  isol_bool 32 7 6 1 0b1000000 r.raw (bitstuff.boolToBits v).val (by decide)
    (boolToBits_val_lt v) (by omega) (by omega)

theorem isol_FR_transmit_fifo_empty_transmit_fifo_full (r : FlagRegister) (v : Bool) :
    (r.with_transmit_fifo_full v).transmit_fifo_empty = r.transmit_fifo_empty :=
  isol_bool 32 7 5 1 0b100000 r.raw (bitstuff.boolToBits v).val (by decide)
    (boolToBits_val_lt v) (by omega) (by omega)

theorem isol_FR_transmit_fifo_empty_receive_fifo_empty (r : FlagRegister) (v : Bool) :
    (r.with_receive_fifo_empty v).transmit_fifo_empty = r.transmit_fifo_empty :=
  isol_bool 32 7 4 1 0b10000 r.raw (bitstuff.boolToBits v).val (by decide)
    (boolToBits_val_lt v) (by omega) (by omega)

theorem isol_FR_transmit_fifo_empty_uart_busy (r : FlagRegister) (v : Bool) :
    (r.with_uart_busy v).transmit_fifo_empty = r.transmit_fifo_empty :=
  isol_bool 32 7 3 1 0b1000 r.raw (bitstuff.boolToBits v).val (by decide)
    (boolToBits_val_lt v) (by omega) (by omega)

theorem isol_FR_transmit_fifo_empty_data_carrier_detect (r : FlagRegister) (v : Bool) :
    (r.with_data_carrier_detect v).transmit_fifo_empty = r.transmit_fifo_empty :=
  isol_bool 32 7 2 1 0b100 r.raw (bitstuff.boolToBits v).val (by decide)
    (boolToBits_val_lt v) (by omega) (by omega)

theorem isol_FR_transmit_fifo_empty_data_set_ready (r : FlagRegister) (v : Bool) :
    (r.with_data_set_ready v).transmit_fifo_empty = r.transmit_fifo_empty :=
  isol_bool 32 7 1 1 0b10 r.raw (bitstuff.boolToBits v).val (by decide)
    (boolToBits_val_lt v) (by omega) (by omega)

theorem isol_FR_transmit_fifo_empty_clear_to_send (r : FlagRegister) (v : Bool) :
    (r.with_clear_to_send v).transmit_fifo_empty = r.transmit_fifo_empty :=
  isol_bool 32 7 0 1 0b1 r.raw (bitstuff.boolToBits v).val (by decide)
    (boolToBits_val_lt v) (by omega) (by omega)

theorem isol_FR_receive_fifo_full_ring_indicator (r : FlagRegister) (v : Bool) :
    (r.with_ring_indicator v).receive_fifo_full = r.receive_fifo_full :=
  isol_bool 32 6 8 1 0b100000000 r.raw (bitstuff.boolToBits v).val (by decide)
    (boolToBits_val_lt v) (by omega) (by omega)

theorem isol_FR_receive_fifo_full_transmit_fifo_empty (r : FlagRegister) (v : Bool) :
    (r.with_transmit_fifo_empty v).receive_fifo_full = r.receive_fifo_full :=
  isol_bool 32 6 7 1 0b10000000 r.raw (bitstuff.boolToBits v).val (by decide)
    (boolToBits_val_lt v) (by omega) (by omega)

theorem isol_FR_receive_fifo_full_transmit_fifo_full (r : FlagRegister) (v : Bool) :
    (r.with_transmit_fifo_full v).receive_fifo_full = r.receive_fifo_full :=
  isol_bool 32 6 5 1 0b100000 r.raw (bitstuff.boolToBits v).val (by decide)
    (boolToBits_val_lt v) (by omega) (by omega)

theorem isol_FR_receive_fifo_full_receive_fifo_empty (r : FlagRegister) (v : Bool) :
    (r.with_receive_fifo_empty v).receive_fifo_full = r.receive_fifo_full :=
  isol_bool 32 6 4 1 0b10000 r.raw (bitstuff.boolToBits v).val (by decide)
    (boolToBits_val_lt v) (by omega) (by omega)

theorem isol_FR_receive_fifo_full_uart_busy (r : FlagRegister) (v : Bool) :
    (r.with_uart_busy v).receive_fifo_full = r.receive_fifo_full :=
  isol_bool 32 6 3 1 0b1000 r.raw (bitstuff.boolToBits v).val (by decide)
    (boolToBits_val_lt v) (by omega) (by omega)

theorem isol_FR_receive_fifo_full_data_carrier_detect (r : FlagRegister) (v : Bool) :
    (r.with_data_carrier_detect v).receive_fifo_full = r.receive_fifo_full :=
  isol_bool 32 6 2 1 0b100 r.raw (bitstuff.boolToBits v).val (by decide)
    (boolToBits_val_lt v) (by omega) (by omega)

theorem isol_FR_receive_fifo_full_data_set_ready (r : FlagRegister) (v : Bool) :
    (r.with_data_set_ready v).receive_fifo_full = r.receive_fifo_full :=
  isol_bool 32 6 1 1 0b10 r.raw (bitstuff.boolToBits v).val (by decide)
    (boolToBits_val_lt v) (by omega) (by omega)

theorem isol_FR_receive_fifo_full_clear_to_send (r : FlagRegister) (v : Bool) :
    (r.with_clear_to_send v).receive_fifo_full = r.receive_fifo_full :=
  isol_bool 32 6 0 1 0b1 r.raw (bitstuff.boolToBits v).val (by decide)
    (boolToBits_val_lt v) (by omega) (by omega)

theorem isol_FR_transmit_fifo_full_ring_indicator (r : FlagRegister) (v : Bool) :
    (r.with_ring_indicator v).transmit_fifo_full = r.transmit_fifo_full :=
  isol_bool 32 5 8 1 0b100000000 r.raw (bitstuff.boolToBits v).val (by decide)
    (boolToBits_val_lt v) (by omega) (by omega)

theorem isol_FR_transmit_fifo_full_transmit_fifo_empty (r : FlagRegister) (v : Bool) :
    (r.with_transmit_fifo_empty v).transmit_fifo_full = r.transmit_fifo_full :=
  isol_bool 32 5 7 1 0b10000000 r.raw (bitstuff.boolToBits v).val (by decide)
    (boolToBits_val_lt v) (by omega) (by omega)

theorem isol_FR_transmit_fifo_full_receive_fifo_full (r : FlagRegister) (v : Bool) :
    (r.with_receive_fifo_full v).transmit_fifo_full = r.transmit_fifo_full :=
  isol_bool 32 5 6 1 0b1000000 r.raw (bitstuff.boolToBits v).val (by decide)
    (boolToBits_val_lt v) (by omega) (by omega)

theorem isol_FR_transmit_fifo_full_receive_fifo_empty (r : FlagRegister) (v : Bool) :
    (r.with_receive_fifo_empty v).transmit_fifo_full = r.transmit_fifo_full :=
  isol_bool 32 5 4 1 0b10000 r.raw (bitstuff.boolToBits v).val (by decide)
    (boolToBits_val_lt v) (by omega) (by omega)

theorem isol_FR_transmit_fifo_full_uart_busy (r : FlagRegister) (v : Bool) :
    (r.with_uart_busy v).transmit_fifo_full = r.transmit_fifo_full :=
  isol_bool 32 5 3 1 0b1000 r.raw (bitstuff.boolToBits v).val (by decide)
    (boolToBits_val_lt v) (by omega) (by omega)

theorem isol_FR_transmit_fifo_full_data_carrier_detect (r : FlagRegister) (v : Bool) :
    (r.with_data_carrier_detect v).transmit_fifo_full = r.transmit_fifo_full :=
  isol_bool 32 5 2 1 0b100 r.raw (bitstuff.boolToBits v).val (by decide)
    (boolToBits_val_lt v) (by omega) (by omega)

theorem isol_FR_transmit_fifo_full_data_set_ready (r : FlagRegister) (v : Bool) :
    (r.with_data_set_ready v).transmit_fifo_full = r.transmit_fifo_full :=
  isol_bool 32 5 1 1 0b10 r.raw (bitstuff.boolToBits v).val (by decide)
    (boolToBits_val_lt v) (by omega) (by omega)

theorem isol_FR_transmit_fifo_full_clear_to_send (r : FlagRegister) (v : Bool) :
    (r.with_clear_to_send v).transmit_fifo_full = r.transmit_fifo_full :=
  isol_bool 32 5 0 1 0b1 r.raw (bitstuff.boolToBits v).val (by decide)
    (boolToBits_val_lt v) (by omega) (by omega)

theorem isol_FR_receive_fifo_empty_ring_indicator (r : FlagRegister) (v : Bool) :
    (r.with_ring_indicator v).receive_fifo_empty = r.receive_fifo_empty :=
  isol_bool 32 4 8 1 0b100000000 r.raw (bitstuff.boolToBits v).val (by decide)
    (boolToBits_val_lt v) (by omega) (by omega)

theorem isol_FR_receive_fifo_empty_transmit_fifo_empty (r : FlagRegister) (v : Bool) :
    (r.with_transmit_fifo_empty v).receive_fifo_empty = r.receive_fifo_empty :=
  isol_bool 32 4 7 1 0b10000000 r.raw (bitstuff.boolToBits v).val (by decide)
    (boolToBits_val_lt v) (by omega) (by omega)

theorem isol_FR_receive_fifo_empty_receive_fifo_full (r : FlagRegister) (v : Bool) :
    (r.with_receive_fifo_full v).receive_fifo_empty = r.receive_fifo_empty :=
  isol_bool 32 4 6 1 0b1000000 r.raw (bitstuff.boolToBits v).val (by decide)
    (boolToBits_val_lt v) (by omega) (by omega)

theorem isol_FR_receive_fifo_empty_transmit_fifo_full (r : FlagRegister) (v : Bool) :
    (r.with_transmit_fifo_full v).receive_fifo_empty = r.receive_fifo_empty :=
  isol_bool 32 4 5 1 0b100000 r.raw (bitstuff.boolToBits v).val (by decide)
    (boolToBits_val_lt v) (by omega) (by omega)

theorem isol_FR_receive_fifo_empty_uart_busy (r : FlagRegister) (v : Bool) :
    (r.with_uart_busy v).receive_fifo_empty = r.receive_fifo_empty :=
  isol_bool 32 4 3 1 0b1000 r.raw (bitstuff.boolToBits v).val (by decide)
    (boolToBits_val_lt v) (by omega) (by omega)

theorem isol_FR_receive_fifo_empty_data_carrier_detect (r : FlagRegister) (v : Bool) :
    (r.with_data_carrier_detect v).receive_fifo_empty = r.receive_fifo_empty :=
  isol_bool 32 4 2 1 0b100 r.raw (bitstuff.boolToBits v).val (by decide)
    (boolToBits_val_lt v) (by omega) (by omega)

theorem isol_FR_receive_fifo_empty_data_set_ready (r : FlagRegister) (v : Bool) :
    (r.with_data_set_ready v).receive_fifo_empty = r.receive_fifo_empty :=
  isol_bool 32 4 1 1 0b10 r.raw (bitstuff.boolToBits v).val (by decide)
    (boolToBits_val_lt v) (by omega) (by omega)

theorem isol_FR_receive_fifo_empty_clear_to_send (r : FlagRegister) (v : Bool) :
    (r.with_clear_to_send v).receive_fifo_empty = r.receive_fifo_empty :=
  isol_bool 32 4 0 1 0b1 r.raw (bitstuff.boolToBits v).val (by decide)
    (boolToBits_val_lt v) (by omega) (by omega)

theorem isol_FR_uart_busy_ring_indicator (r : FlagRegister) (v : Bool) :
    (r.with_ring_indicator v).uart_busy = r.uart_busy :=
  isol_bool 32 3 8 1 0b100000000 r.raw (bitstuff.boolToBits v).val (by decide)
    (boolToBits_val_lt v) (by omega) (by omega)

theorem isol_FR_uart_busy_transmit_fifo_empty (r : FlagRegister) (v : Bool) :
    (r.with_transmit_fifo_empty v).uart_busy = r.uart_busy :=
  isol_bool 32 3 7 1 0b10000000 r.raw (bitstuff.boolToBits v).val (by decide)
    (boolToBits_val_lt v) (by omega) (by omega)

theorem isol_FR_uart_busy_receive_fifo_full (r : FlagRegister) (v : Bool) :
    (r.with_receive_fifo_full v).uart_busy = r.uart_busy :=
  isol_bool 32 3 6 1 0b1000000 r.raw (bitstuff.boolToBits v).val (by decide)
    (boolToBits_val_lt v) (by omega) (by omega)

theorem isol_FR_uart_busy_transmit_fifo_full (r : FlagRegister) (v : Bool) :
    (r.with_transmit_fifo_full v).uart_busy = r.uart_busy :=
  isol_bool 32 3 5 1 0b100000 r.raw (bitstuff.boolToBits v).val (by decide)
    (boolToBits_val_lt v) (by omega) (by omega)

theorem isol_FR_uart_busy_receive_fifo_empty (r : FlagRegister) (v : Bool) :
    (r.with_receive_fifo_empty v).uart_busy = r.uart_busy :=
  isol_bool 32 3 4 1 0b10000 r.raw (bitstuff.boolToBits v).val (by decide)
    (boolToBits_val_lt v) (by omega) (by omega)

theorem isol_FR_uart_busy_data_carrier_detect (r : FlagRegister) (v : Bool) :
    (r.with_data_carrier_detect v).uart_busy = r.uart_busy :=
  isol_bool 32 3 2 1 0b100 r.raw (bitstuff.boolToBits v).val (by decide)
    (boolToBits_val_lt v) (by omega) (by omega)

theorem isol_FR_uart_busy_data_set_ready (r : FlagRegister) (v : Bool) :
    (r.with_data_set_ready v).uart_busy = r.uart_busy :=
  isol_bool 32 3 1 1 0b10 r.raw (bitstuff.boolToBits v).val (by decide)
    (boolToBits_val_lt v) (by omega) (by omega)

theorem isol_FR_uart_busy_clear_to_send (r : FlagRegister) (v : Bool) :
    (r.with_clear_to_send v).uart_busy = r.uart_busy :=
  isol_bool 32 3 0 1 0b1 r.raw (bitstuff.boolToBits v).val (by decide)
    (boolToBits_val_lt v) (by omega) (by omega)

theorem isol_FR_data_carrier_detect_ring_indicator (r : FlagRegister) (v : Bool) :
    (r.with_ring_indicator v).data_carrier_detect = r.data_carrier_detect :=
  isol_bool 32 2 8 1 0b100000000 r.raw (bitstuff.boolToBits v).val (by decide)
    (boolToBits_val_lt v) (by omega) (by omega)

theorem isol_FR_data_carrier_detect_transmit_fifo_empty (r : FlagRegister) (v : Bool) :
    (r.with_transmit_fifo_empty v).data_carrier_detect = r.data_carrier_detect :=
  isol_bool 32 2 7 1 0b10000000 r.raw (bitstuff.boolToBits v).val (by decide)
    (boolToBits_val_lt v) (by omega) (by omega)

theorem isol_FR_data_carrier_detect_receive_fifo_full (r : FlagRegister) (v : Bool) :
    (r.with_receive_fifo_full v).data_carrier_detect = r.data_carrier_detect :=
  isol_bool 32 2 6 1 0b1000000 r.raw (bitstuff.boolToBits v).val (by decide)
    (boolToBits_val_lt v) (by omega) (by omega)

theorem isol_FR_data_carrier_detect_transmit_fifo_full (r : FlagRegister) (v : Bool) :
    (r.with_transmit_fifo_full v).data_carrier_detect = r.data_carrier_detect :=
  isol_bool 32 2 5 1 0b100000 r.raw (bitstuff.boolToBits v).val (by decide)
    (boolToBits_val_lt v) (by omega) (by omega)

theorem isol_FR_data_carrier_detect_receive_fifo_empty (r : FlagRegister) (v : Bool) :
    (r.with_receive_fifo_empty v).data_carrier_detect = r.data_carrier_detect :=
  isol_bool 32 2 4 1 0b10000 r.raw (bitstuff.boolToBits v).val (by decide)
    (boolToBits_val_lt v) (by omega) (by omega)

theorem isol_FR_data_carrier_detect_uart_busy (r : FlagRegister) (v : Bool) :
    (r.with_uart_busy v).data_carrier_detect = r.data_carrier_detect :=
  isol_bool 32 2 3 1 0b1000 r.raw (bitstuff.boolToBits v).val (by decide)
    (boolToBits_val_lt v) (by omega) (by omega)

theorem isol_FR_data_carrier_detect_data_set_ready (r : FlagRegister) (v : Bool) :
    (r.with_data_set_ready v).data_carrier_detect = r.data_carrier_detect :=
  isol_bool 32 2 1 1 0b10 r.raw (bitstuff.boolToBits v).val (by decide)
    (boolToBits_val_lt v) (by omega) (by omega)

theorem isol_FR_data_carrier_detect_clear_to_send (r : FlagRegister) (v : Bool) :
    (r.with_clear_to_send v).data_carrier_detect = r.data_carrier_detect :=
  isol_bool 32 2 0 1 0b1 r.raw (bitstuff.boolToBits v).val (by decide)
    (boolToBits_val_lt v) (by omega) (by omega)

theorem isol_FR_data_set_ready_ring_indicator (r : FlagRegister) (v : Bool) :
    (r.with_ring_indicator v).data_set_ready = r.data_set_ready :=
  isol_bool 32 1 8 1 0b100000000 r.raw (bitstuff.boolToBits v).val (by decide)
    (boolToBits_val_lt v) (by omega) (by omega)

theorem isol_FR_data_set_ready_transmit_fifo_empty (r : FlagRegister) (v : Bool) :
    (r.with_transmit_fifo_empty v).data_set_ready = r.data_set_ready :=
  isol_bool 32 1 7 1 0b10000000 r.raw (bitstuff.boolToBits v).val (by decide)
    (boolToBits_val_lt v) (by omega) (by omega)

theorem isol_FR_data_set_ready_receive_fifo_full (r : FlagRegister) (v : Bool) :
    (r.with_receive_fifo_full v).data_set_ready = r.data_set_ready :=
  isol_bool 32 1 6 1 0b1000000 r.raw (bitstuff.boolToBits v).val (by decide)
    (boolToBits_val_lt v) (by omega) (by omega)

theorem isol_FR_data_set_ready_transmit_fifo_full (r : FlagRegister) (v : Bool) :
    (r.with_transmit_fifo_full v).data_set_ready = r.data_set_ready :=
  isol_bool 32 1 5 1 0b100000 r.raw (bitstuff.boolToBits v).val (by decide)
    (boolToBits_val_lt v) (by omega) (by omega)

theorem isol_FR_data_set_ready_receive_fifo_empty (r : FlagRegister) (v : Bool) :
    (r.with_receive_fifo_empty v).data_set_ready = r.data_set_ready :=
  isol_bool 32 1 4 1 0b10000 r.raw (bitstuff.boolToBits v).val (by decide)
    (boolToBits_val_lt v) (by omega) (by omega)

theorem isol_FR_data_set_ready_uart_busy (r : FlagRegister) (v : Bool) :
    (r.with_uart_busy v).data_set_ready = r.data_set_ready :=
  isol_bool 32 1 3 1 0b1000 r.raw (bitstuff.boolToBits v).val (by decide)
    (boolToBits_val_lt v) (by omega) (by omega)

theorem isol_FR_data_set_ready_data_carrier_detect (r : FlagRegister) (v : Bool) :
    (r.with_data_carrier_detect v).data_set_ready = r.data_set_ready :=
  isol_bool 32 1 2 1 0b100 r.raw (bitstuff.boolToBits v).val (by decide)
    (boolToBits_val_lt v) (by omega) (by omega)

theorem isol_FR_data_set_ready_clear_to_send (r : FlagRegister) (v : Bool) :
    (r.with_clear_to_send v).data_set_ready = r.data_set_ready :=
  isol_bool 32 1 0 1 0b1 r.raw (bitstuff.boolToBits v).val (by decide)
    (boolToBits_val_lt v) (by omega) (by omega)

theorem isol_FR_clear_to_send_ring_indicator (r : FlagRegister) (v : Bool) :
    (r.with_ring_indicator v).clear_to_send = r.clear_to_send :=
  isol_bool 32 0 8 1 0b100000000 r.raw (bitstuff.boolToBits v).val (by decide)
    (boolToBits_val_lt v) (by omega) (by omega)

theorem isol_FR_clear_to_send_transmit_fifo_empty (r : FlagRegister) (v : Bool) :
    (r.with_transmit_fifo_empty v).clear_to_send = r.clear_to_send :=
  isol_bool 32 0 7 1 0b10000000 r.raw (bitstuff.boolToBits v).val (by decide)
    (boolToBits_val_lt v) (by omega) (by omega)

theorem isol_FR_clear_to_send_receive_fifo_full (r : FlagRegister) (v : Bool) :
    (r.with_receive_fifo_full v).clear_to_send = r.clear_to_send :=
  isol_bool 32 0 6 1 0b1000000 r.raw (bitstuff.boolToBits v).val (by decide)
    (boolToBits_val_lt v) (by omega) (by omega)

theorem isol_FR_clear_to_send_transmit_fifo_full (r : FlagRegister) (v : Bool) :
    (r.with_transmit_fifo_full v).clear_to_send = r.clear_to_send :=
  isol_bool 32 0 5 1 0b100000 r.raw (bitstuff.boolToBits v).val (by decide)
    (boolToBits_val_lt v) (by omega) (by omega)

theorem isol_FR_clear_to_send_receive_fifo_empty (r : FlagRegister) (v : Bool) :
    (r.with_receive_fifo_empty v).clear_to_send = r.clear_to_send :=
  isol_bool 32 0 4 1 0b10000 r.raw (bitstuff.boolToBits v).val (by decide)
    (boolToBits_val_lt v) (by omega) (by omega)

theorem isol_FR_clear_to_send_uart_busy (r : FlagRegister) (v : Bool) :
    (r.with_uart_busy v).clear_to_send = r.clear_to_send :=
  isol_bool 32 0 3 1 0b1000 r.raw (bitstuff.boolToBits v).val (by decide)
    (boolToBits_val_lt v) (by omega) (by omega)

theorem isol_FR_clear_to_send_data_carrier_detect (r : FlagRegister) (v : Bool) :
    (r.with_data_carrier_detect v).clear_to_send = r.clear_to_send :=
  isol_bool 32 0 2 1 0b100 r.raw (bitstuff.boolToBits v).val (by decide)
    (boolToBits_val_lt v) (by omega) (by omega)

theorem isol_FR_clear_to_send_data_set_ready (r : FlagRegister) (v : Bool) :
    (r.with_data_set_ready v).clear_to_send = r.clear_to_send :=
  isol_bool 32 0 1 1 0b10 r.raw (bitstuff.boolToBits v).val (by decide)
    (boolToBits_val_lt v) (by omega) (by omega)

theorem isol_LCR_stick_parity_word_length (r : LineControlRegister) (v : WordLength) :
    (r.with_word_length v).stick_parity = r.stick_parity :=
  isol_bool 16 7 5 2 0b1100000 r.raw (WordLength.to_bits v).val (by decide)
    (wordLengthToBits_val_lt v) (by omega) (by omega)

theorem isol_LCR_stick_parity_enable_fifos (r : LineControlRegister) (v : Bool) :
    (r.with_enable_fifos v).stick_parity = r.stick_parity :=
  isol_bool 16 7 4 1 0b10000 r.raw (bitstuff.boolToBits v).val (by decide)
    (boolToBits_val_lt v) (by omega) (by omega)

theorem isol_LCR_stick_parity_two_stop_bits_select (r : LineControlRegister) (v : Bool) :
    (r.with_two_stop_bits_select v).stick_parity = r.stick_parity :=
  isol_bool 16 7 3 1 0b1000 r.raw (bitstuff.boolToBits v).val (by decide)
    (boolToBits_val_lt v) (by omega) (by omega)

theorem isol_LCR_stick_parity_even_parity_select (r : LineControlRegister) (v : Bool) :
    (r.with_even_parity_select v).stick_parity = r.stick_parity :=
  isol_bool 16 7 2 1 0b100 r.raw (bitstuff.boolToBits v).val (by decide)
    (boolToBits_val_lt v) (by omega) (by omega)

theorem isol_LCR_stick_parity_parity_enable (r : LineControlRegister) (v : Bool) :
    (r.with_parity_enable v).stick_parity = r.stick_parity :=
  isol_bool 16 7 1 1 0b10 r.raw (bitstuff.boolToBits v).val (by decide)
    (boolToBits_val_lt v) (by omega) (by omega)

theorem isol_LCR_stick_parity_send_break (r : LineControlRegister) (v : Bool) :
    (r.with_send_break v).stick_parity = r.stick_parity :=
  isol_bool 16 7 0 1 0b1 r.raw (bitstuff.boolToBits v).val (by decide)
    (boolToBits_val_lt v) (by omega) (by omega)

theorem isol_LCR_word_length_stick_parity (r : LineControlRegister) (v : Bool) :
    (r.with_stick_parity v).word_length = r.word_length :=
  isol_wordlength 16 5 7 1 0b10000000 r.raw (bitstuff.boolToBits v).val (by decide)
    (boolToBits_val_lt v) (by omega) (by omega)

theorem isol_LCR_word_length_enable_fifos (r : LineControlRegister) (v : Bool) :
    (r.with_enable_fifos v).word_length = r.word_length :=
  isol_wordlength 16 5 4 1 0b10000 r.raw (bitstuff.boolToBits v).val (by decide)
    (boolToBits_val_lt v) (by omega) (by omega)

theorem isol_LCR_word_length_two_stop_bits_select (r : LineControlRegister) (v : Bool) :
    (r.with_two_stop_bits_select v).word_length = r.word_length :=
  isol_wordlength 16 5 3 1 0b1000 r.raw (bitstuff.boolToBits v).val (by decide)
    (boolToBits_val_lt v) (by omega) (by omega)

theorem isol_LCR_word_length_even_parity_select (r : LineControlRegister) (v : Bool) :
    (r.with_even_parity_select v).word_length = r.word_length :=
  isol_wordlength 16 5 2 1 0b100 r.raw (bitstuff.boolToBits v).val (by decide)
    (boolToBits_val_lt v) (by omega) (by omega)

theorem isol_LCR_word_length_parity_enable (r : LineControlRegister) (v : Bool) :
    (r.with_parity_enable v).word_length = r.word_length :=
  isol_wordlength 16 5 1 1 0b10 r.raw (bitstuff.boolToBits v).val (by decide)
    (boolToBits_val_lt v) (by omega) (by omega)

theorem isol_LCR_word_length_send_break (r : LineControlRegister) (v : Bool) :
    (r.with_send_break v).word_length = r.word_length :=
  isol_wordlength 16 5 0 1 0b1 r.raw (bitstuff.boolToBits v).val (by decide)
    (boolToBits_val_lt v) (by omega) (by omega)

theorem isol_LCR_enable_fifos_stick_parity (r : LineControlRegister) (v : Bool) :
    (r.with_stick_parity v).enable_fifos = r.enable_fifos :=
  isol_bool 16 4 7 1 0b10000000 r.raw (bitstuff.boolToBits v).val (by decide)
    (boolToBits_val_lt v) (by omega) (by omega)

theorem isol_LCR_enable_fifos_word_length (r : LineControlRegister) (v : WordLength) :
    (r.with_word_length v).enable_fifos = r.enable_fifos :=
  isol_bool 16 4 5 2 0b1100000 r.raw (WordLength.to_bits v).val (by decide)
    (wordLengthToBits_val_lt v) (by omega) (by omega)

theorem isol_LCR_enable_fifos_two_stop_bits_select (r : LineControlRegister) (v : Bool) :
    (r.with_two_stop_bits_select v).enable_fifos = r.enable_fifos :=
  isol_bool 16 4 3 1 0b1000 r.raw (bitstuff.boolToBits v).val (by decide)
    (boolToBits_val_lt v) (by omega) (by omega)

theorem isol_LCR_enable_fifos_even_parity_select (r : LineControlRegister) (v : Bool) :
    (r.with_even_parity_select v).enable_fifos = r.enable_fifos :=
  isol_bool 16 4 2 1 0b100 r.raw (bitstuff.boolToBits v).val (by decide)
    (boolToBits_val_lt v) (by omega) (by omega)

theorem isol_LCR_enable_fifos_parity_enable (r : LineControlRegister) (v : Bool) :
    (r.with_parity_enable v).enable_fifos = r.enable_fifos :=
  isol_bool 16 4 1 1 0b10 r.raw (bitstuff.boolToBits v).val (by decide)
    (boolToBits_val_lt v) (by omega) (by omega)

theorem isol_LCR_enable_fifos_send_break (r : LineControlRegister) (v : Bool) :
    (r.with_send_break v).enable_fifos = r.enable_fifos :=
  isol_bool 16 4 0 1 0b1 r.raw (bitstuff.boolToBits v).val (by decide)
    (boolToBits_val_lt v) (by omega) (by omega)

theorem isol_LCR_two_stop_bits_select_stick_parity (r : LineControlRegister) (v : Bool) :
    (r.with_stick_parity v).two_stop_bits_select = r.two_stop_bits_select :=
  isol_bool 16 3 7 1 0b10000000 r.raw (bitstuff.boolToBits v).val (by decide)
    (boolToBits_val_lt v) (by omega) (by omega)

theorem isol_LCR_two_stop_bits_select_word_length (r : LineControlRegister) (v : WordLength) :
    (r.with_word_length v).two_stop_bits_select = r.two_stop_bits_select :=
  isol_bool 16 3 5 2 0b1100000 r.raw (WordLength.to_bits v).val (by decide)
    (wordLengthToBits_val_lt v) (by omega) (by omega)

theorem isol_LCR_two_stop_bits_select_enable_fifos (r : LineControlRegister) (v : Bool) :
    (r.with_enable_fifos v).two_stop_bits_select = r.two_stop_bits_select :=
  isol_bool 16 3 4 1 0b10000 r.raw (bitstuff.boolToBits v).val (by decide)
    (boolToBits_val_lt v) (by omega) (by omega)

theorem isol_LCR_two_stop_bits_select_even_parity_select (r : LineControlRegister) (v : Bool) :
    (r.with_even_parity_select v).two_stop_bits_select = r.two_stop_bits_select :=
  isol_bool 16 3 2 1 0b100 r.raw (bitstuff.boolToBits v).val (by decide)
    (boolToBits_val_lt v) (by omega) (by omega)

theorem isol_LCR_two_stop_bits_select_parity_enable (r : LineControlRegister) (v : Bool) :
    (r.with_parity_enable v).two_stop_bits_select = r.two_stop_bits_select :=
  isol_bool 16 3 1 1 0b10 r.raw (bitstuff.boolToBits v).val (by decide)
    (boolToBits_val_lt v) (by omega) (by omega)

theorem isol_LCR_two_stop_bits_select_send_break (r : LineControlRegister) (v : Bool) :
    (r.with_send_break v).two_stop_bits_select = r.two_stop_bits_select :=
  isol_bool 16 3 0 1 0b1 r.raw (bitstuff.boolToBits v).val (by decide)
    (boolToBits_val_lt v) (by omega) (by omega)

theorem isol_LCR_even_parity_select_stick_parity (r : LineControlRegister) (v : Bool) :
    (r.with_stick_parity v).even_parity_select = r.even_parity_select :=
  isol_bool 16 2 7 1 0b10000000 r.raw (bitstuff.boolToBits v).val (by decide)
    (boolToBits_val_lt v) (by omega) (by omega)

theorem isol_LCR_even_parity_select_word_length (r : LineControlRegister) (v : WordLength) :
    (r.with_word_length v).even_parity_select = r.even_parity_select :=
  isol_bool 16 2 5 2 0b1100000 r.raw (WordLength.to_bits v).val (by decide)
    (wordLengthToBits_val_lt v) (by omega) (by omega)

theorem isol_LCR_even_parity_select_enable_fifos (r : LineControlRegister) (v : Bool) :
    (r.with_enable_fifos v).even_parity_select = r.even_parity_select :=
  isol_bool 16 2 4 1 0b10000 r.raw (bitstuff.boolToBits v).val (by decide)
    (boolToBits_val_lt v) (by omega) (by omega)

theorem isol_LCR_even_parity_select_two_stop_bits_select (r : LineControlRegister) (v : Bool) :
    (r.with_two_stop_bits_select v).even_parity_select = r.even_parity_select :=
  isol_bool 16 2 3 1 0b1000 r.raw (bitstuff.boolToBits v).val (by decide)
    (boolToBits_val_lt v) (by omega) (by omega)

theorem isol_LCR_even_parity_select_parity_enable (r : LineControlRegister) (v : Bool) :
    (r.with_parity_enable v).even_parity_select = r.even_parity_select :=
  isol_bool 16 2 1 1 0b10 r.raw (bitstuff.boolToBits v).val (by decide)
    (boolToBits_val_lt v) (by omega) (by omega)

theorem isol_LCR_even_parity_select_send_break (r : LineControlRegister) (v : Bool) :
    (r.with_send_break v).even_parity_select = r.even_parity_select :=
  isol_bool 16 2 0 1 0b1 r.raw (bitstuff.boolToBits v).val (by decide)
    (boolToBits_val_lt v) (by omega) (by omega)

theorem isol_LCR_parity_enable_stick_parity (r : LineControlRegister) (v : Bool) :
    (r.with_stick_parity v).parity_enable = r.parity_enable :=
  isol_bool 16 1 7 1 0b10000000 r.raw (bitstuff.boolToBits v).val (by decide)
    (boolToBits_val_lt v) (by omega) (by omega)

theorem isol_LCR_parity_enable_word_length (r : LineControlRegister) (v : WordLength) :
    (r.with_word_length v).parity_enable = r.parity_enable :=
  isol_bool 16 1 5 2 0b1100000 r.raw (WordLength.to_bits v).val (by decide)
    (wordLengthToBits_val_lt v) (by omega) (by omega)

theorem isol_LCR_parity_enable_enable_fifos (r : LineControlRegister) (v : Bool) :
    (r.with_enable_fifos v).parity_enable = r.parity_enable :=
  isol_bool 16 1 4 1 0b10000 r.raw (bitstuff.boolToBits v).val (by decide)
    (boolToBits_val_lt v) (by omega) (by omega)

theorem isol_LCR_parity_enable_two_stop_bits_select (r : LineControlRegister) (v : Bool) :
    (r.with_two_stop_bits_select v).parity_enable = r.parity_enable :=
  isol_bool 16 1 3 1 0b1000 r.raw (bitstuff.boolToBits v).val (by decide)
    (boolToBits_val_lt v) (by omega) (by omega)

theorem isol_LCR_parity_enable_even_parity_select (r : LineControlRegister) (v : Bool) :
    (r.with_even_parity_select v).parity_enable = r.parity_enable :=
  isol_bool 16 1 2 1 0b100 r.raw (bitstuff.boolToBits v).val (by decide)
    (boolToBits_val_lt v) (by omega) (by omega)

theorem isol_LCR_parity_enable_send_break (r : LineControlRegister) (v : Bool) :
    (r.with_send_break v).parity_enable = r.parity_enable :=
  isol_bool 16 1 0 1 0b1 r.raw (bitstuff.boolToBits v).val (by decide)
    (boolToBits_val_lt v) (by omega) (by omega)

theorem isol_LCR_send_break_stick_parity (r : LineControlRegister) (v : Bool) :
    (r.with_stick_parity v).send_break = r.send_break :=
  isol_bool 16 0 7 1 0b10000000 r.raw (bitstuff.boolToBits v).val (by decide)
    (boolToBits_val_lt v) (by omega) (by omega)

theorem isol_LCR_send_break_word_length (r : LineControlRegister) (v : WordLength) :
    (r.with_word_length v).send_break = r.send_break :=
  isol_bool 16 0 5 2 0b1100000 r.raw (WordLength.to_bits v).val (by decide)
    (wordLengthToBits_val_lt v) (by omega) (by omega)

theorem isol_LCR_send_break_enable_fifos (r : LineControlRegister) (v : Bool) :
    (r.with_enable_fifos v).send_break = r.send_break :=
  isol_bool 16 0 4 1 0b10000 r.raw (bitstuff.boolToBits v).val (by decide)
    (boolToBits_val_lt v) (by omega) (by omega)

theorem isol_LCR_send_break_two_stop_bits_select (r : LineControlRegister) (v : Bool) :
    (r.with_two_stop_bits_select v).send_break = r.send_break :=
  isol_bool 16 0 3 1 0b1000 r.raw (bitstuff.boolToBits v).val (by decide)
    (boolToBits_val_lt v) (by omega) (by omega)

theorem isol_LCR_send_break_even_parity_select (r : LineControlRegister) (v : Bool) :
    (r.with_even_parity_select v).send_break = r.send_break :=
  isol_bool 16 0 2 1 0b100 r.raw (bitstuff.boolToBits v).val (by decide)
    (boolToBits_val_lt v) (by omega) (by omega)

theorem isol_LCR_send_break_parity_enable (r : LineControlRegister) (v : Bool) :
    (r.with_parity_enable v).send_break = r.send_break :=
  isol_bool 16 0 1 1 0b10 r.raw (bitstuff.boolToBits v).val (by decide)
    (boolToBits_val_lt v) (by omega) (by omega)

theorem isol_CR_CTS_hardware_flow_control_enable_RTS_hardware_flow_control_enable (r : ControlRegister) (v : Bool) :
    (r.with_RTS_hardware_flow_control_enable v).CTS_hardware_flow_control_enable = r.CTS_hardware_flow_control_enable :=
  isol_bool 16 15 14 1 0b100000000000000 r.raw (bitstuff.boolToBits v).val (by decide)
    (boolToBits_val_lt v) (by omega) (by omega)

theorem isol_CR_CTS_hardware_flow_control_enable_out2 (r : ControlRegister) (v : Bool) :
    (r.with_out2 v).CTS_hardware_flow_control_enable = r.CTS_hardware_flow_control_enable :=
  isol_bool 16 15 13 1 0b10000000000000 r.raw (bitstuff.boolToBits v).val (by decide)
    (boolToBits_val_lt v) (by omega) (by omega)

theorem isol_CR_CTS_hardware_flow_control_enable_out1 (r : ControlRegister) (v : Bool) :
    (r.with_out1 v).CTS_hardware_flow_control_enable = r.CTS_hardware_flow_control_enable :=
  isol_bool 16 15 12 1 0b1000000000000 r.raw (bitstuff.boolToBits v).val (by decide)
    (boolToBits_val_lt v) (by omega) (by omega)

theorem isol_CR_CTS_hardware_flow_control_enable_request_to_send (r : ControlRegister) (v : Bool) :
    (r.with_request_to_send v).CTS_hardware_flow_control_enable = r.CTS_hardware_flow_control_enable :=
  isol_bool 16 15 11 1 0b100000000000 r.raw (bitstuff.boolToBits v).val (by decide)
    (boolToBits_val_lt v) (by omega) (by omega)

theorem isol_CR_CTS_hardware_flow_control_enable_data_transmit_ready (r : ControlRegister) (v : Bool) :
    (r.with_data_transmit_ready v).CTS_hardware_flow_control_enable = r.CTS_hardware_flow_control_enable :=
  isol_bool 16 15 10 1 0b10000000000 r.raw (bitstuff.boolToBits v).val (by decide)
    (boolToBits_val_lt v) (by omega) (by omega)

theorem isol_CR_CTS_hardware_flow_control_enable_receive_enable (r : ControlRegister) (v : Bool) :
    (r.with_receive_enable v).CTS_hardware_flow_control_enable = r.CTS_hardware_flow_control_enable :=
  isol_bool 16 15 9 1 0b1000000000 r.raw (bitstuff.boolToBits v).val (by decide)
    (boolToBits_val_lt v) (by omega) (by omega)

theorem isol_CR_CTS_hardware_flow_control_enable_transmit_enable (r : ControlRegister) (v : Bool) :
    (r.with_transmit_enable v).CTS_hardware_flow_control_enable = r.CTS_hardware_flow_control_enable :=
  isol_bool 16 15 8 1 0b100000000 r.raw (bitstuff.boolToBits v).val (by decide)
    (boolToBits_val_lt v) (by omega) (by omega)

theorem isol_CR_CTS_hardware_flow_control_enable_loopback_enable (r : ControlRegister) (v : Bool) :
    (r.with_loopback_enable v).CTS_hardware_flow_control_enable = r.CTS_hardware_flow_control_enable :=
  isol_bool 16 15 7 1 0b10000000 r.raw (bitstuff.boolToBits v).val (by decide)
    (boolToBits_val_lt v) (by omega) (by omega)

theorem isol_CR_CTS_hardware_flow_control_enable_SIR_enable (r : ControlRegister) (v : Bool) :
    (r.with_SIR_enable v).CTS_hardware_flow_control_enable = r.CTS_hardware_flow_control_enable :=
  isol_bool 16 15 1 1 0b10 r.raw (bitstuff.boolToBits v).val (by decide)
    (boolToBits_val_lt v) (by omega) (by omega)

theorem isol_CR_CTS_hardware_flow_control_enable_UART_enable (r : ControlRegister) (v : Bool) :
    (r.with_UART_enable v).CTS_hardware_flow_control_enable = r.CTS_hardware_flow_control_enable :=
  isol_bool 16 15 0 1 0b1 r.raw (bitstuff.boolToBits v).val (by decide)
    (boolToBits_val_lt v) (by omega) (by omega)

theorem isol_CR_RTS_hardware_flow_control_enable_CTS_hardware_flow_control_enable (r : ControlRegister) (v : Bool) :
    (r.with_CTS_hardware_flow_control_enable v).RTS_hardware_flow_control_enable = r.RTS_hardware_flow_control_enable :=
  isol_bool 16 14 15 1 0b1000000000000000 r.raw (bitstuff.boolToBits v).val (by decide)
    (boolToBits_val_lt v) (by omega) (by omega)

theorem isol_CR_RTS_hardware_flow_control_enable_out2 (r : ControlRegister) (v : Bool) :
    (r.with_out2 v).RTS_hardware_flow_control_enable = r.RTS_hardware_flow_control_enable :=
  isol_bool 16 14 13 1 0b10000000000000 r.raw (bitstuff.boolToBits v).val (by decide)
    (boolToBits_val_lt v) (by omega) (by omega)

theorem isol_CR_RTS_hardware_flow_control_enable_out1 (r : ControlRegister) (v : Bool) :
    (r.with_out1 v).RTS_hardware_flow_control_enable = r.RTS_hardware_flow_control_enable :=
  isol_bool 16 14 12 1 0b1000000000000 r.raw (bitstuff.boolToBits v).val (by decide)
    (boolToBits_val_lt v) (by omega) (by omega)

theorem isol_CR_RTS_hardware_flow_control_enable_request_to_send (r : ControlRegister) (v : Bool) :
    (r.with_request_to_send v).RTS_hardware_flow_control_enable = r.RTS_hardware_flow_control_enable :=
  isol_bool 16 14 11 1 0b100000000000 r.raw (bitstuff.boolToBits v).val (by decide)
    (boolToBits_val_lt v) (by omega) (by omega)

theorem isol_CR_RTS_hardware_flow_control_enable_data_transmit_ready (r : ControlRegister) (v : Bool) :
    (r.with_data_transmit_ready v).RTS_hardware_flow_control_enable = r.RTS_hardware_flow_control_enable :=
  isol_bool 16 14 10 1 0b10000000000 r.raw (bitstuff.boolToBits v).val (by decide)
    (boolToBits_val_lt v) (by omega) (by omega)

theorem isol_CR_RTS_hardware_flow_control_enable_receive_enable (r : ControlRegister) (v : Bool) :
    (r.with_receive_enable v).RTS_hardware_flow_control_enable = r.RTS_hardware_flow_control_enable :=
  isol_bool 16 14 9 1 0b1000000000 r.raw (bitstuff.boolToBits v).val (by decide)
    (boolToBits_val_lt v) (by omega) (by omega)

theorem isol_CR_RTS_hardware_flow_control_enable_transmit_enable (r : ControlRegister) (v : Bool) :
    (r.with_transmit_enable v).RTS_hardware_flow_control_enable = r.RTS_hardware_flow_control_enable :=
  isol_bool 16 14 8 1 0b100000000 r.raw (bitstuff.boolToBits v).val (by decide)
    (boolToBits_val_lt v) (by omega) (by omega)

theorem isol_CR_RTS_hardware_flow_control_enable_loopback_enable (r : ControlRegister) (v : Bool) :
    (r.with_loopback_enable v).RTS_hardware_flow_control_enable = r.RTS_hardware_flow_control_enable :=
  isol_bool 16 14 7 1 0b10000000 r.raw (bitstuff.boolToBits v).val (by decide)
    (boolToBits_val_lt v) (by omega) (by omega)

theorem isol_CR_RTS_hardware_flow_control_enable_SIR_enable (r : ControlRegister) (v : Bool) :
    (r.with_SIR_enable v).RTS_hardware_flow_control_enable = r.RTS_hardware_flow_control_enable :=
  isol_bool 16 14 1 1 0b10 r.raw (bitstuff.boolToBits v).val (by decide)
    (boolToBits_val_lt v) (by omega) (by omega)

theorem isol_CR_RTS_hardware_flow_control_enable_UART_enable (r : ControlRegister) (v : Bool) :
    (r.with_UART_enable v).RTS_hardware_flow_control_enable = r.RTS_hardware_flow_control_enable :=
  isol_bool 16 14 0 1 0b1 r.raw (bitstuff.boolToBits v).val (by decide)
    (boolToBits_val_lt v) (by omega) (by omega)

theorem isol_CR_out2_CTS_hardware_flow_control_enable (r : ControlRegister) (v : Bool) :
    (r.with_CTS_hardware_flow_control_enable v).out2 = r.out2 :=
  isol_bool 16 13 15 1 0b1000000000000000 r.raw (bitstuff.boolToBits v).val (by decide)
    (boolToBits_val_lt v) (by omega) (by omega)

theorem isol_CR_out2_RTS_hardware_flow_control_enable (r : ControlRegister) (v : Bool) :
    (r.with_RTS_hardware_flow_control_enable v).out2 = r.out2 :=
  isol_bool 16 13 14 1 0b100000000000000 r.raw (bitstuff.boolToBits v).val (by decide)
    (boolToBits_val_lt v) (by omega) (by omega)

theorem isol_CR_out2_out1 (r : ControlRegister) (v : Bool) :
    (r.with_out1 v).out2 = r.out2 :=
  isol_bool 16 13 12 1 0b1000000000000 r.raw (bitstuff.boolToBits v).val (by decide)
    (boolToBits_val_lt v) (by omega) (by omega)

theorem isol_CR_out2_request_to_send (r : ControlRegister) (v : Bool) :
    (r.with_request_to_send v).out2 = r.out2 :=
  isol_bool 16 13 11 1 0b100000000000 r.raw (bitstuff.boolToBits v).val (by decide)
    (boolToBits_val_lt v) (by omega) (by omega)

theorem isol_CR_out2_data_transmit_ready (r : ControlRegister) (v : Bool) :
    (r.with_data_transmit_ready v).out2 = r.out2 :=
  isol_bool 16 13 10 1 0b10000000000 r.raw (bitstuff.boolToBits v).val (by decide)
    (boolToBits_val_lt v) (by omega) (by omega)

theorem isol_CR_out2_receive_enable (r : ControlRegister) (v : Bool) :
    (r.with_receive_enable v).out2 = r.out2 :=
  isol_bool 16 13 9 1 0b1000000000 r.raw (bitstuff.boolToBits v).val (by decide)
    (boolToBits_val_lt v) (by omega) (by omega)

theorem isol_CR_out2_transmit_enable (r : ControlRegister) (v : Bool) :
    (r.with_transmit_enable v).out2 = r.out2 :=
  isol_bool 16 13 8 1 0b100000000 r.raw (bitstuff.boolToBits v).val (by decide)
    (boolToBits_val_lt v) (by omega) (by omega)

theorem isol_CR_out2_loopback_enable (r : ControlRegister) (v : Bool) :
    (r.with_loopback_enable v).out2 = r.out2 :=
  isol_bool 16 13 7 1 0b10000000 r.raw (bitstuff.boolToBits v).val (by decide)
    (boolToBits_val_lt v) (by omega) (by omega)

theorem isol_CR_out2_SIR_enable (r : ControlRegister) (v : Bool) :
    (r.with_SIR_enable v).out2 = r.out2 :=
  isol_bool 16 13 1 1 0b10 r.raw (bitstuff.boolToBits v).val (by decide)
    (boolToBits_val_lt v) (by omega) (by omega)

theorem isol_CR_out2_UART_enable (r : ControlRegister) (v : Bool) :
    (r.with_UART_enable v).out2 = r.out2 :=
  isol_bool 16 13 0 1 0b1 r.raw (bitstuff.boolToBits v).val (by decide)
    (boolToBits_val_lt v) (by omega) (by omega)

theorem isol_CR_out1_CTS_hardware_flow_control_enable (r : ControlRegister) (v : Bool) :
    (r.with_CTS_hardware_flow_control_enable v).out1 = r.out1 :=
  isol_bool 16 12 15 1 0b1000000000000000 r.raw (bitstuff.boolToBits v).val (by decide)
    (boolToBits_val_lt v) (by omega) (by omega)

theorem isol_CR_out1_RTS_hardware_flow_control_enable (r : ControlRegister) (v : Bool) :
    (r.with_RTS_hardware_flow_control_enable v).out1 = r.out1 :=
  isol_bool 16 12 14 1 0b100000000000000 r.raw (bitstuff.boolToBits v).val (by decide)
    (boolToBits_val_lt v) (by omega) (by omega)

theorem isol_CR_out1_out2 (r : ControlRegister) (v : Bool) :
    (r.with_out2 v).out1 = r.out1 :=
  isol_bool 16 12 13 1 0b10000000000000 r.raw (bitstuff.boolToBits v).val (by decide)
    (boolToBits_val_lt v) (by omega) (by omega)

theorem isol_CR_out1_request_to_send (r : ControlRegister) (v : Bool) :
    (r.with_request_to_send v).out1 = r.out1 :=
  isol_bool 16 12 11 1 0b100000000000 r.raw (bitstuff.boolToBits v).val (by decide)
    (boolToBits_val_lt v) (by omega) (by omega)

theorem isol_CR_out1_data_transmit_ready (r : ControlRegister) (v : Bool) :
    (r.with_data_transmit_ready v).out1 = r.out1 :=
  isol_bool 16 12 10 1 0b10000000000 r.raw (bitstuff.boolToBits v).val (by decide)
    (boolToBits_val_lt v) (by omega) (by omega)

theorem isol_CR_out1_receive_enable (r : ControlRegister) (v : Bool) :
    (r.with_receive_enable v).out1 = r.out1 :=
  isol_bool 16 12 9 1 0b1000000000 r.raw (bitstuff.boolToBits v).val (by decide)
    (boolToBits_val_lt v) (by omega) (by omega)

theorem isol_CR_out1_transmit_enable (r : ControlRegister) (v : Bool) :
    (r.with_transmit_enable v).out1 = r.out1 :=
  isol_bool 16 12 8 1 0b100000000 r.raw (bitstuff.boolToBits v).val (by decide)
    (boolToBits_val_lt v) (by omega) (by omega)

theorem isol_CR_out1_loopback_enable (r : ControlRegister) (v : Bool) :
    (r.with_loopback_enable v).out1 = r.out1 :=
  isol_bool 16 12 7 1 0b10000000 r.raw (bitstuff.boolToBits v).val (by decide)
    (boolToBits_val_lt v) (by omega) (by omega)

theorem isol_CR_out1_SIR_enable (r : ControlRegister) (v : Bool) :
    (r.with_SIR_enable v).out1 = r.out1 :=
  isol_bool 16 12 1 1 0b10 r.raw (bitstuff.boolToBits v).val (by decide)
    (boolToBits_val_lt v) (by omega) (by omega)

theorem isol_CR_out1_UART_enable (r : ControlRegister) (v : Bool) :
    (r.with_UART_enable v).out1 = r.out1 :=
  isol_bool 16 12 0 1 0b1 r.raw (bitstuff.boolToBits v).val (by decide)
    (boolToBits_val_lt v) (by omega) (by omega)

theorem isol_CR_request_to_send_CTS_hardware_flow_control_enable (r : ControlRegister) (v : Bool) :
    (r.with_CTS_hardware_flow_control_enable v).request_to_send = r.request_to_send :=
  isol_bool 16 11 15 1 0b1000000000000000 r.raw (bitstuff.boolToBits v).val (by decide)
    (boolToBits_val_lt v) (by omega) (by omega)

theorem isol_CR_request_to_send_RTS_hardware_flow_control_enable (r : ControlRegister) (v : Bool) :
    (r.with_RTS_hardware_flow_control_enable v).request_to_send = r.request_to_send :=
  isol_bool 16 11 14 1 0b100000000000000 r.raw (bitstuff.boolToBits v).val (by decide)
    (boolToBits_val_lt v) (by omega) (by omega)

theorem isol_CR_request_to_send_out2 (r : ControlRegister) (v : Bool) :
    (r.with_out2 v).request_to_send = r.request_to_send :=
  isol_bool 16 11 13 1 0b10000000000000 r.raw (bitstuff.boolToBits v).val (by decide)
    (boolToBits_val_lt v) (by omega) (by omega)

theorem isol_CR_request_to_send_out1 (r : ControlRegister) (v : Bool) :
    (r.with_out1 v).request_to_send = r.request_to_send :=
  isol_bool 16 11 12 1 0b1000000000000 r.raw (bitstuff.boolToBits v).val (by decide)
    (boolToBits_val_lt v) (by omega) (by omega)

theorem isol_CR_request_to_send_data_transmit_ready (r : ControlRegister) (v : Bool) :
    (r.with_data_transmit_ready v).request_to_send = r.request_to_send :=
  isol_bool 16 11 10 1 0b10000000000 r.raw (bitstuff.boolToBits v).val (by decide)
    (boolToBits_val_lt v) (by omega) (by omega)

theorem isol_CR_request_to_send_receive_enable (r : ControlRegister) (v : Bool) :
    (r.with_receive_enable v).request_to_send = r.request_to_send :=
  isol_bool 16 11 9 1 0b1000000000 r.raw (bitstuff.boolToBits v).val (by decide)
    (boolToBits_val_lt v) (by omega) (by omega)

theorem isol_CR_request_to_send_transmit_enable (r : ControlRegister) (v : Bool) :
    (r.with_transmit_enable v).request_to_send = r.request_to_send :=
  isol_bool 16 11 8 1 0b100000000 r.raw (bitstuff.boolToBits v).val (by decide)
    (boolToBits_val_lt v) (by omega) (by omega)

theorem isol_CR_request_to_send_loopback_enable (r : ControlRegister) (v : Bool) :
    (r.with_loopback_enable v).request_to_send = r.request_to_send :=
  isol_bool 16 11 7 1 0b10000000 r.raw (bitstuff.boolToBits v).val (by decide)
    (boolToBits_val_lt v) (by omega) (by omega)

theorem isol_CR_request_to_send_SIR_enable (r : ControlRegister) (v : Bool) :
    (r.with_SIR_enable v).request_to_send = r.request_to_send :=
  isol_bool 16 11 1 1 0b10 r.raw (bitstuff.boolToBits v).val (by decide)
    (boolToBits_val_lt v) (by omega) (by omega)

theorem isol_CR_request_to_send_UART_enable (r : ControlRegister) (v : Bool) :
    (r.with_UART_enable v).request_to_send = r.request_to_send :=
  isol_bool 16 11 0 1 0b1 r.raw (bitstuff.boolToBits v).val (by decide)
    (boolToBits_val_lt v) (by omega) (by omega)

theorem isol_CR_data_transmit_ready_CTS_hardware_flow_control_enable (r : ControlRegister) (v : Bool) :
    (r.with_CTS_hardware_flow_control_enable v).data_transmit_ready = r.data_transmit_ready :=
  isol_bool 16 10 15 1 0b1000000000000000 r.raw (bitstuff.boolToBits v).val (by decide)
    (boolToBits_val_lt v) (by omega) (by omega)

theorem isol_CR_data_transmit_ready_RTS_hardware_flow_control_enable (r : ControlRegister) (v : Bool) :
    (r.with_RTS_hardware_flow_control_enable v).data_transmit_ready = r.data_transmit_ready :=
  isol_bool 16 10 14 1 0b100000000000000 r.raw (bitstuff.boolToBits v).val (by decide)
    (boolToBits_val_lt v) (by omega) (by omega)

theorem isol_CR_data_transmit_ready_out2 (r : ControlRegister) (v : Bool) :
    (r.with_out2 v).data_transmit_ready = r.data_transmit_ready :=
  isol_bool 16 10 13 1 0b10000000000000 r.raw (bitstuff.boolToBits v).val (by decide)
    (boolToBits_val_lt v) (by omega) (by omega)

theorem isol_CR_data_transmit_ready_out1 (r : ControlRegister) (v : Bool) :
    (r.with_out1 v).data_transmit_ready = r.data_transmit_ready :=
  isol_bool 16 10 12 1 0b1000000000000 r.raw (bitstuff.boolToBits v).val (by decide)
    (boolToBits_val_lt v) (by omega) (by omega)

theorem isol_CR_data_transmit_ready_request_to_send (r : ControlRegister) (v : Bool) :
    (r.with_request_to_send v).data_transmit_ready = r.data_transmit_ready :=
  isol_bool 16 10 11 1 0b100000000000 r.raw (bitstuff.boolToBits v).val (by decide)
    (boolToBits_val_lt v) (by omega) (by omega)

theorem isol_CR_data_transmit_ready_receive_enable (r : ControlRegister) (v : Bool) :
    (r.with_receive_enable v).data_transmit_ready = r.data_transmit_ready :=
  isol_bool 16 10 9 1 0b1000000000 r.raw (bitstuff.boolToBits v).val (by decide)
    (boolToBits_val_lt v) (by omega) (by omega)

theorem isol_CR_data_transmit_ready_transmit_enable (r : ControlRegister) (v : Bool) :
    (r.with_transmit_enable v).data_transmit_ready = r.data_transmit_ready :=
  isol_bool 16 10 8 1 0b100000000 r.raw (bitstuff.boolToBits v).val (by decide)
    (boolToBits_val_lt v) (by omega) (by omega)

theorem isol_CR_data_transmit_ready_loopback_enable (r : ControlRegister) (v : Bool) :
    (r.with_loopback_enable v).data_transmit_ready = r.data_transmit_ready :=
  isol_bool 16 10 7 1 0b10000000 r.raw (bitstuff.boolToBits v).val (by decide)
    (boolToBits_val_lt v) (by omega) (by omega)

theorem isol_CR_data_transmit_ready_SIR_enable (r : ControlRegister) (v : Bool) :
    (r.with_SIR_enable v).data_transmit_ready = r.data_transmit_ready :=
  isol_bool 16 10 1 1 0b10 r.raw (bitstuff.boolToBits v).val (by decide)
    (boolToBits_val_lt v) (by omega) (by omega)

theorem isol_CR_data_transmit_ready_UART_enable (r : ControlRegister) (v : Bool) :
    (r.with_UART_enable v).data_transmit_ready = r.data_transmit_ready :=
  isol_bool 16 10 0 1 0b1 r.raw (bitstuff.boolToBits v).val (by decide)
    (boolToBits_val_lt v) (by omega) (by omega)

theorem isol_CR_receive_enable_CTS_hardware_flow_control_enable (r : ControlRegister) (v : Bool) :
    (r.with_CTS_hardware_flow_control_enable v).receive_enable = r.receive_enable :=
  isol_bool 16 9 15 1 0b1000000000000000 r.raw (bitstuff.boolToBits v).val (by decide)
    (boolToBits_val_lt v) (by omega) (by omega)

theorem isol_CR_receive_enable_RTS_hardware_flow_control_enable (r : ControlRegister) (v : Bool) :
    (r.with_RTS_hardware_flow_control_enable v).receive_enable = r.receive_enable :=
  isol_bool 16 9 14 1 0b100000000000000 r.raw (bitstuff.boolToBits v).val (by decide)
    (boolToBits_val_lt v) (by omega) (by omega)

theorem isol_CR_receive_enable_out2 (r : ControlRegister) (v : Bool) :
    (r.with_out2 v).receive_enable = r.receive_enable :=
  isol_bool 16 9 13 1 0b10000000000000 r.raw (bitstuff.boolToBits v).val (by decide)
    (boolToBits_val_lt v) (by omega) (by omega)

theorem isol_CR_receive_enable_out1 (r : ControlRegister) (v : Bool) :
    (r.with_out1 v).receive_enable = r.receive_enable :=
  isol_bool 16 9 12 1 0b1000000000000 r.raw (bitstuff.boolToBits v).val (by decide)
    (boolToBits_val_lt v) (by omega) (by omega)

theorem isol_CR_receive_enable_request_to_send (r : ControlRegister) (v : Bool) :
    (r.with_request_to_send v).receive_enable = r.receive_enable :=
  isol_bool 16 9 11 1 0b100000000000 r.raw (bitstuff.boolToBits v).val (by decide)
    (boolToBits_val_lt v) (by omega) (by omega)

theorem isol_CR_receive_enable_data_transmit_ready (r : ControlRegister) (v : Bool) :
    (r.with_data_transmit_ready v).receive_enable = r.receive_enable :=
  isol_bool 16 9 10 1 0b10000000000 r.raw (bitstuff.boolToBits v).val (by decide)
    (boolToBits_val_lt v) (by omega) (by omega)

theorem isol_CR_receive_enable_transmit_enable (r : ControlRegister) (v : Bool) :
    (r.with_transmit_enable v).receive_enable = r.receive_enable :=
  isol_bool 16 9 8 1 0b100000000 r.raw (bitstuff.boolToBits v).val (by decide)
    (boolToBits_val_lt v) (by omega) (by omega)

theorem isol_CR_receive_enable_loopback_enable (r : ControlRegister) (v : Bool) :
    (r.with_loopback_enable v).receive_enable = r.receive_enable :=
  isol_bool 16 9 7 1 0b10000000 r.raw (bitstuff.boolToBits v).val (by decide)
    (boolToBits_val_lt v) (by omega) (by omega)

theorem isol_CR_receive_enable_SIR_enable (r : ControlRegister) (v : Bool) :
    (r.with_SIR_enable v).receive_enable = r.receive_enable :=
  isol_bool 16 9 1 1 0b10 r.raw (bitstuff.boolToBits v).val (by decide)
    (boolToBits_val_lt v) (by omega) (by omega)

theorem isol_CR_receive_enable_UART_enable (r : ControlRegister) (v : Bool) :
    (r.with_UART_enable v).receive_enable = r.receive_enable :=
  isol_bool 16 9 0 1 0b1 r.raw (bitstuff.boolToBits v).val (by decide)
    (boolToBits_val_lt v) (by omega) (by omega)

theorem isol_CR_transmit_enable_CTS_hardware_flow_control_enable (r : ControlRegister) (v : Bool) :
    (r.with_CTS_hardware_flow_control_enable v).transmit_enable = r.transmit_enable :=
  isol_bool 16 8 15 1 0b1000000000000000 r.raw (bitstuff.boolToBits v).val (by decide)
    (boolToBits_val_lt v) (by omega) (by omega)

theorem isol_CR_transmit_enable_RTS_hardware_flow_control_enable (r : ControlRegister) (v : Bool) :
    (r.with_RTS_hardware_flow_control_enable v).transmit_enable = r.transmit_enable :=
  isol_bool 16 8 14 1 0b100000000000000 r.raw (bitstuff.boolToBits v).val (by decide)
    (boolToBits_val_lt v) (by omega) (by omega)

theorem isol_CR_transmit_enable_out2 (r : ControlRegister) (v : Bool) :
    (r.with_out2 v).transmit_enable = r.transmit_enable :=
  isol_bool 16 8 13 1 0b10000000000000 r.raw (bitstuff.boolToBits v).val (by decide)
    (boolToBits_val_lt v) (by omega) (by omega)

theorem isol_CR_transmit_enable_out1 (r : ControlRegister) (v : Bool) :
    (r.with_out1 v).transmit_enable = r.transmit_enable :=
  isol_bool 16 8 12 1 0b1000000000000 r.raw (bitstuff.boolToBits v).val (by decide)
    (boolToBits_val_lt v) (by omega) (by omega)

theorem isol_CR_transmit_enable_request_to_send (r : ControlRegister) (v : Bool) :
    (r.with_request_to_send v).transmit_enable = r.transmit_enable :=
  isol_bool 16 8 11 1 0b100000000000 r.raw (bitstuff.boolToBits v).val (by decide)
    (boolToBits_val_lt v) (by omega) (by omega)

theorem isol_CR_transmit_enable_data_transmit_ready (r : ControlRegister) (v : Bool) :
    (r.with_data_transmit_ready v).transmit_enable = r.transmit_enable :=
  isol_bool 16 8 10 1 0b10000000000 r.raw (bitstuff.boolToBits v).val (by decide)
    (boolToBits_val_lt v) (by omega) (by omega)

theorem isol_CR_transmit_enable_receive_enable (r : ControlRegister) (v : Bool) :
    (r.with_receive_enable v).transmit_enable = r.transmit_enable :=
  isol_bool 16 8 9 1 0b1000000000 r.raw (bitstuff.boolToBits v).val (by decide)
    (boolToBits_val_lt v) (by omega) (by omega)

theorem isol_CR_transmit_enable_loopback_enable (r : ControlRegister) (v : Bool) :
    (r.with_loopback_enable v).transmit_enable = r.transmit_enable :=
  isol_bool 16 8 7 1 0b10000000 r.raw (bitstuff.boolToBits v).val (by decide)
    (boolToBits_val_lt v) (by omega) (by omega)

theorem isol_CR_transmit_enable_SIR_enable (r : ControlRegister) (v : Bool) :
    (r.with_SIR_enable v).transmit_enable = r.transmit_enable :=
  isol_bool 16 8 1 1 0b10 r.raw (bitstuff.boolToBits v).val (by decide)
    (boolToBits_val_lt v) (by omega) (by omega)

theorem isol_CR_transmit_enable_UART_enable (r : ControlRegister) (v : Bool) :
    (r.with_UART_enable v).transmit_enable = r.transmit_enable :=
  isol_bool 16 8 0 1 0b1 r.raw (bitstuff.boolToBits v).val (by decide)
    (boolToBits_val_lt v) (by omega) (by omega)

theorem isol_CR_loopback_enable_CTS_hardware_flow_control_enable (r : ControlRegister) (v : Bool) :
    (r.with_CTS_hardware_flow_control_enable v).loopback_enable = r.loopback_enable :=
  isol_bool 16 7 15 1 0b1000000000000000 r.raw (bitstuff.boolToBits v).val (by decide)
    (boolToBits_val_lt v) (by omega) (by omega)

theorem isol_CR_loopback_enable_RTS_hardware_flow_control_enable (r : ControlRegister) (v : Bool) :
    (r.with_RTS_hardware_flow_control_enable v).loopback_enable = r.loopback_enable :=
  isol_bool 16 7 14 1 0b100000000000000 r.raw (bitstuff.boolToBits v).val (by decide)
    (boolToBits_val_lt v) (by omega) (by omega)

theorem isol_CR_loopback_enable_out2 (r : ControlRegister) (v : Bool) :
    (r.with_out2 v).loopback_enable = r.loopback_enable :=
  isol_bool 16 7 13 1 0b10000000000000 r.raw (bitstuff.boolToBits v).val (by decide)
    (boolToBits_val_lt v) (by omega) (by omega)

theorem isol_CR_loopback_enable_out1 (r : ControlRegister) (v : Bool) :
    (r.with_out1 v).loopback_enable = r.loopback_enable :=
  isol_bool 16 7 12 1 0b1000000000000 r.raw (bitstuff.boolToBits v).val (by decide)
    (boolToBits_val_lt v) (by omega) (by omega)

theorem isol_CR_loopback_enable_request_to_send (r : ControlRegister) (v : Bool) :
    (r.with_request_to_send v).loopback_enable = r.loopback_enable :=
  isol_bool 16 7 11 1 0b100000000000 r.raw (bitstuff.boolToBits v).val (by decide)
    (boolToBits_val_lt v) (by omega) (by omega)

theorem isol_CR_loopback_enable_data_transmit_ready (r : ControlRegister) (v : Bool) :
    (r.with_data_transmit_ready v).loopback_enable = r.loopback_enable :=
  isol_bool 16 7 10 1 0b10000000000 r.raw (bitstuff.boolToBits v).val (by decide)
    (boolToBits_val_lt v) (by omega) (by omega)

theorem isol_CR_loopback_enable_receive_enable (r : ControlRegister) (v : Bool) :
    (r.with_receive_enable v).loopback_enable = r.loopback_enable :=
  isol_bool 16 7 9 1 0b1000000000 r.raw (bitstuff.boolToBits v).val (by decide)
    (boolToBits_val_lt v) (by omega) (by omega)

theorem isol_CR_loopback_enable_transmit_enable (r : ControlRegister) (v : Bool) :
    (r.with_transmit_enable v).loopback_enable = r.loopback_enable :=
  isol_bool 16 7 8 1 0b100000000 r.raw (bitstuff.boolToBits v).val (by decide)
    (boolToBits_val_lt v) (by omega) (by omega)

theorem isol_CR_loopback_enable_SIR_enable (r : ControlRegister) (v : Bool) :
    (r.with_SIR_enable v).loopback_enable = r.loopback_enable :=
  isol_bool 16 7 1 1 0b10 r.raw (bitstuff.boolToBits v).val (by decide)
    (boolToBits_val_lt v) (by omega) (by omega)

theorem isol_CR_loopback_enable_UART_enable (r : ControlRegister) (v : Bool) :
    (r.with_UART_enable v).loopback_enable = r.loopback_enable :=
  isol_bool 16 7 0 1 0b1 r.raw (bitstuff.boolToBits v).val (by decide)
    (boolToBits_val_lt v) (by omega) (by omega)

theorem isol_CR_SIR_enable_CTS_hardware_flow_control_enable (r : ControlRegister) (v : Bool) :
    (r.with_CTS_hardware_flow_control_enable v).SIR_enable = r.SIR_enable :=
  isol_bool 16 1 15 1 0b1000000000000000 r.raw (bitstuff.boolToBits v).val (by decide)
    (boolToBits_val_lt v) (by omega) (by omega)

theorem isol_CR_SIR_enable_RTS_hardware_flow_control_enable (r : ControlRegister) (v : Bool) :
    (r.with_RTS_hardware_flow_control_enable v).SIR_enable = r.SIR_enable :=
  isol_bool 16 1 14 1 0b100000000000000 r.raw (bitstuff.boolToBits v).val (by decide)
    (boolToBits_val_lt v) (by omega) (by omega)

theorem isol_CR_SIR_enable_out2 (r : ControlRegister) (v : Bool) :
    (r.with_out2 v).SIR_enable = r.SIR_enable :=
  isol_bool 16 1 13 1 0b10000000000000 r.raw (bitstuff.boolToBits v).val (by decide)
    (boolToBits_val_lt v) (by omega) (by omega)

theorem isol_CR_SIR_enable_out1 (r : ControlRegister) (v : Bool) :
    (r.with_out1 v).SIR_enable = r.SIR_enable :=
  isol_bool 16 1 12 1 0b1000000000000 r.raw (bitstuff.boolToBits v).val (by decide)
    (boolToBits_val_lt v) (by omega) (by omega)

theorem isol_CR_SIR_enable_request_to_send (r : ControlRegister) (v : Bool) :
    (r.with_request_to_send v).SIR_enable = r.SIR_enable :=
  isol_bool 16 1 11 1 0b100000000000 r.raw (bitstuff.boolToBits v).val (by decide)
    (boolToBits_val_lt v) (by omega) (by omega)

theorem isol_CR_SIR_enable_data_transmit_ready (r : ControlRegister) (v : Bool) :
    (r.with_data_transmit_ready v).SIR_enable = r.SIR_enable :=
  isol_bool 16 1 10 1 0b10000000000 r.raw (bitstuff.boolToBits v).val (by decide)
    (boolToBits_val_lt v) (by omega) (by omega)

theorem isol_CR_SIR_enable_receive_enable (r : ControlRegister) (v : Bool) :
    (r.with_receive_enable v).SIR_enable = r.SIR_enable :=
  isol_bool 16 1 9 1 0b1000000000 r.raw (bitstuff.boolToBits v).val (by decide)
    (boolToBits_val_lt v) (by omega) (by omega)

theorem isol_CR_SIR_enable_transmit_enable (r : ControlRegister) (v : Bool) :
    (r.with_transmit_enable v).SIR_enable = r.SIR_enable :=
  isol_bool 16 1 8 1 0b100000000 r.raw (bitstuff.boolToBits v).val (by decide)
    (boolToBits_val_lt v) (by omega) (by omega)

theorem isol_CR_SIR_enable_loopback_enable (r : ControlRegister) (v : Bool) :
    (r.with_loopback_enable v).SIR_enable = r.SIR_enable :=
  isol_bool 16 1 7 1 0b10000000 r.raw (bitstuff.boolToBits v).val (by decide)
    (boolToBits_val_lt v) (by omega) (by omega)

theorem isol_CR_SIR_enable_UART_enable (r : ControlRegister) (v : Bool) :
    (r.with_UART_enable v).SIR_enable = r.SIR_enable :=
  isol_bool 16 1 0 1 0b1 r.raw (bitstuff.boolToBits v).val (by decide)
    (boolToBits_val_lt v) (by omega) (by omega)

theorem isol_CR_UART_enable_CTS_hardware_flow_control_enable (r : ControlRegister) (v : Bool) :
    (r.with_CTS_hardware_flow_control_enable v).UART_enable = r.UART_enable :=
  isol_bool 16 0 15 1 0b1000000000000000 r.raw (bitstuff.boolToBits v).val (by decide)
    (boolToBits_val_lt v) (by omega) (by omega)

theorem isol_CR_UART_enable_RTS_hardware_flow_control_enable (r : ControlRegister) (v : Bool) :
    (r.with_RTS_hardware_flow_control_enable v).UART_enable = r.UART_enable :=
  isol_bool 16 0 14 1 0b100000000000000 r.raw (bitstuff.boolToBits v).val (by decide)
    (boolToBits_val_lt v) (by omega) (by omega)

theorem isol_CR_UART_enable_out2 (r : ControlRegister) (v : Bool) :
    (r.with_out2 v).UART_enable = r.UART_enable :=
  isol_bool 16 0 13 1 0b10000000000000 r.raw (bitstuff.boolToBits v).val (by decide)
    (boolToBits_val_lt v) (by omega) (by omega)

theorem isol_CR_UART_enable_out1 (r : ControlRegister) (v : Bool) :
    (r.with_out1 v).UART_enable = r.UART_enable :=
  isol_bool 16 0 12 1 0b1000000000000 r.raw (bitstuff.boolToBits v).val (by decide)
    (boolToBits_val_lt v) (by omega) (by omega)

theorem isol_CR_UART_enable_request_to_send (r : ControlRegister) (v : Bool) :
    (r.with_request_to_send v).UART_enable = r.UART_enable :=
  isol_bool 16 0 11 1 0b100000000000 r.raw (bitstuff.boolToBits v).val (by decide)
    (boolToBits_val_lt v) (by omega) (by omega)

theorem isol_CR_UART_enable_data_transmit_ready (r : ControlRegister) (v : Bool) :
    (r.with_data_transmit_ready v).UART_enable = r.UART_enable :=
  isol_bool 16 0 10 1 0b10000000000 r.raw (bitstuff.boolToBits v).val (by decide)
    (boolToBits_val_lt v) (by omega) (by omega)

theorem isol_CR_UART_enable_receive_enable (r : ControlRegister) (v : Bool) :
    (r.with_receive_enable v).UART_enable = r.UART_enable :=
  isol_bool 16 0 9 1 0b1000000000 r.raw (bitstuff.boolToBits v).val (by decide)
    (boolToBits_val_lt v) (by omega) (by omega)

theorem isol_CR_UART_enable_transmit_enable (r : ControlRegister) (v : Bool) :
    (r.with_transmit_enable v).UART_enable = r.UART_enable :=
  isol_bool 16 0 8 1 0b100000000 r.raw (bitstuff.boolToBits v).val (by decide)
    (boolToBits_val_lt v) (by omega) (by omega)

theorem isol_CR_UART_enable_loopback_enable (r : ControlRegister) (v : Bool) :
    (r.with_loopback_enable v).UART_enable = r.UART_enable :=
  isol_bool 16 0 7 1 0b10000000 r.raw (bitstuff.boolToBits v).val (by decide)
    (boolToBits_val_lt v) (by omega) (by omega)

theorem isol_CR_UART_enable_SIR_enable (r : ControlRegister) (v : Bool) :
    (r.with_SIR_enable v).UART_enable = r.UART_enable :=
  isol_bool 16 0 1 1 0b10 r.raw (bitstuff.boolToBits v).val (by decide)
    (boolToBits_val_lt v) (by omega) (by omega)

theorem isol_IFLS_receive_interrupt_FIFO_level_select_transmit_interrupt_FIFO_level_select (r : InterruptFIFOLevelSelectRegister) (v : FIFOLevelSelect) :
    (r.with_transmit_interrupt_FIFO_level_select v).receive_interrupt_FIFO_level_select = r.receive_interrupt_FIFO_level_select :=
  isol_fifo 16 3 0 3 0b111 r.raw (FIFOLevelSelect.to_bits v).val (by decide)
    (fifoToBits_val_lt v) (by omega) (by omega)

theorem isol_IFLS_transmit_interrupt_FIFO_level_select_receive_interrupt_FIFO_level_select (r : InterruptFIFOLevelSelectRegister) (v : FIFOLevelSelect) :
    (r.with_receive_interrupt_FIFO_level_select v).transmit_interrupt_FIFO_level_select = r.transmit_interrupt_FIFO_level_select :=
  isol_fifo 16 0 3 3 0b111000 r.raw (FIFOLevelSelect.to_bits v).val (by decide)
    (fifoToBits_val_lt v) (by omega) (by omega)

theorem isol_IMSC_overrun_error_interrupt_mask_break_error_interrupt_mask (r : InterruptMaskSetClearRegister) (v : Bool) :
    (r.with_break_error_interrupt_mask v).overrun_error_interrupt_mask = r.overrun_error_interrupt_mask :=
  isol_bool 16 10 9 1 0b1000000000 r.raw (bitstuff.boolToBits v).val (by decide)
    (boolToBits_val_lt v) (by omega) (by omega)

theorem isol_IMSC_overrun_error_interrupt_mask_parity_error_interrupt_mask (r : InterruptMaskSetClearRegister) (v : Bool) :
    (r.with_parity_error_interrupt_mask v).overrun_error_interrupt_mask = r.overrun_error_interrupt_mask :=
  isol_bool 16 10 8 1 0b100000000 r.raw (bitstuff.boolToBits v).val (by decide)
    (boolToBits_val_lt v) (by omega) (by omega)

theorem isol_IMSC_overrun_error_interrupt_mask_framing_error_interrupt_mask (r : InterruptMaskSetClearRegister) (v : Bool) :
    (r.with_framing_error_interrupt_mask v).overrun_error_interrupt_mask = r.overrun_error_interrupt_mask :=
  isol_bool 16 10 7 1 0b10000000 r.raw (bitstuff.boolToBits v).val (by decide)
    (boolToBits_val_lt v) (by omega) (by omega)

theorem isol_IMSC_overrun_error_interrupt_mask_receive_timeout_interrupt_mask (r : InterruptMaskSetClearRegister) (v : Bool) :
    (r.with_receive_timeout_interrupt_mask v).overrun_error_interrupt_mask = r.overrun_error_interrupt_mask :=
  isol_bool 16 10 6 1 0b1000000 r.raw (bitstuff.boolToBits v).val (by decide)
    (boolToBits_val_lt v) (by omega) (by omega)

theorem isol_IMSC_overrun_error_interrupt_mask_transmit_interrupt_mask (r : InterruptMaskSetClearRegister) (v : Bool) :
    (r.with_transmit_interrupt_mask v).overrun_error_interrupt_mask = r.overrun_error_interrupt_mask :=
  isol_bool 16 10 5 1 0b100000 r.raw (bitstuff.boolToBits v).val (by decide)
    (boolToBits_val_lt v) (by omega) (by omega)

theorem isol_IMSC_overrun_error_interrupt_mask_receive_interrupt_mask (r : InterruptMaskSetClearRegister) (v : Bool) :
    (r.with_receive_interrupt_mask v).overrun_error_interrupt_mask = r.overrun_error_interrupt_mask :=
  isol_bool 16 10 4 1 0b10000 r.raw (bitstuff.boolToBits v).val (by decide)
    (boolToBits_val_lt v) (by omega) (by omega)

theorem isol_IMSC_overrun_error_interrupt_mask_nUARTDSR_modem_interrupt_mask (r : InterruptMaskSetClearRegister) (v : Bool) :
    (r.with_nUARTDSR_modem_interrupt_mask v).overrun_error_interrupt_mask = r.overrun_error_interrupt_mask :=
  isol_bool 16 10 3 1 0b1000 r.raw (bitstuff.boolToBits v).val (by decide)
    (boolToBits_val_lt v) (by omega) (by omega)

theorem isol_IMSC_overrun_error_interrupt_mask_nUARTDCD_modem_interrupt_mask (r : InterruptMaskSetClearRegister) (v : Bool) :
    (r.with_nUARTDCD_modem_interrupt_mask v).overrun_error_interrupt_mask = r.overrun_error_interrupt_mask :=
  isol_bool 16 10 2 1 0b100 r.raw (bitstuff.boolToBits v).val (by decide)
    (boolToBits_val_lt v) (by omega) (by omega)

theorem isol_IMSC_overrun_error_interrupt_mask_nUARTCTS_modem_interrupt_mask (r : InterruptMaskSetClearRegister) (v : Bool) :
    (r.with_nUARTCTS_modem_interrupt_mask v).overrun_error_interrupt_mask = r.overrun_error_interrupt_mask :=
  isol_bool 16 10 1 1 0b10 r.raw (bitstuff.boolToBits v).val (by decide)
    (boolToBits_val_lt v) (by omega) (by omega)

theorem isol_IMSC_overrun_error_interrupt_mask_nUARTRI_modem_interrupt_mask (r : InterruptMaskSetClearRegister) (v : Bool) :
    (r.with_nUARTRI_modem_interrupt_mask v).overrun_error_interrupt_mask = r.overrun_error_interrupt_mask :=
  isol_bool 16 10 0 1 0b1 r.raw (bitstuff.boolToBits v).val (by decide)
    (boolToBits_val_lt v) (by omega) (by omega)

theorem isol_IMSC_break_error_interrupt_mask_overrun_error_interrupt_mask (r : InterruptMaskSetClearRegister) (v : Bool) :
    (r.with_overrun_error_interrupt_mask v).break_error_interrupt_mask = r.break_error_interrupt_mask :=
  isol_bool 16 9 10 1 0b10000000000 r.raw (bitstuff.boolToBits v).val (by decide)
    (boolToBits_val_lt v) (by omega) (by omega)

theorem isol_IMSC_break_error_interrupt_mask_parity_error_interrupt_mask (r : InterruptMaskSetClearRegister) (v : Bool) :
    (r.with_parity_error_interrupt_mask v).break_error_interrupt_mask = r.break_error_interrupt_mask :=
  isol_bool 16 9 8 1 0b100000000 r.raw (bitstuff.boolToBits v).val (by decide)
    (boolToBits_val_lt v) (by omega) (by omega)

theorem isol_IMSC_break_error_interrupt_mask_framing_error_interrupt_mask (r : InterruptMaskSetClearRegister) (v : Bool) :
    (r.with_framing_error_interrupt_mask v).break_error_interrupt_mask = r.break_error_interrupt_mask :=
  isol_bool 16 9 7 1 0b10000000 r.raw (bitstuff.boolToBits v).val (by decide)
    (boolToBits_val_lt v) (by omega) (by omega)

theorem isol_IMSC_break_error_interrupt_mask_receive_timeout_interrupt_mask (r : InterruptMaskSetClearRegister) (v : Bool) :
    (r.with_receive_timeout_interrupt_mask v).break_error_interrupt_mask = r.break_error_interrupt_mask :=
  isol_bool 16 9 6 1 0b1000000 r.raw (bitstuff.boolToBits v).val (by decide)
    (boolToBits_val_lt v) (by omega) (by omega)

theorem isol_IMSC_break_error_interrupt_mask_transmit_interrupt_mask (r : InterruptMaskSetClearRegister) (v : Bool) :
    (r.with_transmit_interrupt_mask v).break_error_interrupt_mask = r.break_error_interrupt_mask :=
  isol_bool 16 9 5 1 0b100000 r.raw (bitstuff.boolToBits v).val (by decide)
    (boolToBits_val_lt v) (by omega) (by omega)

theorem isol_IMSC_break_error_interrupt_mask_receive_interrupt_mask (r : InterruptMaskSetClearRegister) (v : Bool) :
    (r.with_receive_interrupt_mask v).break_error_interrupt_mask = r.break_error_interrupt_mask :=
  isol_bool 16 9 4 1 0b10000 r.raw (bitstuff.boolToBits v).val (by decide)
    (boolToBits_val_lt v) (by omega) (by omega)

theorem isol_IMSC_break_error_interrupt_mask_nUARTDSR_modem_interrupt_mask (r : InterruptMaskSetClearRegister) (v : Bool) :
    (r.with_nUARTDSR_modem_interrupt_mask v).break_error_interrupt_mask = r.break_error_interrupt_mask :=
  isol_bool 16 9 3 1 0b1000 r.raw (bitstuff.boolToBits v).val (by decide)
    (boolToBits_val_lt v) (by omega) (by omega)

theorem isol_IMSC_break_error_interrupt_mask_nUARTDCD_modem_interrupt_mask (r : InterruptMaskSetClearRegister) (v : Bool) :
    (r.with_nUARTDCD_modem_interrupt_mask v).break_error_interrupt_mask = r.break_error_interrupt_mask :=
  isol_bool 16 9 2 1 0b100 r.raw (bitstuff.boolToBits v).val (by decide)
    (boolToBits_val_lt v) (by omega) (by omega)

theorem isol_IMSC_break_error_interrupt_mask_nUARTCTS_modem_interrupt_mask (r : InterruptMaskSetClearRegister) (v : Bool) :
    (r.with_nUARTCTS_modem_interrupt_mask v).break_error_interrupt_mask = r.break_error_interrupt_mask :=
  isol_bool 16 9 1 1 0b10 r.raw (bitstuff.boolToBits v).val (by decide)
    (boolToBits_val_lt v) (by omega) (by omega)

theorem isol_IMSC_break_error_interrupt_mask_nUARTRI_modem_interrupt_mask (r : InterruptMaskSetClearRegister) (v : Bool) :
    (r.with_nUARTRI_modem_interrupt_mask v).break_error_interrupt_mask = r.break_error_interrupt_mask :=
  isol_bool 16 9 0 1 0b1 r.raw (bitstuff.boolToBits v).val (by decide)
    (boolToBits_val_lt v) (by omega) (by omega)

theorem isol_IMSC_parity_error_interrupt_mask_overrun_error_interrupt_mask (r : InterruptMaskSetClearRegister) (v : Bool) :
    (r.with_overrun_error_interrupt_mask v).parity_error_interrupt_mask = r.parity_error_interrupt_mask :=
  isol_bool 16 8 10 1 0b10000000000 r.raw (bitstuff.boolToBits v).val (by decide)
    (boolToBits_val_lt v) (by omega) (by omega)

theorem isol_IMSC_parity_error_interrupt_mask_break_error_interrupt_mask (r : InterruptMaskSetClearRegister) (v : Bool) :
    (r.with_break_error_interrupt_mask v).parity_error_interrupt_mask = r.parity_error_interrupt_mask :=
  isol_bool 16 8 9 1 0b1000000000 r.raw (bitstuff.boolToBits v).val (by decide)
    (boolToBits_val_lt v) (by omega) (by omega)

theorem isol_IMSC_parity_error_interrupt_mask_framing_error_interrupt_mask (r : InterruptMaskSetClearRegister) (v : Bool) :
    (r.with_framing_error_interrupt_mask v).parity_error_interrupt_mask = r.parity_error_interrupt_mask :=
  isol_bool 16 8 7 1 0b10000000 r.raw (bitstuff.boolToBits v).val (by decide)
    (boolToBits_val_lt v) (by omega) (by omega)

theorem isol_IMSC_parity_error_interrupt_mask_receive_timeout_interrupt_mask (r : InterruptMaskSetClearRegister) (v : Bool) :
    (r.with_receive_timeout_interrupt_mask v).parity_error_interrupt_mask = r.parity_error_interrupt_mask :=
  isol_bool 16 8 6 1 0b1000000 r.raw (bitstuff.boolToBits v).val (by decide)
    (boolToBits_val_lt v) (by omega) (by omega)

theorem isol_IMSC_parity_error_interrupt_mask_transmit_interrupt_mask (r : InterruptMaskSetClearRegister) (v : Bool) :
    (r.with_transmit_interrupt_mask v).parity_error_interrupt_mask = r.parity_error_interrupt_mask :=
  isol_bool 16 8 5 1 0b100000 r.raw (bitstuff.boolToBits v).val (by decide)
    (boolToBits_val_lt v) (by omega) (by omega)

theorem isol_IMSC_parity_error_interrupt_mask_receive_interrupt_mask (r : InterruptMaskSetClearRegister) (v : Bool) :
    (r.with_receive_interrupt_mask v).parity_error_interrupt_mask = r.parity_error_interrupt_mask :=
  isol_bool 16 8 4 1 0b10000 r.raw (bitstuff.boolToBits v).val (by decide)
    (boolToBits_val_lt v) (by omega) (by omega)

theorem isol_IMSC_parity_error_interrupt_mask_nUARTDSR_modem_interrupt_mask (r : InterruptMaskSetClearRegister) (v : Bool) :
    (r.with_nUARTDSR_modem_interrupt_mask v).parity_error_interrupt_mask = r.parity_error_interrupt_mask :=
  isol_bool 16 8 3 1 0b1000 r.raw (bitstuff.boolToBits v).val (by decide)
    (boolToBits_val_lt v) (by omega) (by omega)

theorem isol_IMSC_parity_error_interrupt_mask_nUARTDCD_modem_interrupt_mask (r : InterruptMaskSetClearRegister) (v : Bool) :
    (r.with_nUARTDCD_modem_interrupt_mask v).parity_error_interrupt_mask = r.parity_error_interrupt_mask :=
  isol_bool 16 8 2 1 0b100 r.raw (bitstuff.boolToBits v).val (by decide)
    (boolToBits_val_lt v) (by omega) (by omega)

theorem isol_IMSC_parity_error_interrupt_mask_nUARTCTS_modem_interrupt_mask (r : InterruptMaskSetClearRegister) (v : Bool) :
    (r.with_nUARTCTS_modem_interrupt_mask v).parity_error_interrupt_mask = r.parity_error_interrupt_mask :=
  isol_bool 16 8 1 1 0b10 r.raw (bitstuff.boolToBits v).val (by decide)
    (boolToBits_val_lt v) (by omega) (by omega)

theorem isol_IMSC_parity_error_interrupt_mask_nUARTRI_modem_interrupt_mask (r : InterruptMaskSetClearRegister) (v : Bool) :
    (r.with_nUARTRI_modem_interrupt_mask v).parity_error_interrupt_mask = r.parity_error_interrupt_mask :=
  isol_bool 16 8 0 1 0b1 r.raw (bitstuff.boolToBits v).val (by decide)
    (boolToBits_val_lt v) (by omega) (by omega)

theorem isol_IMSC_framing_error_interrupt_mask_overrun_error_interrupt_mask (r : InterruptMaskSetClearRegister) (v : Bool) :
    (r.with_overrun_error_interrupt_mask v).framing_error_interrupt_mask = r.framing_error_interrupt_mask :=
  isol_bool 16 7 10 1 0b10000000000 r.raw (bitstuff.boolToBits v).val (by decide)
    (boolToBits_val_lt v) (by omega) (by omega)

theorem isol_IMSC_framing_error_interrupt_mask_break_error_interrupt_mask (r : InterruptMaskSetClearRegister) (v : Bool) :
    (r.with_break_error_interrupt_mask v).framing_error_interrupt_mask = r.framing_error_interrupt_mask :=
  isol_bool 16 7 9 1 0b1000000000 r.raw (bitstuff.boolToBits v).val (by decide)
    (boolToBits_val_lt v) (by omega) (by omega)

theorem isol_IMSC_framing_error_interrupt_mask_parity_error_interrupt_mask (r : InterruptMaskSetClearRegister) (v : Bool) :
    (r.with_parity_error_interrupt_mask v).framing_error_interrupt_mask = r.framing_error_interrupt_mask :=
  isol_bool 16 7 8 1 0b100000000 r.raw (bitstuff.boolToBits v).val (by decide)
    (boolToBits_val_lt v) (by omega) (by omega)

theorem isol_IMSC_framing_error_interrupt_mask_receive_timeout_interrupt_mask (r : InterruptMaskSetClearRegister) (v : Bool) :
    (r.with_receive_timeout_interrupt_mask v).framing_error_interrupt_mask = r.framing_error_interrupt_mask :=
  isol_bool 16 7 6 1 0b1000000 r.raw (bitstuff.boolToBits v).val (by decide)
    (boolToBits_val_lt v) (by omega) (by omega)

theorem isol_IMSC_framing_error_interrupt_mask_transmit_interrupt_mask (r : InterruptMaskSetClearRegister) (v : Bool) :
    (r.with_transmit_interrupt_mask v).framing_error_interrupt_mask = r.framing_error_interrupt_mask :=
  isol_bool 16 7 5 1 0b100000 r.raw (bitstuff.boolToBits v).val (by decide)
    (boolToBits_val_lt v) (by omega) (by omega)

theorem isol_IMSC_framing_error_interrupt_mask_receive_interrupt_mask (r : InterruptMaskSetClearRegister) (v : Bool) :
    (r.with_receive_interrupt_mask v).framing_error_interrupt_mask = r.framing_error_interrupt_mask :=
  isol_bool 16 7 4 1 0b10000 r.raw (bitstuff.boolToBits v).val (by decide)
    (boolToBits_val_lt v) (by omega) (by omega)

theorem isol_IMSC_framing_error_interrupt_mask_nUARTDSR_modem_interrupt_mask (r : InterruptMaskSetClearRegister) (v : Bool) :
    (r.with_nUARTDSR_modem_interrupt_mask v).framing_error_interrupt_mask = r.framing_error_interrupt_mask :=
  isol_bool 16 7 3 1 0b1000 r.raw (bitstuff.boolToBits v).val (by decide)
    (boolToBits_val_lt v) (by omega) (by omega)

theorem isol_IMSC_framing_error_interrupt_mask_nUARTDCD_modem_interrupt_mask (r : InterruptMaskSetClearRegister) (v : Bool) :
    (r.with_nUARTDCD_modem_interrupt_mask v).framing_error_interrupt_mask = r.framing_error_interrupt_mask :=
  isol_bool 16 7 2 1 0b100 r.raw (bitstuff.boolToBits v).val (by decide)
    (boolToBits_val_lt v) (by omega) (by omega)

theorem isol_IMSC_framing_error_interrupt_mask_nUARTCTS_modem_interrupt_mask (r : InterruptMaskSetClearRegister) (v : Bool) :
    (r.with_nUARTCTS_modem_interrupt_mask v).framing_error_interrupt_mask = r.framing_error_interrupt_mask :=
  isol_bool 16 7 1 1 0b10 r.raw (bitstuff.boolToBits v).val (by decide)
    (boolToBits_val_lt v) (by omega) (by omega)

theorem isol_IMSC_framing_error_interrupt_mask_nUARTRI_modem_interrupt_mask (r : InterruptMaskSetClearRegister) (v : Bool) :
    (r.with_nUARTRI_modem_interrupt_mask v).framing_error_interrupt_mask = r.framing_error_interrupt_mask :=
  isol_bool 16 7 0 1 0b1 r.raw (bitstuff.boolToBits v).val (by decide)
    (boolToBits_val_lt v) (by omega) (by omega)

theorem isol_IMSC_receive_timeout_interrupt_mask_overrun_error_interrupt_mask (r : InterruptMaskSetClearRegister) (v : Bool) :
    (r.with_overrun_error_interrupt_mask v).receive_timeout_interrupt_mask = r.receive_timeout_interrupt_mask :=
  isol_bool 16 6 10 1 0b10000000000 r.raw (bitstuff.boolToBits v).val (by decide)
    (boolToBits_val_lt v) (by omega) (by omega)

theorem isol_IMSC_receive_timeout_interrupt_mask_break_error_interrupt_mask (r : InterruptMaskSetClearRegister) (v : Bool) :
    (r.with_break_error_interrupt_mask v).receive_timeout_interrupt_mask = r.receive_timeout_interrupt_mask :=
  isol_bool 16 6 9 1 0b1000000000 r.raw (bitstuff.boolToBits v).val (by decide)
    (boolToBits_val_lt v) (by omega) (by omega)

theorem isol_IMSC_receive_timeout_interrupt_mask_parity_error_interrupt_mask (r : InterruptMaskSetClearRegister) (v : Bool) :
    (r.with_parity_error_interrupt_mask v).receive_timeout_interrupt_mask = r.receive_timeout_interrupt_mask :=
  isol_bool 16 6 8 1 0b100000000 r.raw (bitstuff.boolToBits v).val (by decide)
    (boolToBits_val_lt v) (by omega) (by omega)

theorem isol_IMSC_receive_timeout_interrupt_mask_framing_error_interrupt_mask (r : InterruptMaskSetClearRegister) (v : Bool) :
    (r.with_framing_error_interrupt_mask v).receive_timeout_interrupt_mask = r.receive_timeout_interrupt_mask :=
  isol_bool 16 6 7 1 0b10000000 r.raw (bitstuff.boolToBits v).val (by decide)
    (boolToBits_val_lt v) (by omega) (by omega)

theorem isol_IMSC_receive_timeout_interrupt_mask_transmit_interrupt_mask (r : InterruptMaskSetClearRegister) (v : Bool) :
    (r.with_transmit_interrupt_mask v).receive_timeout_interrupt_mask = r.receive_timeout_interrupt_mask :=
  isol_bool 16 6 5 1 0b100000 r.raw (bitstuff.boolToBits v).val (by decide)
    (boolToBits_val_lt v) (by omega) (by omega)

theorem isol_IMSC_receive_timeout_interrupt_mask_receive_interrupt_mask (r : InterruptMaskSetClearRegister) (v : Bool) :
    (r.with_receive_interrupt_mask v).receive_timeout_interrupt_mask = r.receive_timeout_interrupt_mask :=
  isol_bool 16 6 4 1 0b10000 r.raw (bitstuff.boolToBits v).val (by decide)
    (boolToBits_val_lt v) (by omega) (by omega)

theorem isol_IMSC_receive_timeout_interrupt_mask_nUARTDSR_modem_interrupt_mask (r : InterruptMaskSetClearRegister) (v : Bool) :
    (r.with_nUARTDSR_modem_interrupt_mask v).receive_timeout_interrupt_mask = r.receive_timeout_interrupt_mask :=
  isol_bool 16 6 3 1 0b1000 r.raw (bitstuff.boolToBits v).val (by decide)
    (boolToBits_val_lt v) (by omega) (by omega)

theorem isol_IMSC_receive_timeout_interrupt_mask_nUARTDCD_modem_interrupt_mask (r : InterruptMaskSetClearRegister) (v : Bool) :
    (r.with_nUARTDCD_modem_interrupt_mask v).receive_timeout_interrupt_mask = r.receive_timeout_interrupt_mask :=
  isol_bool 16 6 2 1 0b100 r.raw (bitstuff.boolToBits v).val (by decide)
    (boolToBits_val_lt v) (by omega) (by omega)

theorem isol_IMSC_receive_timeout_interrupt_mask_nUARTCTS_modem_interrupt_mask (r : InterruptMaskSetClearRegister) (v : Bool) :
    (r.with_nUARTCTS_modem_interrupt_mask v).receive_timeout_interrupt_mask = r.receive_timeout_interrupt_mask :=
  isol_bool 16 6 1 1 0b10 r.raw (bitstuff.boolToBits v).val (by decide)
    (boolToBits_val_lt v) (by omega) (by omega)

theorem isol_IMSC_receive_timeout_interrupt_mask_nUARTRI_modem_interrupt_mask (r : InterruptMaskSetClearRegister) (v : Bool) :
    (r.with_nUARTRI_modem_interrupt_mask v).receive_timeout_interrupt_mask = r.receive_timeout_interrupt_mask :=
  isol_bool 16 6 0 1 0b1 r.raw (bitstuff.boolToBits v).val (by decide)
    (boolToBits_val_lt v) (by omega) (by omega)

theorem isol_IMSC_transmit_interrupt_mask_overrun_error_interrupt_mask (r : InterruptMaskSetClearRegister) (v : Bool) :
    (r.with_overrun_error_interrupt_mask v).transmit_interrupt_mask = r.transmit_interrupt_mask :=
  isol_bool 16 5 10 1 0b10000000000 r.raw (bitstuff.boolToBits v).val (by decide)
    (boolToBits_val_lt v) (by omega) (by omega)

theorem isol_IMSC_transmit_interrupt_mask_break_error_interrupt_mask (r : InterruptMaskSetClearRegister) (v : Bool) :
    (r.with_break_error_interrupt_mask v).transmit_interrupt_mask = r.transmit_interrupt_mask :=
  isol_bool 16 5 9 1 0b1000000000 r.raw (bitstuff.boolToBits v).val (by decide)
    (boolToBits_val_lt v) (by omega) (by omega)

theorem isol_IMSC_transmit_interrupt_mask_parity_error_interrupt_mask (r : InterruptMaskSetClearRegister) (v : Bool) :
    (r.with_parity_error_interrupt_mask v).transmit_interrupt_mask = r.transmit_interrupt_mask :=
  isol_bool 16 5 8 1 0b100000000 r.raw (bitstuff.boolToBits v).val (by decide)
    (boolToBits_val_lt v) (by omega) (by omega)

theorem isol_IMSC_transmit_interrupt_mask_framing_error_interrupt_mask (r : InterruptMaskSetClearRegister) (v : Bool) :
    (r.with_framing_error_interrupt_mask v).transmit_interrupt_mask = r.transmit_interrupt_mask :=
  isol_bool 16 5 7 1 0b10000000 r.raw (bitstuff.boolToBits v).val (by decide)
    (boolToBits_val_lt v) (by omega) (by omega)

theorem isol_IMSC_transmit_interrupt_mask_receive_timeout_interrupt_mask (r : InterruptMaskSetClearRegister) (v : Bool) :
    (r.with_receive_timeout_interrupt_mask v).transmit_interrupt_mask = r.transmit_interrupt_mask :=
  isol_bool 16 5 6 1 0b1000000 r.raw (bitstuff.boolToBits v).val (by decide)
    (boolToBits_val_lt v) (by omega) (by omega)

theorem isol_IMSC_transmit_interrupt_mask_receive_interrupt_mask (r : InterruptMaskSetClearRegister) (v : Bool) :
    (r.with_receive_interrupt_mask v).transmit_interrupt_mask = r.transmit_interrupt_mask :=
  isol_bool 16 5 4 1 0b10000 r.raw (bitstuff.boolToBits v).val (by decide)
    (boolToBits_val_lt v) (by omega) (by omega)

theorem isol_IMSC_transmit_interrupt_mask_nUARTDSR_modem_interrupt_mask (r : InterruptMaskSetClearRegister) (v : Bool) :
    (r.with_nUARTDSR_modem_interrupt_mask v).transmit_interrupt_mask = r.transmit_interrupt_mask :=
  isol_bool 16 5 3 1 0b1000 r.raw (bitstuff.boolToBits v).val (by decide)
    (boolToBits_val_lt v) (by omega) (by omega)

theorem isol_IMSC_transmit_interrupt_mask_nUARTDCD_modem_interrupt_mask (r : InterruptMaskSetClearRegister) (v : Bool) :
    (r.with_nUARTDCD_modem_interrupt_mask v).transmit_interrupt_mask = r.transmit_interrupt_mask :=
  isol_bool 16 5 2 1 0b100 r.raw (bitstuff.boolToBits v).val (by decide)
    (boolToBits_val_lt v) (by omega) (by omega)

theorem isol_IMSC_transmit_interrupt_mask_nUARTCTS_modem_interrupt_mask (r : InterruptMaskSetClearRegister) (v : Bool) :
    (r.with_nUARTCTS_modem_interrupt_mask v).transmit_interrupt_mask = r.transmit_interrupt_mask :=
  isol_bool 16 5 1 1 0b10 r.raw (bitstuff.boolToBits v).val (by decide)
    (boolToBits_val_lt v) (by omega) (by omega)

theorem isol_IMSC_transmit_interrupt_mask_nUARTRI_modem_interrupt_mask (r : InterruptMaskSetClearRegister) (v : Bool) :
    (r.with_nUARTRI_modem_interrupt_mask v).transmit_interrupt_mask = r.transmit_interrupt_mask :=
  isol_bool 16 5 0 1 0b1 r.raw (bitstuff.boolToBits v).val (by decide)
    (boolToBits_val_lt v) (by omega) (by omega)

theorem isol_IMSC_receive_interrupt_mask_overrun_error_interrupt_mask (r : InterruptMaskSetClearRegister) (v : Bool) :
    (r.with_overrun_error_interrupt_mask v).receive_interrupt_mask = r.receive_interrupt_mask :=
  isol_bool 16 4 10 1 0b10000000000 r.raw (bitstuff.boolToBits v).val (by decide)
    (boolToBits_val_lt v) (by omega) (by omega)

theorem isol_IMSC_receive_interrupt_mask_break_error_interrupt_mask (r : InterruptMaskSetClearRegister) (v : Bool) :
    (r.with_break_error_interrupt_mask v).receive_interrupt_mask = r.receive_interrupt_mask :=
  isol_bool 16 4 9 1 0b1000000000 r.raw (bitstuff.boolToBits v).val (by decide)
    (boolToBits_val_lt v) (by omega) (by omega)

theorem isol_IMSC_receive_interrupt_mask_parity_error_interrupt_mask (r : InterruptMaskSetClearRegister) (v : Bool) :
    (r.with_parity_error_interrupt_mask v).receive_interrupt_mask = r.receive_interrupt_mask :=
  isol_bool 16 4 8 1 0b100000000 r.raw (bitstuff.boolToBits v).val (by decide)
    (boolToBits_val_lt v) (by omega) (by omega)

theorem isol_IMSC_receive_interrupt_mask_framing_error_interrupt_mask (r : InterruptMaskSetClearRegister) (v : Bool) :
    (r.with_framing_error_interrupt_mask v).receive_interrupt_mask = r.receive_interrupt_mask :=
  isol_bool 16 4 7 1 0b10000000 r.raw (bitstuff.boolToBits v).val (by decide)
    (boolToBits_val_lt v) (by omega) (by omega)

theorem isol_IMSC_receive_interrupt_mask_receive_timeout_interrupt_mask (r : InterruptMaskSetClearRegister) (v : Bool) :
    (r.with_receive_timeout_interrupt_mask v).receive_interrupt_mask = r.receive_interrupt_mask :=
  isol_bool 16 4 6 1 0b1000000 r.raw (bitstuff.boolToBits v).val (by decide)
    (boolToBits_val_lt v) (by omega) (by omega)

theorem isol_IMSC_receive_interrupt_mask_transmit_interrupt_mask (r : InterruptMaskSetClearRegister) (v : Bool) :
    (r.with_transmit_interrupt_mask v).receive_interrupt_mask = r.receive_interrupt_mask :=
  isol_bool 16 4 5 1 0b100000 r.raw (bitstuff.boolToBits v).val (by decide)
    (boolToBits_val_lt v) (by omega) (by omega)

theorem isol_IMSC_receive_interrupt_mask_nUARTDSR_modem_interrupt_mask (r : InterruptMaskSetClearRegister) (v : Bool) :
    (r.with_nUARTDSR_modem_interrupt_mask v).receive_interrupt_mask = r.receive_interrupt_mask :=
  isol_bool 16 4 3 1 0b1000 r.raw (bitstuff.boolToBits v).val (by decide)
    (boolToBits_val_lt v) (by omega) (by omega)

theorem isol_IMSC_receive_interrupt_mask_nUARTDCD_modem_interrupt_mask (r : InterruptMaskSetClearRegister) (v : Bool) :
    (r.with_nUARTDCD_modem_interrupt_mask v).receive_interrupt_mask = r.receive_interrupt_mask :=
  isol_bool 16 4 2 1 0b100 r.raw (bitstuff.boolToBits v).val (by decide)
    (boolToBits_val_lt v) (by omega) (by omega)

theorem isol_IMSC_receive_interrupt_mask_nUARTCTS_modem_interrupt_mask (r : InterruptMaskSetClearRegister) (v : Bool) :
    (r.with_nUARTCTS_modem_interrupt_mask v).receive_interrupt_mask = r.receive_interrupt_mask :=
  isol_bool 16 4 1 1 0b10 r.raw (bitstuff.boolToBits v).val (by decide)
    (boolToBits_val_lt v) (by omega) (by omega)

theorem isol_IMSC_receive_interrupt_mask_nUARTRI_modem_interrupt_mask (r : InterruptMaskSetClearRegister) (v : Bool) :
    (r.with_nUARTRI_modem_interrupt_mask v).receive_interrupt_mask = r.receive_interrupt_mask :=
  isol_bool 16 4 0 1 0b1 r.raw (bitstuff.boolToBits v).val (by decide)
    (boolToBits_val_lt v) (by omega) (by omega)

theorem isol_IMSC_nUARTDSR_modem_interrupt_mask_overrun_error_interrupt_mask (r : InterruptMaskSetClearRegister) (v : Bool) :
    (r.with_overrun_error_interrupt_mask v).nUARTDSR_modem_interrupt_mask = r.nUARTDSR_modem_interrupt_mask :=
  isol_bool 16 3 10 1 0b10000000000 r.raw (bitstuff.boolToBits v).val (by decide)
    (boolToBits_val_lt v) (by omega) (by omega)

theorem isol_IMSC_nUARTDSR_modem_interrupt_mask_break_error_interrupt_mask (r : InterruptMaskSetClearRegister) (v : Bool) :
    (r.with_break_error_interrupt_mask v).nUARTDSR_modem_interrupt_mask = r.nUARTDSR_modem_interrupt_mask :=
  isol_bool 16 3 9 1 0b1000000000 r.raw (bitstuff.boolToBits v).val (by decide)
    (boolToBits_val_lt v) (by omega) (by omega)

theorem isol_IMSC_nUARTDSR_modem_interrupt_mask_parity_error_interrupt_mask (r : InterruptMaskSetClearRegister) (v : Bool) :
    (r.with_parity_error_interrupt_mask v).nUARTDSR_modem_interrupt_mask = r.nUARTDSR_modem_interrupt_mask :=
  isol_bool 16 3 8 1 0b100000000 r.raw (bitstuff.boolToBits v).val (by decide)
    (boolToBits_val_lt v) (by omega) (by omega)

theorem isol_IMSC_nUARTDSR_modem_interrupt_mask_framing_error_interrupt_mask (r : InterruptMaskSetClearRegister) (v : Bool) :
    (r.with_framing_error_interrupt_mask v).nUARTDSR_modem_interrupt_mask = r.nUARTDSR_modem_interrupt_mask :=
  isol_bool 16 3 7 1 0b10000000 r.raw (bitstuff.boolToBits v).val (by decide)
    (boolToBits_val_lt v) (by omega) (by omega)

theorem isol_IMSC_nUARTDSR_modem_interrupt_mask_receive_timeout_interrupt_mask (r : InterruptMaskSetClearRegister) (v : Bool) :
    (r.with_receive_timeout_interrupt_mask v).nUARTDSR_modem_interrupt_mask = r.nUARTDSR_modem_interrupt_mask :=
  isol_bool 16 3 6 1 0b1000000 r.raw (bitstuff.boolToBits v).val (by decide)
    (boolToBits_val_lt v) (by omega) (by omega)

theorem isol_IMSC_nUARTDSR_modem_interrupt_mask_transmit_interrupt_mask (r : InterruptMaskSetClearRegister) (v : Bool) :
    (r.with_transmit_interrupt_mask v).nUARTDSR_modem_interrupt_mask = r.nUARTDSR_modem_interrupt_mask :=
  isol_bool 16 3 5 1 0b100000 r.raw (bitstuff.boolToBits v).val (by decide)
    (boolToBits_val_lt v) (by omega) (by omega)

theorem isol_IMSC_nUARTDSR_modem_interrupt_mask_receive_interrupt_mask (r : InterruptMaskSetClearRegister) (v : Bool) :
    (r.with_receive_interrupt_mask v).nUARTDSR_modem_interrupt_mask = r.nUARTDSR_modem_interrupt_mask :=
  isol_bool 16 3 4 1 0b10000 r.raw (bitstuff.boolToBits v).val (by decide)
    (boolToBits_val_lt v) (by omega) (by omega)

theorem isol_IMSC_nUARTDSR_modem_interrupt_mask_nUARTDCD_modem_interrupt_mask (r : InterruptMaskSetClearRegister) (v : Bool) :
    (r.with_nUARTDCD_modem_interrupt_mask v).nUARTDSR_modem_interrupt_mask = r.nUARTDSR_modem_interrupt_mask :=
  isol_bool 16 3 2 1 0b100 r.raw (bitstuff.boolToBits v).val (by decide)
    (boolToBits_val_lt v) (by omega) (by omega)

theorem isol_IMSC_nUARTDSR_modem_interrupt_mask_nUARTCTS_modem_interrupt_mask (r : InterruptMaskSetClearRegister) (v : Bool) :
    (r.with_nUARTCTS_modem_interrupt_mask v).nUARTDSR_modem_interrupt_mask = r.nUARTDSR_modem_interrupt_mask :=
  isol_bool 16 3 1 1 0b10 r.raw (bitstuff.boolToBits v).val (by decide)
    (boolToBits_val_lt v) (by omega) (by omega)

theorem isol_IMSC_nUARTDSR_modem_interrupt_mask_nUARTRI_modem_interrupt_mask (r : InterruptMaskSetClearRegister) (v : Bool) :
    (r.with_nUARTRI_modem_interrupt_mask v).nUARTDSR_modem_interrupt_mask = r.nUARTDSR_modem_interrupt_mask :=
  isol_bool 16 3 0 1 0b1 r.raw (bitstuff.boolToBits v).val (by decide)
    (boolToBits_val_lt v) (by omega) (by omega)

theorem isol_IMSC_nUARTDCD_modem_interrupt_mask_overrun_error_interrupt_mask (r : InterruptMaskSetClearRegister) (v : Bool) :
    (r.with_overrun_error_interrupt_mask v).nUARTDCD_modem_interrupt_mask = r.nUARTDCD_modem_interrupt_mask :=
  isol_bool 16 2 10 1 0b10000000000 r.raw (bitstuff.boolToBits v).val (by decide)
    (boolToBits_val_lt v) (by omega) (by omega)

theorem isol_IMSC_nUARTDCD_modem_interrupt_mask_break_error_interrupt_mask (r : InterruptMaskSetClearRegister) (v : Bool) :
    (r.with_break_error_interrupt_mask v).nUARTDCD_modem_interrupt_mask = r.nUARTDCD_modem_interrupt_mask :=
  isol_bool 16 2 9 1 0b1000000000 r.raw (bitstuff.boolToBits v).val (by decide)
    (boolToBits_val_lt v) (by omega) (by omega)

theorem isol_IMSC_nUARTDCD_modem_interrupt_mask_parity_error_interrupt_mask (r : InterruptMaskSetClearRegister) (v : Bool) :
    (r.with_parity_error_interrupt_mask v).nUARTDCD_modem_interrupt_mask = r.nUARTDCD_modem_interrupt_mask :=
  isol_bool 16 2 8 1 0b100000000 r.raw (bitstuff.boolToBits v).val (by decide)
    (boolToBits_val_lt v) (by omega) (by omega)

theorem isol_IMSC_nUARTDCD_modem_interrupt_mask_framing_error_interrupt_mask (r : InterruptMaskSetClearRegister) (v : Bool) :
    (r.with_framing_error_interrupt_mask v).nUARTDCD_modem_interrupt_mask = r.nUARTDCD_modem_interrupt_mask :=
  isol_bool 16 2 7 1 0b10000000 r.raw (bitstuff.boolToBits v).val (by decide)
    (boolToBits_val_lt v) (by omega) (by omega)

theorem isol_IMSC_nUARTDCD_modem_interrupt_mask_receive_timeout_interrupt_mask (r : InterruptMaskSetClearRegister) (v : Bool) :
    (r.with_receive_timeout_interrupt_mask v).nUARTDCD_modem_interrupt_mask = r.nUARTDCD_modem_interrupt_mask :=
  isol_bool 16 2 6 1 0b1000000 r.raw (bitstuff.boolToBits v).val (by decide)
    (boolToBits_val_lt v) (by omega) (by omega)

theorem isol_IMSC_nUARTDCD_modem_interrupt_mask_transmit_interrupt_mask (r : InterruptMaskSetClearRegister) (v : Bool) :
    (r.with_transmit_interrupt_mask v).nUARTDCD_modem_interrupt_mask = r.nUARTDCD_modem_interrupt_mask :=
  isol_bool 16 2 5 1 0b100000 r.raw (bitstuff.boolToBits v).val (by decide)
    (boolToBits_val_lt v) (by omega) (by omega)

theorem isol_IMSC_nUARTDCD_modem_interrupt_mask_receive_interrupt_mask (r : InterruptMaskSetClearRegister) (v : Bool) :
    (r.with_receive_interrupt_mask v).nUARTDCD_modem_interrupt_mask = r.nUARTDCD_modem_interrupt_mask :=
  isol_bool 16 2 4 1 0b10000 r.raw (bitstuff.boolToBits v).val (by decide)
    (boolToBits_val_lt v) (by omega) (by omega)

theorem isol_IMSC_nUARTDCD_modem_interrupt_mask_nUARTDSR_modem_interrupt_mask (r : InterruptMaskSetClearRegister) (v : Bool) :
    (r.with_nUARTDSR_modem_interrupt_mask v).nUARTDCD_modem_interrupt_mask = r.nUARTDCD_modem_interrupt_mask :=
  isol_bool 16 2 3 1 0b1000 r.raw (bitstuff.boolToBits v).val (by decide)
    (boolToBits_val_lt v) (by omega) (by omega)

theorem isol_IMSC_nUARTDCD_modem_interrupt_mask_nUARTCTS_modem_interrupt_mask (r : InterruptMaskSetClearRegister) (v : Bool) :
    (r.with_nUARTCTS_modem_interrupt_mask v).nUARTDCD_modem_interrupt_mask = r.nUARTDCD_modem_interrupt_mask :=
  isol_bool 16 2 1 1 0b10 r.raw (bitstuff.boolToBits v).val (by decide)
    (boolToBits_val_lt v) (by omega) (by omega)

theorem isol_IMSC_nUARTDCD_modem_interrupt_mask_nUARTRI_modem_interrupt_mask (r : InterruptMaskSetClearRegister) (v : Bool) :
    (r.with_nUARTRI_modem_interrupt_mask v).nUARTDCD_modem_interrupt_mask = r.nUARTDCD_modem_interrupt_mask :=
  isol_bool 16 2 0 1 0b1 r.raw (bitstuff.boolToBits v).val (by decide)
    (boolToBits_val_lt v) (by omega) (by omega)

theorem isol_IMSC_nUARTCTS_modem_interrupt_mask_overrun_error_interrupt_mask (r : InterruptMaskSetClearRegister) (v : Bool) :
    (r.with_overrun_error_interrupt_mask v).nUARTCTS_modem_interrupt_mask = r.nUARTCTS_modem_interrupt_mask :=
  isol_bool 16 1 10 1 0b10000000000 r.raw (bitstuff.boolToBits v).val (by decide)
    (boolToBits_val_lt v) (by omega) (by omega)

theorem isol_IMSC_nUARTCTS_modem_interrupt_mask_break_error_interrupt_mask (r : InterruptMaskSetClearRegister) (v : Bool) :
    (r.with_break_error_interrupt_mask v).nUARTCTS_modem_interrupt_mask = r.nUARTCTS_modem_interrupt_mask :=
  isol_bool 16 1 9 1 0b1000000000 r.raw (bitstuff.boolToBits v).val (by decide)
    (boolToBits_val_lt v) (by omega) (by omega)

theorem isol_IMSC_nUARTCTS_modem_interrupt_mask_parity_error_interrupt_mask (r : InterruptMaskSetClearRegister) (v : Bool) :
    (r.with_parity_error_interrupt_mask v).nUARTCTS_modem_interrupt_mask = r.nUARTCTS_modem_interrupt_mask :=
  isol_bool 16 1 8 1 0b100000000 r.raw (bitstuff.boolToBits v).val (by decide)
    (boolToBits_val_lt v) (by omega) (by omega)

theorem isol_IMSC_nUARTCTS_modem_interrupt_mask_framing_error_interrupt_mask (r : InterruptMaskSetClearRegister) (v : Bool) :
    (r.with_framing_error_interrupt_mask v).nUARTCTS_modem_interrupt_mask = r.nUARTCTS_modem_interrupt_mask :=
  isol_bool 16 1 7 1 0b10000000 r.raw (bitstuff.boolToBits v).val (by decide)
    (boolToBits_val_lt v) (by omega) (by omega)

theorem isol_IMSC_nUARTCTS_modem_interrupt_mask_receive_timeout_interrupt_mask (r : InterruptMaskSetClearRegister) (v : Bool) :
    (r.with_receive_timeout_interrupt_mask v).nUARTCTS_modem_interrupt_mask = r.nUARTCTS_modem_interrupt_mask :=
  isol_bool 16 1 6 1 0b1000000 r.raw (bitstuff.boolToBits v).val (by decide)
    (boolToBits_val_lt v) (by omega) (by omega)

theorem isol_IMSC_nUARTCTS_modem_interrupt_mask_transmit_interrupt_mask (r : InterruptMaskSetClearRegister) (v : Bool) :
    (r.with_transmit_interrupt_mask v).nUARTCTS_modem_interrupt_mask = r.nUARTCTS_modem_interrupt_mask :=
  isol_bool 16 1 5 1 0b100000 r.raw (bitstuff.boolToBits v).val (by decide)
    (boolToBits_val_lt v) (by omega) (by omega)

theorem isol_IMSC_nUARTCTS_modem_interrupt_mask_receive_interrupt_mask (r : InterruptMaskSetClearRegister) (v : Bool) :
    (r.with_receive_interrupt_mask v).nUARTCTS_modem_interrupt_mask = r.nUARTCTS_modem_interrupt_mask :=
  isol_bool 16 1 4 1 0b10000 r.raw (bitstuff.boolToBits v).val (by decide)
    (boolToBits_val_lt v) (by omega) (by omega)

theorem isol_IMSC_nUARTCTS_modem_interrupt_mask_nUARTDSR_modem_interrupt_mask (r : InterruptMaskSetClearRegister) (v : Bool) :
    (r.with_nUARTDSR_modem_interrupt_mask v).nUARTCTS_modem_interrupt_mask = r.nUARTCTS_modem_interrupt_mask :=
  isol_bool 16 1 3 1 0b1000 r.raw (bitstuff.boolToBits v).val (by decide)
    (boolToBits_val_lt v) (by omega) (by omega)

theorem isol_IMSC_nUARTCTS_modem_interrupt_mask_nUARTDCD_modem_interrupt_mask (r : InterruptMaskSetClearRegister) (v : Bool) :
    (r.with_nUARTDCD_modem_interrupt_mask v).nUARTCTS_modem_interrupt_mask = r.nUARTCTS_modem_interrupt_mask :=
  isol_bool 16 1 2 1 0b100 r.raw (bitstuff.boolToBits v).val (by decide)
    (boolToBits_val_lt v) (by omega) (by omega)

theorem isol_IMSC_nUARTCTS_modem_interrupt_mask_nUARTRI_modem_interrupt_mask (r : InterruptMaskSetClearRegister) (v : Bool) :
    (r.with_nUARTRI_modem_interrupt_mask v).nUARTCTS_modem_interrupt_mask = r.nUARTCTS_modem_interrupt_mask :=
  isol_bool 16 1 0 1 0b1 r.raw (bitstuff.boolToBits v).val (by decide)
    (boolToBits_val_lt v) (by omega) (by omega)

theorem isol_IMSC_nUARTRI_modem_interrupt_mask_overrun_error_interrupt_mask (r : InterruptMaskSetClearRegister) (v : Bool) :
    (r.with_overrun_error_interrupt_mask v).nUARTRI_modem_interrupt_mask = r.nUARTRI_modem_interrupt_mask :=
  isol_bool 16 0 10 1 0b10000000000 r.raw (bitstuff.boolToBits v).val (by decide)
    (boolToBits_val_lt v) (by omega) (by omega)

theorem isol_IMSC_nUARTRI_modem_interrupt_mask_break_error_interrupt_mask (r : InterruptMaskSetClearRegister) (v : Bool) :
    (r.with_break_error_interrupt_mask v).nUARTRI_modem_interrupt_mask = r.nUARTRI_modem_interrupt_mask :=
  isol_bool 16 0 9 1 0b1000000000 r.raw (bitstuff.boolToBits v).val (by decide)
    (boolToBits_val_lt v) (by omega) (by omega)

theorem isol_IMSC_nUARTRI_modem_interrupt_mask_parity_error_interrupt_mask (r : InterruptMaskSetClearRegister) (v : Bool) :
    (r.with_parity_error_interrupt_mask v).nUARTRI_modem_interrupt_mask = r.nUARTRI_modem_interrupt_mask :=
  isol_bool 16 0 8 1 0b100000000 r.raw (bitstuff.boolToBits v).val (by decide)
    (boolToBits_val_lt v) (by omega) (by omega)

theorem isol_IMSC_nUARTRI_modem_interrupt_mask_framing_error_interrupt_mask (r : InterruptMaskSetClearRegister) (v : Bool) :
    (r.with_framing_error_interrupt_mask v).nUARTRI_modem_interrupt_mask = r.nUARTRI_modem_interrupt_mask :=
  isol_bool 16 0 7 1 0b10000000 r.raw (bitstuff.boolToBits v).val (by decide)
    (boolToBits_val_lt v) (by omega) (by omega)

theorem isol_IMSC_nUARTRI_modem_interrupt_mask_receive_timeout_interrupt_mask (r : InterruptMaskSetClearRegister) (v : Bool) :
    (r.with_receive_timeout_interrupt_mask v).nUARTRI_modem_interrupt_mask = r.nUARTRI_modem_interrupt_mask :=
  isol_bool 16 0 6 1 0b1000000 r.raw (bitstuff.boolToBits v).val (by decide)
    (boolToBits_val_lt v) (by omega) (by omega)

theorem isol_IMSC_nUARTRI_modem_interrupt_mask_transmit_interrupt_mask (r : InterruptMaskSetClearRegister) (v : Bool) :
    (r.with_transmit_interrupt_mask v).nUARTRI_modem_interrupt_mask = r.nUARTRI_modem_interrupt_mask :=
  isol_bool 16 0 5 1 0b100000 r.raw (bitstuff.boolToBits v).val (by decide)
    (boolToBits_val_lt v) (by omega) (by omega)

theorem isol_IMSC_nUARTRI_modem_interrupt_mask_receive_interrupt_mask (r : InterruptMaskSetClearRegister) (v : Bool) :
    (r.with_receive_interrupt_mask v).nUARTRI_modem_interrupt_mask = r.nUARTRI_modem_interrupt_mask :=
  isol_bool 16 0 4 1 0b10000 r.raw (bitstuff.boolToBits v).val (by decide)
    (boolToBits_val_lt v) (by omega) (by omega)

theorem isol_IMSC_nUARTRI_modem_interrupt_mask_nUARTDSR_modem_interrupt_mask (r : InterruptMaskSetClearRegister) (v : Bool) :
    (r.with_nUARTDSR_modem_interrupt_mask v).nUARTRI_modem_interrupt_mask = r.nUARTRI_modem_interrupt_mask :=
  isol_bool 16 0 3 1 0b1000 r.raw (bitstuff.boolToBits v).val (by decide)
    (boolToBits_val_lt v) (by omega) (by omega)

theorem isol_IMSC_nUARTRI_modem_interrupt_mask_nUARTDCD_modem_interrupt_mask (r : InterruptMaskSetClearRegister) (v : Bool) :
    (r.with_nUARTDCD_modem_interrupt_mask v).nUARTRI_modem_interrupt_mask = r.nUARTRI_modem_interrupt_mask :=
  isol_bool 16 0 2 1 0b100 r.raw (bitstuff.boolToBits v).val (by decide)
    (boolToBits_val_lt v) (by omega) (by omega)

theorem isol_IMSC_nUARTRI_modem_interrupt_mask_nUARTCTS_modem_interrupt_mask (r : InterruptMaskSetClearRegister) (v : Bool) :
    (r.with_nUARTCTS_modem_interrupt_mask v).nUARTRI_modem_interrupt_mask = r.nUARTRI_modem_interrupt_mask :=
  isol_bool 16 0 1 1 0b10 r.raw (bitstuff.boolToBits v).val (by decide)
    (boolToBits_val_lt v) (by omega) (by omega)

/-- Inserting a `NonZeroU8` into an 8-bit field at offset 0 and decoding
it back succeeds with the same value. -/
theorem nz8_decode_encode (x : Nat) (v : NonZeroU8) :
    bitstuff.NonZeroU8.try_from_bits (bitstuff.u8.cast
      (((x &&& not8 0b11111111) ||| (v.val <<< 0)) >>> 0)) = .ok v := by
  obtain ⟨n, hpos, hlt⟩ := v
  have h := extract_insert_self 8 0 8 0b11111111 x n (by decide) (by simpa using hlt)
    (by omega)
  have hp : bitstuff.u8.cast (((x &&& not8 0b11111111) ||| (n <<< 0)) >>> 0)
      = ⟨n, hlt⟩ := Fin.ext (by simpa [bitstuff.u8.cast, not8] using h)
  rw [hp]
  simp [bitstuff.NonZeroU8.try_from_bits, hpos]

/-- Inserting a `NonZeroU16` into a 16-bit field at offset 0 and
decoding it back succeeds with the same value. -/
theorem nz16_decode_encode (x : Nat) (v : NonZeroU16) :
    bitstuff.NonZeroU16.try_from_bits (bitstuff.u16.cast
      (((x &&& not16 0b1111111111111111) ||| (v.val <<< 0)) >>> 0)) = .ok v := by
  obtain ⟨n, hpos, hlt⟩ := v
  have h := extract_insert_self 16 0 16 0b1111111111111111 x n (by decide)
    (by simpa using hlt) (by omega)
  have hp : bitstuff.u16.cast (((x &&& not16 0b1111111111111111) ||| (n <<< 0)) >>> 0)
      = ⟨n, hlt⟩ := Fin.ext (by simpa [bitstuff.u16.cast, not16] using h)
  rw [hp]
  simp [bitstuff.NonZeroU16.try_from_bits, hpos]
/-! ### Round-trip instances on `Default`

For every register value type providing `Default` and every field:
setting the field on the default value and reading it back returns the
set value. -/

theorem rt_DR_overrun_error : ∀ (v : Bool), (DataRegister.default.with_overrun_error v).overrun_error = v := by decide

theorem rt_DR_break_error : ∀ (v : Bool), (DataRegister.default.with_break_error v).break_error = v := by decide

theorem rt_DR_parity_error : ∀ (v : Bool), (DataRegister.default.with_parity_error v).parity_error = v := by decide

theorem rt_DR_framing_error : ∀ (v : Bool), (DataRegister.default.with_framing_error v).framing_error = v := by decide

theorem rt_DR_data : ∀ (v : Fin 256), (DataRegister.default.with_data v).data = v := by decide

theorem rt_RSR_overrun_error : ∀ (v : Bool), (ReceiveStatusRegister.default.with_overrun_error v).overrun_error = v := by decide

theorem rt_RSR_break_error : ∀ (v : Bool), (ReceiveStatusRegister.default.with_break_error v).break_error = v := by decide

theorem rt_RSR_parity_error : ∀ (v : Bool), (ReceiveStatusRegister.default.with_parity_error v).parity_error = v := by decide

theorem rt_RSR_framing_error : ∀ (v : Bool), (ReceiveStatusRegister.default.with_framing_error v).framing_error = v := by decide

theorem rt_FR_ring_indicator : ∀ (v : Bool), (FlagRegister.default.with_ring_indicator v).ring_indicator = v := by decide

theorem rt_FR_transmit_fifo_empty : ∀ (v : Bool), (FlagRegister.default.with_transmit_fifo_empty v).transmit_fifo_empty = v := by decide

theorem rt_FR_receive_fifo_full : ∀ (v : Bool), (FlagRegister.default.with_receive_fifo_full v).receive_fifo_full = v := by decide

theorem rt_FR_transmit_fifo_full : ∀ (v : Bool), (FlagRegister.default.with_transmit_fifo_full v).transmit_fifo_full = v := by decide

theorem rt_FR_receive_fifo_empty : ∀ (v : Bool), (FlagRegister.default.with_receive_fifo_empty v).receive_fifo_empty = v := by decide

theorem rt_FR_uart_busy : ∀ (v : Bool), (FlagRegister.default.with_uart_busy v).uart_busy = v := by decide

theorem rt_FR_data_carrier_detect : ∀ (v : Bool), (FlagRegister.default.with_data_carrier_detect v).data_carrier_detect = v := by decide

theorem rt_FR_data_set_ready : ∀ (v : Bool), (FlagRegister.default.with_data_set_ready v).data_set_ready = v := by decide

theorem rt_FR_clear_to_send : ∀ (v : Bool), (FlagRegister.default.with_clear_to_send v).clear_to_send = v := by decide

theorem rt_ILPR_low_power_divisor_value : ∀ (v : NonZeroU8), (IrDALowPowerRegister.default.with_low_power_divisor_value v).low_power_divisor_value = RustResult.ok v := fun v => nz8_decode_encode 0 v

theorem rt_IBRD_integer_baud_rate_divisor : ∀ (v : NonZeroU16), (IntegerBaudRateDivisorRegister.default.with_integer_baud_rate_divisor v).integer_baud_rate_divisor = RustResult.ok v := fun v => nz16_decode_encode 0 v

theorem rt_FBRD_fractional_baud_rate_divisor : ∀ (v : Fin 64), (FractionalBaudRateDivisorRegister.default.with_fractional_baud_rate_divisor v).fractional_baud_rate_divisor = v := by decide

theorem rt_LCR_stick_parity : ∀ (v : Bool), (LineControlRegister.default.with_stick_parity v).stick_parity = v := by decide

theorem rt_LCR_word_length : ∀ (v : WordLength), (LineControlRegister.default.with_word_length v).word_length = v := by
  intro v
  cases v <;> decide

theorem rt_LCR_enable_fifos : ∀ (v : Bool), (LineControlRegister.default.with_enable_fifos v).enable_fifos = v := by decide

theorem rt_LCR_two_stop_bits_select : ∀ (v : Bool), (LineControlRegister.default.with_two_stop_bits_select v).two_stop_bits_select = v := by decide

theorem rt_LCR_even_parity_select : ∀ (v : Bool), (LineControlRegister.default.with_even_parity_select v).even_parity_select = v := by decide

theorem rt_LCR_parity_enable : ∀ (v : Bool), (LineControlRegister.default.with_parity_enable v).parity_enable = v := by decide

theorem rt_LCR_send_break : ∀ (v : Bool), (LineControlRegister.default.with_send_break v).send_break = v := by decide

theorem rt_CR_CTS_hardware_flow_control_enable : ∀ (v : Bool), (ControlRegister.default.with_CTS_hardware_flow_control_enable v).CTS_hardware_flow_control_enable = v := by decide

theorem rt_CR_RTS_hardware_flow_control_enable : ∀ (v : Bool), (ControlRegister.default.with_RTS_hardware_flow_control_enable v).RTS_hardware_flow_control_enable = v := by decide

theorem rt_CR_out2 : ∀ (v : Bool), (ControlRegister.default.with_out2 v).out2 = v := by decide

theorem rt_CR_out1 : ∀ (v : Bool), (ControlRegister.default.with_out1 v).out1 = v := by decide

theorem rt_CR_request_to_send : ∀ (v : Bool), (ControlRegister.default.with_request_to_send v).request_to_send = v := by decide

theorem rt_CR_data_transmit_ready : ∀ (v : Bool), (ControlRegister.default.with_data_transmit_ready v).data_transmit_ready = v := by decide

theorem rt_CR_receive_enable : ∀ (v : Bool), (ControlRegister.default.with_receive_enable v).receive_enable = v := by decide

theorem rt_CR_transmit_enable : ∀ (v : Bool), (ControlRegister.default.with_transmit_enable v).transmit_enable = v := by decide

theorem rt_CR_loopback_enable : ∀ (v : Bool), (ControlRegister.default.with_loopback_enable v).loopback_enable = v := by decide

theorem rt_CR_SIR_enable : ∀ (v : Bool), (ControlRegister.default.with_SIR_enable v).SIR_enable = v := by decide

theorem rt_CR_UART_enable : ∀ (v : Bool), (ControlRegister.default.with_UART_enable v).UART_enable = v := by decide

/-- C1: Field round-trip law — for every register value type constructed
by `Default` and every field, setting the field to any legally
representable value and reading it back returns exactly that value
(total fields return it directly, fallible fields return the success
case carrying it). -/
theorem field_roundtrip_on_default :
    (∀ (v : Bool), (DataRegister.default.with_overrun_error v).overrun_error = v) ∧
    (∀ (v : Bool), (DataRegister.default.with_break_error v).break_error = v) ∧
    (∀ (v : Bool), (DataRegister.default.with_parity_error v).parity_error = v) ∧
    (∀ (v : Bool), (DataRegister.default.with_framing_error v).framing_error = v) ∧
    (∀ (v : Fin 256), (DataRegister.default.with_data v).data = v) ∧
    (∀ (v : Bool), (ReceiveStatusRegister.default.with_overrun_error v).overrun_error = v) ∧
    (∀ (v : Bool), (ReceiveStatusRegister.default.with_break_error v).break_error = v) ∧
    (∀ (v : Bool), (ReceiveStatusRegister.default.with_parity_error v).parity_error = v) ∧
    (∀ (v : Bool), (ReceiveStatusRegister.default.with_framing_error v).framing_error = v) ∧
    (∀ (v : Bool), (FlagRegister.default.with_ring_indicator v).ring_indicator = v) ∧
    (∀ (v : Bool), (FlagRegister.default.with_transmit_fifo_empty v).transmit_fifo_empty = v) ∧
    (∀ (v : Bool), (FlagRegister.default.with_receive_fifo_full v).receive_fifo_full = v) ∧
    (∀ (v : Bool), (FlagRegister.default.with_transmit_fifo_full v).transmit_fifo_full = v) ∧
    (∀ (v : Bool), (FlagRegister.default.with_receive_fifo_empty v).receive_fifo_empty = v) ∧
    (∀ (v : Bool), (FlagRegister.default.with_uart_busy v).uart_busy = v) ∧
    (∀ (v : Bool), (FlagRegister.default.with_data_carrier_detect v).data_carrier_detect = v) ∧
    (∀ (v : Bool), (FlagRegister.default.with_data_set_ready v).data_set_ready = v) ∧
    (∀ (v : Bool), (FlagRegister.default.with_clear_to_send v).clear_to_send = v) ∧
    (∀ (v : NonZeroU8), (IrDALowPowerRegister.default.with_low_power_divisor_value v).low_power_divisor_value = RustResult.ok v) ∧
    (∀ (v : NonZeroU16), (IntegerBaudRateDivisorRegister.default.with_integer_baud_rate_divisor v).integer_baud_rate_divisor = RustResult.ok v) ∧
    (∀ (v : Fin 64), (FractionalBaudRateDivisorRegister.default.with_fractional_baud_rate_divisor v).fractional_baud_rate_divisor = v) ∧
    (∀ (v : Bool), (LineControlRegister.default.with_stick_parity v).stick_parity = v) ∧
    (∀ (v : WordLength), (LineControlRegister.default.with_word_length v).word_length = v) ∧
    (∀ (v : Bool), (LineControlRegister.default.with_enable_fifos v).enable_fifos = v) ∧
    (∀ (v : Bool), (LineControlRegister.default.with_two_stop_bits_select v).two_stop_bits_select = v) ∧
    (∀ (v : Bool), (LineControlRegister.default.with_even_parity_select v).even_parity_select = v) ∧
    (∀ (v : Bool), (LineControlRegister.default.with_parity_enable v).parity_enable = v) ∧
    (∀ (v : Bool), (LineControlRegister.default.with_send_break v).send_break = v) ∧
    (∀ (v : Bool), (ControlRegister.default.with_CTS_hardware_flow_control_enable v).CTS_hardware_flow_control_enable = v) ∧
    (∀ (v : Bool), (ControlRegister.default.with_RTS_hardware_flow_control_enable v).RTS_hardware_flow_control_enable = v) ∧
    (∀ (v : Bool), (ControlRegister.default.with_out2 v).out2 = v) ∧
    (∀ (v : Bool), (ControlRegister.default.with_out1 v).out1 = v) ∧
    (∀ (v : Bool), (ControlRegister.default.with_request_to_send v).request_to_send = v) ∧
    (∀ (v : Bool), (ControlRegister.default.with_data_transmit_ready v).data_transmit_ready = v) ∧
    (∀ (v : Bool), (ControlRegister.default.with_receive_enable v).receive_enable = v) ∧
    (∀ (v : Bool), (ControlRegister.default.with_transmit_enable v).transmit_enable = v) ∧
    (∀ (v : Bool), (ControlRegister.default.with_loopback_enable v).loopback_enable = v) ∧
    (∀ (v : Bool), (ControlRegister.default.with_SIR_enable v).SIR_enable = v) ∧
    (∀ (v : Bool), (ControlRegister.default.with_UART_enable v).UART_enable = v) :=
  ⟨rt_DR_overrun_error, rt_DR_break_error, rt_DR_parity_error, rt_DR_framing_error, rt_DR_data, rt_RSR_overrun_error, rt_RSR_break_error, rt_RSR_parity_error, rt_RSR_framing_error, rt_FR_ring_indicator, rt_FR_transmit_fifo_empty, rt_FR_receive_fifo_full, rt_FR_transmit_fifo_full, rt_FR_receive_fifo_empty, rt_FR_uart_busy, rt_FR_data_carrier_detect, rt_FR_data_set_ready, rt_FR_clear_to_send, rt_ILPR_low_power_divisor_value, rt_IBRD_integer_baud_rate_divisor, rt_FBRD_fractional_baud_rate_divisor, rt_LCR_stick_parity, rt_LCR_word_length, rt_LCR_enable_fifos, rt_LCR_two_stop_bits_select, rt_LCR_even_parity_select, rt_LCR_parity_enable, rt_LCR_send_break, rt_CR_CTS_hardware_flow_control_enable, rt_CR_RTS_hardware_flow_control_enable, rt_CR_out2, rt_CR_out1, rt_CR_request_to_send, rt_CR_data_transmit_ready, rt_CR_receive_enable, rt_CR_transmit_enable, rt_CR_loopback_enable, rt_CR_SIR_enable, rt_CR_UART_enable⟩

/-- C2: Field isolation — for every register value and every ordered
pair of distinct (non-overlapping) fields of that register, setting one
field never disturbs a read of the other, for every legally
representable value; in particular the data register's
`with_overrun_error(true).with_data(0xFF)` reads back
`overrun_error() = true` and `data() = 0xFF` simultaneously. -/
theorem field_isolation_and_data_scenario :
    ((∀ (r : DataRegister) (v : Bool), (r.with_break_error v).overrun_error = r.overrun_error) ∧
    (∀ (r : DataRegister) (v : Bool), (r.with_parity_error v).overrun_error = r.overrun_error) ∧
    (∀ (r : DataRegister) (v : Bool), (r.with_framing_error v).overrun_error = r.overrun_error) ∧
    (∀ (r : DataRegister) (v : Fin 256), (r.with_data v).overrun_error = r.overrun_error) ∧
    (∀ (r : DataRegister) (v : Bool), (r.with_overrun_error v).break_error = r.break_error) ∧
    (∀ (r : DataRegister) (v : Bool), (r.with_parity_error v).break_error = r.break_error) ∧
    (∀ (r : DataRegister) (v : Bool), (r.with_framing_error v).break_error = r.break_error) ∧
    (∀ (r : DataRegister) (v : Fin 256), (r.with_data v).break_error = r.break_error) ∧
    (∀ (r : DataRegister) (v : Bool), (r.with_overrun_error v).parity_error = r.parity_error) ∧
    (∀ (r : DataRegister) (v : Bool), (r.with_break_error v).parity_error = r.parity_error) ∧
    (∀ (r : DataRegister) (v : Bool), (r.with_framing_error v).parity_error = r.parity_error) ∧
    (∀ (r : DataRegister) (v : Fin 256), (r.with_data v).parity_error = r.parity_error) ∧
    (∀ (r : DataRegister) (v : Bool), (r.with_overrun_error v).framing_error = r.framing_error) ∧
    (∀ (r : DataRegister) (v : Bool), (r.with_break_error v).framing_error = r.framing_error) ∧
    (∀ (r : DataRegister) (v : Bool), (r.with_parity_error v).framing_error = r.framing_error) ∧
    (∀ (r : DataRegister) (v : Fin 256), (r.with_data v).framing_error = r.framing_error) ∧
    (∀ (r : DataRegister) (v : Bool), (r.with_overrun_error v).data = r.data) ∧
    (∀ (r : DataRegister) (v : Bool), (r.with_break_error v).data = r.data) ∧
    (∀ (r : DataRegister) (v : Bool), (r.with_parity_error v).data = r.data) ∧
    (∀ (r : DataRegister) (v : Bool), (r.with_framing_error v).data = r.data) ∧
    (∀ (r : ReceiveStatusRegister) (v : Bool), (r.with_break_error v).overrun_error = r.overrun_error) ∧
    (∀ (r : ReceiveStatusRegister) (v : Bool), (r.with_parity_error v).overrun_error = r.overrun_error) ∧
    (∀ (r : ReceiveStatusRegister) (v : Bool), (r.with_framing_error v).overrun_error = r.overrun_error) ∧
    (∀ (r : ReceiveStatusRegister) (v : Bool), (r.with_overrun_error v).break_error = r.break_error) ∧
    (∀ (r : ReceiveStatusRegister) (v : Bool), (r.with_parity_error v).break_error = r.break_error) ∧
    (∀ (r : ReceiveStatusRegister) (v : Bool), (r.with_framing_error v).break_error = r.break_error) ∧
    (∀ (r : ReceiveStatusRegister) (v : Bool), (r.with_overrun_error v).parity_error = r.parity_error) ∧
    (∀ (r : ReceiveStatusRegister) (v : Bool), (r.with_break_error v).parity_error = r.parity_error) ∧
    (∀ (r : ReceiveStatusRegister) (v : Bool), (r.with_framing_error v).parity_error = r.parity_error) ∧
    (∀ (r : ReceiveStatusRegister) (v : Bool), (r.with_overrun_error v).framing_error = r.framing_error) ∧
    (∀ (r : ReceiveStatusRegister) (v : Bool), (r.with_break_error v).framing_error = r.framing_error) ∧
    (∀ (r : ReceiveStatusRegister) (v : Bool), (r.with_parity_error v).framing_error = r.framing_error) ∧
    (∀ (r : FlagRegister) (v : Bool), (r.with_transmit_fifo_empty v).ring_indicator = r.ring_indicator) ∧
    (∀ (r : FlagRegister) (v : Bool), (r.with_receive_fifo_full v).ring_indicator = r.ring_indicator) ∧
    (∀ (r : FlagRegister) (v : Bool), (r.with_transmit_fifo_full v).ring_indicator = r.ring_indicator) ∧
    (∀ (r : FlagRegister) (v : Bool), (r.with_receive_fifo_empty v).ring_indicator = r.ring_indicator) ∧
    (∀ (r : FlagRegister) (v : Bool), (r.with_uart_busy v).ring_indicator = r.ring_indicator) ∧
    (∀ (r : FlagRegister) (v : Bool), (r.with_data_carrier_detect v).ring_indicator = r.ring_indicator) ∧
    (∀ (r : FlagRegister) (v : Bool), (r.with_data_set_ready v).ring_indicator = r.ring_indicator) ∧
    (∀ (r : FlagRegister) (v : Bool), (r.with_clear_to_send v).ring_indicator = r.ring_indicator) ∧
    (∀ (r : FlagRegister) (v : Bool), (r.with_ring_indicator v).transmit_fifo_empty = r.transmit_fifo_empty) ∧
    (∀ (r : FlagRegister) (v : Bool), (r.with_receive_fifo_full v).transmit_fifo_empty = r.transmit_fifo_empty) ∧
    (∀ (r : FlagRegister) (v : Bool), (r.with_transmit_fifo_full v).transmit_fifo_empty = r.transmit_fifo_empty) ∧
    (∀ (r : FlagRegister) (v : Bool), (r.with_receive_fifo_empty v).transmit_fifo_empty = r.transmit_fifo_empty) ∧
    (∀ (r : FlagRegister) (v : Bool), (r.with_uart_busy v).transmit_fifo_empty = r.transmit_fifo_empty) ∧
    (∀ (r : FlagRegister) (v : Bool), (r.with_data_carrier_detect v).transmit_fifo_empty = r.transmit_fifo_empty) ∧
    (∀ (r : FlagRegister) (v : Bool), (r.with_data_set_ready v).transmit_fifo_empty = r.transmit_fifo_empty) ∧
    (∀ (r : FlagRegister) (v : Bool), (r.with_clear_to_send v).transmit_fifo_empty = r.transmit_fifo_empty) ∧
    (∀ (r : FlagRegister) (v : Bool), (r.with_ring_indicator v).receive_fifo_full = r.receive_fifo_full) ∧
    (∀ (r : FlagRegister) (v : Bool), (r.with_transmit_fifo_empty v).receive_fifo_full = r.receive_fifo_full) ∧
    (∀ (r : FlagRegister) (v : Bool), (r.with_transmit_fifo_full v).receive_fifo_full = r.receive_fifo_full) ∧
    (∀ (r : FlagRegister) (v : Bool), (r.with_receive_fifo_empty v).receive_fifo_full = r.receive_fifo_full) ∧
    (∀ (r : FlagRegister) (v : Bool), (r.with_uart_busy v).receive_fifo_full = r.receive_fifo_full) ∧
    (∀ (r : FlagRegister) (v : Bool), (r.with_data_carrier_detect v).receive_fifo_full = r.receive_fifo_full) ∧
    (∀ (r : FlagRegister) (v : Bool), (r.with_data_set_ready v).receive_fifo_full = r.receive_fifo_full) ∧
    (∀ (r : FlagRegister) (v : Bool), (r.with_clear_to_send v).receive_fifo_full = r.receive_fifo_full) ∧
    (∀ (r : FlagRegister) (v : Bool), (r.with_ring_indicator v).transmit_fifo_full = r.transmit_fifo_full) ∧
    (∀ (r : FlagRegister) (v : Bool), (r.with_transmit_fifo_empty v).transmit_fifo_full = r.transmit_fifo_full) ∧
    (∀ (r : FlagRegister) (v : Bool), (r.with_receive_fifo_full v).transmit_fifo_full = r.transmit_fifo_full) ∧
    (∀ (r : FlagRegister) (v : Bool), (r.with_receive_fifo_empty v).transmit_fifo_full = r.transmit_fifo_full) ∧
    (∀ (r : FlagRegister) (v : Bool), (r.with_uart_busy v).transmit_fifo_full = r.transmit_fifo_full) ∧
    (∀ (r : FlagRegister) (v : Bool), (r.with_data_carrier_detect v).transmit_fifo_full = r.transmit_fifo_full) ∧
    (∀ (r : FlagRegister) (v : Bool), (r.with_data_set_ready v).transmit_fifo_full = r.transmit_fifo_full) ∧
    (∀ (r : FlagRegister) (v : Bool), (r.with_clear_to_send v).transmit_fifo_full = r.transmit_fifo_full) ∧
    (∀ (r : FlagRegister) (v : Bool), (r.with_ring_indicator v).receive_fifo_empty = r.receive_fifo_empty) ∧
    (∀ (r : FlagRegister) (v : Bool), (r.with_transmit_fifo_empty v).receive_fifo_empty = r.receive_fifo_empty) ∧
    (∀ (r : FlagRegister) (v : Bool), (r.with_receive_fifo_full v).receive_fifo_empty = r.receive_fifo_empty) ∧
    (∀ (r : FlagRegister) (v : Bool), (r.with_transmit_fifo_full v).receive_fifo_empty = r.receive_fifo_empty) ∧
    (∀ (r : FlagRegister) (v : Bool), (r.with_uart_busy v).receive_fifo_empty = r.receive_fifo_empty) ∧
    (∀ (r : FlagRegister) (v : Bool), (r.with_data_carrier_detect v).receive_fifo_empty = r.receive_fifo_empty) ∧
    (∀ (r : FlagRegister) (v : Bool), (r.with_data_set_ready v).receive_fifo_empty = r.receive_fifo_empty) ∧
    (∀ (r : FlagRegister) (v : Bool), (r.with_clear_to_send v).receive_fifo_empty = r.receive_fifo_empty) ∧
    (∀ (r : FlagRegister) (v : Bool), (r.with_ring_indicator v).uart_busy = r.uart_busy) ∧
    (∀ (r : FlagRegister) (v : Bool), (r.with_transmit_fifo_empty v).uart_busy = r.uart_busy) ∧
    (∀ (r : FlagRegister) (v : Bool), (r.with_receive_fifo_full v).uart_busy = r.uart_busy) ∧
    (∀ (r : FlagRegister) (v : Bool), (r.with_transmit_fifo_full v).uart_busy = r.uart_busy) ∧
    (∀ (r : FlagRegister) (v : Bool), (r.with_receive_fifo_empty v).uart_busy = r.uart_busy) ∧
    (∀ (r : FlagRegister) (v : Bool), (r.with_data_carrier_detect v).uart_busy = r.uart_busy) ∧
    (∀ (r : FlagRegister) (v : Bool), (r.with_data_set_ready v).uart_busy = r.uart_busy) ∧
    (∀ (r : FlagRegister) (v : Bool), (r.with_clear_to_send v).uart_busy = r.uart_busy) ∧
    (∀ (r : FlagRegister) (v : Bool), (r.with_ring_indicator v).data_carrier_detect = r.data_carrier_detect) ∧
    (∀ (r : FlagRegister) (v : Bool), (r.with_transmit_fifo_empty v).data_carrier_detect = r.data_carrier_detect) ∧
    (∀ (r : FlagRegister) (v : Bool), (r.with_receive_fifo_full v).data_carrier_detect = r.data_carrier_detect) ∧
    (∀ (r : FlagRegister) (v : Bool), (r.with_transmit_fifo_full v).data_carrier_detect = r.data_carrier_detect) ∧
    (∀ (r : FlagRegister) (v : Bool), (r.with_receive_fifo_empty v).data_carrier_detect = r.data_carrier_detect) ∧
    (∀ (r : FlagRegister) (v : Bool), (r.with_uart_busy v).data_carrier_detect = r.data_carrier_detect) ∧
    (∀ (r : FlagRegister) (v : Bool), (r.with_data_set_ready v).data_carrier_detect = r.data_carrier_detect) ∧
    (∀ (r : FlagRegister) (v : Bool), (r.with_clear_to_send v).data_carrier_detect = r.data_carrier_detect) ∧
    (∀ (r : FlagRegister) (v : Bool), (r.with_ring_indicator v).data_set_ready = r.data_set_ready) ∧
    (∀ (r : FlagRegister) (v : Bool), (r.with_transmit_fifo_empty v).data_set_ready = r.data_set_ready) ∧
    (∀ (r : FlagRegister) (v : Bool), (r.with_receive_fifo_full v).data_set_ready = r.data_set_ready) ∧
    (∀ (r : FlagRegister) (v : Bool), (r.with_transmit_fifo_full v).data_set_ready = r.data_set_ready) ∧
    (∀ (r : FlagRegister) (v : Bool), (r.with_receive_fifo_empty v).data_set_ready = r.data_set_ready) ∧
    (∀ (r : FlagRegister) (v : Bool), (r.with_uart_busy v).data_set_ready = r.data_set_ready) ∧
    (∀ (r : FlagRegister) (v : Bool), (r.with_data_carrier_detect v).data_set_ready = r.data_set_ready) ∧
    (∀ (r : FlagRegister) (v : Bool), (r.with_clear_to_send v).data_set_ready = r.data_set_ready) ∧
    (∀ (r : FlagRegister) (v : Bool), (r.with_ring_indicator v).clear_to_send = r.clear_to_send) ∧
    (∀ (r : FlagRegister) (v : Bool), (r.with_transmit_fifo_empty v).clear_to_send = r.clear_to_send) ∧
    (∀ (r : FlagRegister) (v : Bool), (r.with_receive_fifo_full v).clear_to_send = r.clear_to_send) ∧
    (∀ (r : FlagRegister) (v : Bool), (r.with_transmit_fifo_full v).clear_to_send = r.clear_to_send) ∧
    (∀ (r : FlagRegister) (v : Bool), (r.with_receive_fifo_empty v).clear_to_send = r.clear_to_send) ∧
    (∀ (r : FlagRegister) (v : Bool), (r.with_uart_busy v).clear_to_send = r.clear_to_send) ∧
    (∀ (r : FlagRegister) (v : Bool), (r.with_data_carrier_detect v).clear_to_send = r.clear_to_send) ∧
    (∀ (r : FlagRegister) (v : Bool), (r.with_data_set_ready v).clear_to_send = r.clear_to_send) ∧
    (∀ (r : LineControlRegister) (v : WordLength), (r.with_word_length v).stick_parity = r.stick_parity) ∧
    (∀ (r : LineControlRegister) (v : Bool), (r.with_enable_fifos v).stick_parity = r.stick_parity) ∧
    (∀ (r : LineControlRegister) (v : Bool), (r.with_two_stop_bits_select v).stick_parity = r.stick_parity) ∧
    (∀ (r : LineControlRegister) (v : Bool), (r.with_even_parity_select v).stick_parity = r.stick_parity) ∧
    (∀ (r : LineControlRegister) (v : Bool), (r.with_parity_enable v).stick_parity = r.stick_parity) ∧
    (∀ (r : LineControlRegister) (v : Bool), (r.with_send_break v).stick_parity = r.stick_parity) ∧
    (∀ (r : LineControlRegister) (v : Bool), (r.with_stick_parity v).word_length = r.word_length) ∧
    (∀ (r : LineControlRegister) (v : Bool), (r.with_enable_fifos v).word_length = r.word_length) ∧
    (∀ (r : LineControlRegister) (v : Bool), (r.with_two_stop_bits_select v).word_length = r.word_length) ∧
    (∀ (r : LineControlRegister) (v : Bool), (r.with_even_parity_select v).word_length = r.word_length) ∧
    (∀ (r : LineControlRegister) (v : Bool), (r.with_parity_enable v).word_length = r.word_length) ∧
    (∀ (r : LineControlRegister) (v : Bool), (r.with_send_break v).word_length = r.word_length) ∧
    (∀ (r : LineControlRegister) (v : Bool), (r.with_stick_parity v).enable_fifos = r.enable_fifos) ∧
    (∀ (r : LineControlRegister) (v : WordLength), (r.with_word_length v).enable_fifos = r.enable_fifos) ∧
    (∀ (r : LineControlRegister) (v : Bool), (r.with_two_stop_bits_select v).enable_fifos = r.enable_fifos) ∧
    (∀ (r : LineControlRegister) (v : Bool), (r.with_even_parity_select v).enable_fifos = r.enable_fifos) ∧
    (∀ (r : LineControlRegister) (v : Bool), (r.with_parity_enable v).enable_fifos = r.enable_fifos) ∧
    (∀ (r : LineControlRegister) (v : Bool), (r.with_send_break v).enable_fifos = r.enable_fifos) ∧
    (∀ (r : LineControlRegister) (v : Bool), (r.with_stick_parity v).two_stop_bits_select = r.two_stop_bits_select) ∧
    (∀ (r : LineControlRegister) (v : WordLength), (r.with_word_length v).two_stop_bits_select = r.two_stop_bits_select) ∧
    (∀ (r : LineControlRegister) (v : Bool), (r.with_enable_fifos v).two_stop_bits_select = r.two_stop_bits_select) ∧
    (∀ (r : LineControlRegister) (v : Bool), (r.with_even_parity_select v).two_stop_bits_select = r.two_stop_bits_select) ∧
    (∀ (r : LineControlRegister) (v : Bool), (r.with_parity_enable v).two_stop_bits_select = r.two_stop_bits_select) ∧
    (∀ (r : LineControlRegister) (v : Bool), (r.with_send_break v).two_stop_bits_select = r.two_stop_bits_select) ∧
    (∀ (r : LineControlRegister) (v : Bool), (r.with_stick_parity v).even_parity_select = r.even_parity_select) ∧
    (∀ (r : LineControlRegister) (v : WordLength), (r.with_word_length v).even_parity_select = r.even_parity_select) ∧
    (∀ (r : LineControlRegister) (v : Bool), (r.with_enable_fifos v).even_parity_select = r.even_parity_select) ∧
    (∀ (r : LineControlRegister) (v : Bool), (r.with_two_stop_bits_select v).even_parity_select = r.even_parity_select) ∧
    (∀ (r : LineControlRegister) (v : Bool), (r.with_parity_enable v).even_parity_select = r.even_parity_select) ∧
    (∀ (r : LineControlRegister) (v : Bool), (r.with_send_break v).even_parity_select = r.even_parity_select) ∧
    (∀ (r : LineControlRegister) (v : Bool), (r.with_stick_parity v).parity_enable = r.parity_enable) ∧
    (∀ (r : LineControlRegister) (v : WordLength), (r.with_word_length v).parity_enable = r.parity_enable) ∧
    (∀ (r : LineControlRegister) (v : Bool), (r.with_enable_fifos v).parity_enable = r.parity_enable) ∧
    (∀ (r : LineControlRegister) (v : Bool), (r.with_two_stop_bits_select v).parity_enable = r.parity_enable) ∧
    (∀ (r : LineControlRegister) (v : Bool), (r.with_even_parity_select v).parity_enable = r.parity_enable) ∧
    (∀ (r : LineControlRegister) (v : Bool), (r.with_send_break v).parity_enable = r.parity_enable) ∧
    (∀ (r : LineControlRegister) (v : Bool), (r.with_stick_parity v).send_break = r.send_break) ∧
    (∀ (r : LineControlRegister) (v : WordLength), (r.with_word_length v).send_break = r.send_break) ∧
    (∀ (r : LineControlRegister) (v : Bool), (r.with_enable_fifos v).send_break = r.send_break) ∧
    (∀ (r : LineControlRegister) (v : Bool), (r.with_two_stop_bits_select v).send_break = r.send_break) ∧
    (∀ (r : LineControlRegister) (v : Bool), (r.with_even_parity_select v).send_break = r.send_break) ∧
    (∀ (r : LineControlRegister) (v : Bool), (r.with_parity_enable v).send_break = r.send_break) ∧
    (∀ (r : ControlRegister) (v : Bool), (r.with_RTS_hardware_flow_control_enable v).CTS_hardware_flow_control_enable = r.CTS_hardware_flow_control_enable) ∧
    (∀ (r : ControlRegister) (v : Bool), (r.with_out2 v).CTS_hardware_flow_control_enable = r.CTS_hardware_flow_control_enable) ∧
    (∀ (r : ControlRegister) (v : Bool), (r.with_out1 v).CTS_hardware_flow_control_enable = r.CTS_hardware_flow_control_enable) ∧
    (∀ (r : ControlRegister) (v : Bool), (r.with_request_to_send v).CTS_hardware_flow_control_enable = r.CTS_hardware_flow_control_enable) ∧
    (∀ (r : ControlRegister) (v : Bool), (r.with_data_transmit_ready v).CTS_hardware_flow_control_enable = r.CTS_hardware_flow_control_enable) ∧
    (∀ (r : ControlRegister) (v : Bool), (r.with_receive_enable v).CTS_hardware_flow_control_enable = r.CTS_hardware_flow_control_enable) ∧
    (∀ (r : ControlRegister) (v : Bool), (r.with_transmit_enable v).CTS_hardware_flow_control_enable = r.CTS_hardware_flow_control_enable) ∧
    (∀ (r : ControlRegister) (v : Bool), (r.with_loopback_enable v).CTS_hardware_flow_control_enable = r.CTS_hardware_flow_control_enable) ∧
    (∀ (r : ControlRegister) (v : Bool), (r.with_SIR_enable v).CTS_hardware_flow_control_enable = r.CTS_hardware_flow_control_enable) ∧
    (∀ (r : ControlRegister) (v : Bool), (r.with_UART_enable v).CTS_hardware_flow_control_enable = r.CTS_hardware_flow_control_enable) ∧
    (∀ (r : ControlRegister) (v : Bool), (r.with_CTS_hardware_flow_control_enable v).RTS_hardware_flow_control_enable = r.RTS_hardware_flow_control_enable) ∧
    (∀ (r : ControlRegister) (v : Bool), (r.with_out2 v).RTS_hardware_flow_control_enable = r.RTS_hardware_flow_control_enable) ∧
    (∀ (r : ControlRegister) (v : Bool), (r.with_out1 v).RTS_hardware_flow_control_enable = r.RTS_hardware_flow_control_enable) ∧
    (∀ (r : ControlRegister) (v : Bool), (r.with_request_to_send v).RTS_hardware_flow_control_enable = r.RTS_hardware_flow_control_enable) ∧
    (∀ (r : ControlRegister) (v : Bool), (r.with_data_transmit_ready v).RTS_hardware_flow_control_enable = r.RTS_hardware_flow_control_enable) ∧
    (∀ (r : ControlRegister) (v : Bool), (r.with_receive_enable v).RTS_hardware_flow_control_enable = r.RTS_hardware_flow_control_enable) ∧
    (∀ (r : ControlRegister) (v : Bool), (r.with_transmit_enable v).RTS_hardware_flow_control_enable = r.RTS_hardware_flow_control_enable) ∧
    (∀ (r : ControlRegister) (v : Bool), (r.with_loopback_enable v).RTS_hardware_flow_control_enable = r.RTS_hardware_flow_control_enable) ∧
    (∀ (r : ControlRegister) (v : Bool), (r.with_SIR_enable v).RTS_hardware_flow_control_enable = r.RTS_hardware_flow_control_enable) ∧
    (∀ (r : ControlRegister) (v : Bool), (r.with_UART_enable v).RTS_hardware_flow_control_enable = r.RTS_hardware_flow_control_enable) ∧
    (∀ (r : ControlRegister) (v : Bool), (r.with_CTS_hardware_flow_control_enable v).out2 = r.out2) ∧
    (∀ (r : ControlRegister) (v : Bool), (r.with_RTS_hardware_flow_control_enable v).out2 = r.out2) ∧
    (∀ (r : ControlRegister) (v : Bool), (r.with_out1 v).out2 = r.out2) ∧
    (∀ (r : ControlRegister) (v : Bool), (r.with_request_to_send v).out2 = r.out2) ∧
    (∀ (r : ControlRegister) (v : Bool), (r.with_data_transmit_ready v).out2 = r.out2) ∧
    (∀ (r : ControlRegister) (v : Bool), (r.with_receive_enable v).out2 = r.out2) ∧
    (∀ (r : ControlRegister) (v : Bool), (r.with_transmit_enable v).out2 = r.out2) ∧
    (∀ (r : ControlRegister) (v : Bool), (r.with_loopback_enable v).out2 = r.out2) ∧
    (∀ (r : ControlRegister) (v : Bool), (r.with_SIR_enable v).out2 = r.out2) ∧
    (∀ (r : ControlRegister) (v : Bool), (r.with_UART_enable v).out2 = r.out2) ∧
    (∀ (r : ControlRegister) (v : Bool), (r.with_CTS_hardware_flow_control_enable v).out1 = r.out1) ∧
    (∀ (r : ControlRegister) (v : Bool), (r.with_RTS_hardware_flow_control_enable v).out1 = r.out1) ∧
    (∀ (r : ControlRegister) (v : Bool), (r.with_out2 v).out1 = r.out1) ∧
    (∀ (r : ControlRegister) (v : Bool), (r.with_request_to_send v).out1 = r.out1) ∧
    (∀ (r : ControlRegister) (v : Bool), (r.with_data_transmit_ready v).out1 = r.out1) ∧
    (∀ (r : ControlRegister) (v : Bool), (r.with_receive_enable v).out1 = r.out1) ∧
    (∀ (r : ControlRegister) (v : Bool), (r.with_transmit_enable v).out1 = r.out1) ∧
    (∀ (r : ControlRegister) (v : Bool), (r.with_loopback_enable v).out1 = r.out1) ∧
    (∀ (r : ControlRegister) (v : Bool), (r.with_SIR_enable v).out1 = r.out1) ∧
    (∀ (r : ControlRegister) (v : Bool), (r.with_UART_enable v).out1 = r.out1) ∧
    (∀ (r : ControlRegister) (v : Bool), (r.with_CTS_hardware_flow_control_enable v).request_to_send = r.request_to_send) ∧
    (∀ (r : ControlRegister) (v : Bool), (r.with_RTS_hardware_flow_control_enable v).request_to_send = r.request_to_send) ∧
    (∀ (r : ControlRegister) (v : Bool), (r.with_out2 v).request_to_send = r.request_to_send) ∧
    (∀ (r : ControlRegister) (v : Bool), (r.with_out1 v).request_to_send = r.request_to_send) ∧
    (∀ (r : ControlRegister) (v : Bool), (r.with_data_transmit_ready v).request_to_send = r.request_to_send) ∧
    (∀ (r : ControlRegister) (v : Bool), (r.with_receive_enable v).request_to_send = r.request_to_send) ∧
    (∀ (r : ControlRegister) (v : Bool), (r.with_transmit_enable v).request_to_send = r.request_to_send) ∧
    (∀ (r : ControlRegister) (v : Bool), (r.with_loopback_enable v).request_to_send = r.request_to_send) ∧
    (∀ (r : ControlRegister) (v : Bool), (r.with_SIR_enable v).request_to_send = r.request_to_send) ∧
    (∀ (r : ControlRegister) (v : Bool), (r.with_UART_enable v).request_to_send = r.request_to_send) ∧
    (∀ (r : ControlRegister) (v : Bool), (r.with_CTS_hardware_flow_control_enable v).data_transmit_ready = r.data_transmit_ready) ∧
    (∀ (r : ControlRegister) (v : Bool), (r.with_RTS_hardware_flow_control_enable v).data_transmit_ready = r.data_transmit_ready) ∧
    (∀ (r : ControlRegister) (v : Bool), (r.with_out2 v).data_transmit_ready = r.data_transmit_ready) ∧
    (∀ (r : ControlRegister) (v : Bool), (r.with_out1 v).data_transmit_ready = r.data_transmit_ready) ∧
    (∀ (r : ControlRegister) (v : Bool), (r.with_request_to_send v).data_transmit_ready = r.data_transmit_ready) ∧
    (∀ (r : ControlRegister) (v : Bool), (r.with_receive_enable v).data_transmit_ready = r.data_transmit_ready) ∧
    (∀ (r : ControlRegister) (v : Bool), (r.with_transmit_enable v).data_transmit_ready = r.data_transmit_ready) ∧
    (∀ (r : ControlRegister) (v : Bool), (r.with_loopback_enable v).data_transmit_ready = r.data_transmit_ready) ∧
    (∀ (r : ControlRegister) (v : Bool), (r.with_SIR_enable v).data_transmit_ready = r.data_transmit_ready) ∧
    (∀ (r : ControlRegister) (v : Bool), (r.with_UART_enable v).data_transmit_ready = r.data_transmit_ready) ∧
    (∀ (r : ControlRegister) (v : Bool), (r.with_CTS_hardware_flow_control_enable v).receive_enable = r.receive_enable) ∧
    (∀ (r : ControlRegister) (v : Bool), (r.with_RTS_hardware_flow_control_enable v).receive_enable = r.receive_enable) ∧
    (∀ (r : ControlRegister) (v : Bool), (r.with_out2 v).receive_enable = r.receive_enable) ∧
    (∀ (r : ControlRegister) (v : Bool), (r.with_out1 v).receive_enable = r.receive_enable) ∧
    (∀ (r : ControlRegister) (v : Bool), (r.with_request_to_send v).receive_enable = r.receive_enable) ∧
    (∀ (r : ControlRegister) (v : Bool), (r.with_data_transmit_ready v).receive_enable = r.receive_enable) ∧
    (∀ (r : ControlRegister) (v : Bool), (r.with_transmit_enable v).receive_enable = r.receive_enable) ∧
    (∀ (r : ControlRegister) (v : Bool), (r.with_loopback_enable v).receive_enable = r.receive_enable) ∧
    (∀ (r : ControlRegister) (v : Bool), (r.with_SIR_enable v).receive_enable = r.receive_enable) ∧
    (∀ (r : ControlRegister) (v : Bool), (r.with_UART_enable v).receive_enable = r.receive_enable) ∧
    (∀ (r : ControlRegister) (v : Bool), (r.with_CTS_hardware_flow_control_enable v).transmit_enable = r.transmit_enable) ∧
    (∀ (r : ControlRegister) (v : Bool), (r.with_RTS_hardware_flow_control_enable v).transmit_enable = r.transmit_enable) ∧
    (∀ (r : ControlRegister) (v : Bool), (r.with_out2 v).transmit_enable = r.transmit_enable) ∧
    (∀ (r : ControlRegister) (v : Bool), (r.with_out1 v).transmit_enable = r.transmit_enable) ∧
    (∀ (r : ControlRegister) (v : Bool), (r.with_request_to_send v).transmit_enable = r.transmit_enable) ∧
    (∀ (r : ControlRegister) (v : Bool), (r.with_data_transmit_ready v).transmit_enable = r.transmit_enable) ∧
    (∀ (r : ControlRegister) (v : Bool), (r.with_receive_enable v).transmit_enable = r.transmit_enable) ∧
    (∀ (r : ControlRegister) (v : Bool), (r.with_loopback_enable v).transmit_enable = r.transmit_enable) ∧
    (∀ (r : ControlRegister) (v : Bool), (r.with_SIR_enable v).transmit_enable = r.transmit_enable) ∧
    (∀ (r : ControlRegister) (v : Bool), (r.with_UART_enable v).transmit_enable = r.transmit_enable) ∧
    (∀ (r : ControlRegister) (v : Bool), (r.with_CTS_hardware_flow_control_enable v).loopback_enable = r.loopback_enable) ∧
    (∀ (r : ControlRegister) (v : Bool), (r.with_RTS_hardware_flow_control_enable v).loopback_enable = r.loopback_enable) ∧
    (∀ (r : ControlRegister) (v : Bool), (r.with_out2 v).loopback_enable = r.loopback_enable) ∧
    (∀ (r : ControlRegister) (v : Bool), (r.with_out1 v).loopback_enable = r.loopback_enable) ∧
    (∀ (r : ControlRegister) (v : Bool), (r.with_request_to_send v).loopback_enable = r.loopback_enable) ∧
    (∀ (r : ControlRegister) (v : Bool), (r.with_data_transmit_ready v).loopback_enable = r.loopback_enable) ∧
    (∀ (r : ControlRegister) (v : Bool), (r.with_receive_enable v).loopback_enable = r.loopback_enable) ∧
    (∀ (r : ControlRegister) (v : Bool), (r.with_transmit_enable v).loopback_enable = r.loopback_enable) ∧
    (∀ (r : ControlRegister) (v : Bool), (r.with_SIR_enable v).loopback_enable = r.loopback_enable) ∧
    (∀ (r : ControlRegister) (v : Bool), (r.with_UART_enable v).loopback_enable = r.loopback_enable) ∧
    (∀ (r : ControlRegister) (v : Bool), (r.with_CTS_hardware_flow_control_enable v).SIR_enable = r.SIR_enable) ∧
    (∀ (r : ControlRegister) (v : Bool), (r.with_RTS_hardware_flow_control_enable v).SIR_enable = r.SIR_enable) ∧
    (∀ (r : ControlRegister) (v : Bool), (r.with_out2 v).SIR_enable = r.SIR_enable) ∧
    (∀ (r : ControlRegister) (v : Bool), (r.with_out1 v).SIR_enable = r.SIR_enable) ∧
    (∀ (r : ControlRegister) (v : Bool), (r.with_request_to_send v).SIR_enable = r.SIR_enable) ∧
    (∀ (r : ControlRegister) (v : Bool), (r.with_data_transmit_ready v).SIR_enable = r.SIR_enable) ∧
    (∀ (r : ControlRegister) (v : Bool), (r.with_receive_enable v).SIR_enable = r.SIR_enable) ∧
    (∀ (r : ControlRegister) (v : Bool), (r.with_transmit_enable v).SIR_enable = r.SIR_enable) ∧
    (∀ (r : ControlRegister) (v : Bool), (r.with_loopback_enable v).SIR_enable = r.SIR_enable) ∧
    (∀ (r : ControlRegister) (v : Bool), (r.with_UART_enable v).SIR_enable = r.SIR_enable) ∧
    (∀ (r : ControlRegister) (v : Bool), (r.with_CTS_hardware_flow_control_enable v).UART_enable = r.UART_enable) ∧
    (∀ (r : ControlRegister) (v : Bool), (r.with_RTS_hardware_flow_control_enable v).UART_enable = r.UART_enable) ∧
    (∀ (r : ControlRegister) (v : Bool), (r.with_out2 v).UART_enable = r.UART_enable) ∧
    (∀ (r : ControlRegister) (v : Bool), (r.with_out1 v).UART_enable = r.UART_enable) ∧
    (∀ (r : ControlRegister) (v : Bool), (r.with_request_to_send v).UART_enable = r.UART_enable) ∧
    (∀ (r : ControlRegister) (v : Bool), (r.with_data_transmit_ready v).UART_enable = r.UART_enable) ∧
    (∀ (r : ControlRegister) (v : Bool), (r.with_receive_enable v).UART_enable = r.UART_enable) ∧
    (∀ (r : ControlRegister) (v : Bool), (r.with_transmit_enable v).UART_enable = r.UART_enable) ∧
    (∀ (r : ControlRegister) (v : Bool), (r.with_loopback_enable v).UART_enable = r.UART_enable) ∧
    (∀ (r : ControlRegister) (v : Bool), (r.with_SIR_enable v).UART_enable = r.UART_enable) ∧
    (∀ (r : InterruptFIFOLevelSelectRegister) (v : FIFOLevelSelect), (r.with_transmit_interrupt_FIFO_level_select v).receive_interrupt_FIFO_level_select = r.receive_interrupt_FIFO_level_select) ∧
    (∀ (r : InterruptFIFOLevelSelectRegister) (v : FIFOLevelSelect), (r.with_receive_interrupt_FIFO_level_select v).transmit_interrupt_FIFO_level_select = r.transmit_interrupt_FIFO_level_select) ∧
    (∀ (r : InterruptMaskSetClearRegister) (v : Bool), (r.with_break_error_interrupt_mask v).overrun_error_interrupt_mask = r.overrun_error_interrupt_mask) ∧
    (∀ (r : InterruptMaskSetClearRegister) (v : Bool), (r.with_parity_error_interrupt_mask v).overrun_error_interrupt_mask = r.overrun_error_interrupt_mask) ∧
    (∀ (r : InterruptMaskSetClearRegister) (v : Bool), (r.with_framing_error_interrupt_mask v).overrun_error_interrupt_mask = r.overrun_error_interrupt_mask) ∧
    (∀ (r : InterruptMaskSetClearRegister) (v : Bool), (r.with_receive_timeout_interrupt_mask v).overrun_error_interrupt_mask = r.overrun_error_interrupt_mask) ∧
    (∀ (r : InterruptMaskSetClearRegister) (v : Bool), (r.with_transmit_interrupt_mask v).overrun_error_interrupt_mask = r.overrun_error_interrupt_mask) ∧
    (∀ (r : InterruptMaskSetClearRegister) (v : Bool), (r.with_receive_interrupt_mask v).overrun_error_interrupt_mask = r.overrun_error_interrupt_mask) ∧
    (∀ (r : InterruptMaskSetClearRegister) (v : Bool), (r.with_nUARTDSR_modem_interrupt_mask v).overrun_error_interrupt_mask = r.overrun_error_interrupt_mask) ∧
    (∀ (r : InterruptMaskSetClearRegister) (v : Bool), (r.with_nUARTDCD_modem_interrupt_mask v).overrun_error_interrupt_mask = r.overrun_error_interrupt_mask) ∧
    (∀ (r : InterruptMaskSetClearRegister) (v : Bool), (r.with_nUARTCTS_modem_interrupt_mask v).overrun_error_interrupt_mask = r.overrun_error_interrupt_mask) ∧
    (∀ (r : InterruptMaskSetClearRegister) (v : Bool), (r.with_nUARTRI_modem_interrupt_mask v).overrun_error_interrupt_mask = r.overrun_error_interrupt_mask) ∧
    (∀ (r : InterruptMaskSetClearRegister) (v : Bool), (r.with_overrun_error_interrupt_mask v).break_error_interrupt_mask = r.break_error_interrupt_mask) ∧
    (∀ (r : InterruptMaskSetClearRegister) (v : Bool), (r.with_parity_error_interrupt_mask v).break_error_interrupt_mask = r.break_error_interrupt_mask) ∧
    (∀ (r : InterruptMaskSetClearRegister) (v : Bool), (r.with_framing_error_interrupt_mask v).break_error_interrupt_mask = r.break_error_interrupt_mask) ∧
    (∀ (r : InterruptMaskSetClearRegister) (v : Bool), (r.with_receive_timeout_interrupt_mask v).break_error_interrupt_mask = r.break_error_interrupt_mask) ∧
    (∀ (r : InterruptMaskSetClearRegister) (v : Bool), (r.with_transmit_interrupt_mask v).break_error_interrupt_mask = r.break_error_interrupt_mask) ∧
    (∀ (r : InterruptMaskSetClearRegister) (v : Bool), (r.with_receive_interrupt_mask v).break_error_interrupt_mask = r.break_error_interrupt_mask) ∧
    (∀ (r : InterruptMaskSetClearRegister) (v : Bool), (r.with_nUARTDSR_modem_interrupt_mask v).break_error_interrupt_mask = r.break_error_interrupt_mask) ∧
    (∀ (r : InterruptMaskSetClearRegister) (v : Bool), (r.with_nUARTDCD_modem_interrupt_mask v).break_error_interrupt_mask = r.break_error_interrupt_mask) ∧
    (∀ (r : InterruptMaskSetClearRegister) (v : Bool), (r.with_nUARTCTS_modem_interrupt_mask v).break_error_interrupt_mask = r.break_error_interrupt_mask) ∧
    (∀ (r : InterruptMaskSetClearRegister) (v : Bool), (r.with_nUARTRI_modem_interrupt_mask v).break_error_interrupt_mask = r.break_error_interrupt_mask) ∧
    (∀ (r : InterruptMaskSetClearRegister) (v : Bool), (r.with_overrun_error_interrupt_mask v).parity_error_interrupt_mask = r.parity_error_interrupt_mask) ∧
    (∀ (r : InterruptMaskSetClearRegister) (v : Bool), (r.with_break_error_interrupt_mask v).parity_error_interrupt_mask = r.parity_error_interrupt_mask) ∧
    (∀ (r : InterruptMaskSetClearRegister) (v : Bool), (r.with_framing_error_interrupt_mask v).parity_error_interrupt_mask = r.parity_error_interrupt_mask) ∧
    (∀ (r : InterruptMaskSetClearRegister) (v : Bool), (r.with_receive_timeout_interrupt_mask v).parity_error_interrupt_mask = r.parity_error_interrupt_mask) ∧
    (∀ (r : InterruptMaskSetClearRegister) (v : Bool), (r.with_transmit_interrupt_mask v).parity_error_interrupt_mask = r.parity_error_interrupt_mask) ∧
    (∀ (r : InterruptMaskSetClearRegister) (v : Bool), (r.with_receive_interrupt_mask v).parity_error_interrupt_mask = r.parity_error_interrupt_mask) ∧
    (∀ (r : InterruptMaskSetClearRegister) (v : Bool), (r.with_nUARTDSR_modem_interrupt_mask v).parity_error_interrupt_mask = r.parity_error_interrupt_mask) ∧
    (∀ (r : InterruptMaskSetClearRegister) (v : Bool), (r.with_nUARTDCD_modem_interrupt_mask v).parity_error_interrupt_mask = r.parity_error_interrupt_mask) ∧
    (∀ (r : InterruptMaskSetClearRegister) (v : Bool), (r.with_nUARTCTS_modem_interrupt_mask v).parity_error_interrupt_mask = r.parity_error_interrupt_mask) ∧
    (∀ (r : InterruptMaskSetClearRegister) (v : Bool), (r.with_nUARTRI_modem_interrupt_mask v).parity_error_interrupt_mask = r.parity_error_interrupt_mask) ∧
    (∀ (r : InterruptMaskSetClearRegister) (v : Bool), (r.with_overrun_error_interrupt_mask v).framing_error_interrupt_mask = r.framing_error_interrupt_mask) ∧
    (∀ (r : InterruptMaskSetClearRegister) (v : Bool), (r.with_break_error_interrupt_mask v).framing_error_interrupt_mask = r.framing_error_interrupt_mask) ∧
    (∀ (r : InterruptMaskSetClearRegister) (v : Bool), (r.with_parity_error_interrupt_mask v).framing_error_interrupt_mask = r.framing_error_interrupt_mask) ∧
    (∀ (r : InterruptMaskSetClearRegister) (v : Bool), (r.with_receive_timeout_interrupt_mask v).framing_error_interrupt_mask = r.framing_error_interrupt_mask) ∧
    (∀ (r : InterruptMaskSetClearRegister) (v : Bool), (r.with_transmit_interrupt_mask v).framing_error_interrupt_mask = r.framing_error_interrupt_mask) ∧
    (∀ (r : InterruptMaskSetClearRegister) (v : Bool), (r.with_receive_interrupt_mask v).framing_error_interrupt_mask = r.framing_error_interrupt_mask) ∧
    (∀ (r : InterruptMaskSetClearRegister) (v : Bool), (r.with_nUARTDSR_modem_interrupt_mask v).framing_error_interrupt_mask = r.framing_error_interrupt_mask) ∧
    (∀ (r : InterruptMaskSetClearRegister) (v : Bool), (r.with_nUARTDCD_modem_interrupt_mask v).framing_error_interrupt_mask = r.framing_error_interrupt_mask) ∧
    (∀ (r : InterruptMaskSetClearRegister) (v : Bool), (r.with_nUARTCTS_modem_interrupt_mask v).framing_error_interrupt_mask = r.framing_error_interrupt_mask) ∧
    (∀ (r : InterruptMaskSetClearRegister) (v : Bool), (r.with_nUARTRI_modem_interrupt_mask v).framing_error_interrupt_mask = r.framing_error_interrupt_mask) ∧
    (∀ (r : InterruptMaskSetClearRegister) (v : Bool), (r.with_overrun_error_interrupt_mask v).receive_timeout_interrupt_mask = r.receive_timeout_interrupt_mask) ∧
    (∀ (r : InterruptMaskSetClearRegister) (v : Bool), (r.with_break_error_interrupt_mask v).receive_timeout_interrupt_mask = r.receive_timeout_interrupt_mask) ∧
    (∀ (r : InterruptMaskSetClearRegister) (v : Bool), (r.with_parity_error_interrupt_mask v).receive_timeout_interrupt_mask = r.receive_timeout_interrupt_mask) ∧
    (∀ (r : InterruptMaskSetClearRegister) (v : Bool), (r.with_framing_error_interrupt_mask v).receive_timeout_interrupt_mask = r.receive_timeout_interrupt_mask) ∧
    (∀ (r : InterruptMaskSetClearRegister) (v : Bool), (r.with_transmit_interrupt_mask v).receive_timeout_interrupt_mask = r.receive_timeout_interrupt_mask) ∧
    (∀ (r : InterruptMaskSetClearRegister) (v : Bool), (r.with_receive_interrupt_mask v).receive_timeout_interrupt_mask = r.receive_timeout_interrupt_mask) ∧
    (∀ (r : InterruptMaskSetClearRegister) (v : Bool), (r.with_nUARTDSR_modem_interrupt_mask v).receive_timeout_interrupt_mask = r.receive_timeout_interrupt_mask) ∧
    (∀ (r : InterruptMaskSetClearRegister) (v : Bool), (r.with_nUARTDCD_modem_interrupt_mask v).receive_timeout_interrupt_mask = r.receive_timeout_interrupt_mask) ∧
    (∀ (r : InterruptMaskSetClearRegister) (v : Bool), (r.with_nUARTCTS_modem_interrupt_mask v).receive_timeout_interrupt_mask = r.receive_timeout_interrupt_mask) ∧
    (∀ (r : InterruptMaskSetClearRegister) (v : Bool), (r.with_nUARTRI_modem_interrupt_mask v).receive_timeout_interrupt_mask = r.receive_timeout_interrupt_mask) ∧
    (∀ (r : InterruptMaskSetClearRegister) (v : Bool), (r.with_overrun_error_interrupt_mask v).transmit_interrupt_mask = r.transmit_interrupt_mask) ∧
    (∀ (r : InterruptMaskSetClearRegister) (v : Bool), (r.with_break_error_interrupt_mask v).transmit_interrupt_mask = r.transmit_interrupt_mask) ∧
    (∀ (r : InterruptMaskSetClearRegister) (v : Bool), (r.with_parity_error_interrupt_mask v).transmit_interrupt_mask = r.transmit_interrupt_mask) ∧
    (∀ (r : InterruptMaskSetClearRegister) (v : Bool), (r.with_framing_error_interrupt_mask v).transmit_interrupt_mask = r.transmit_interrupt_mask) ∧
    (∀ (r : InterruptMaskSetClearRegister) (v : Bool), (r.with_receive_timeout_interrupt_mask v).transmit_interrupt_mask = r.transmit_interrupt_mask) ∧
    (∀ (r : InterruptMaskSetClearRegister) (v : Bool), (r.with_receive_interrupt_mask v).transmit_interrupt_mask = r.transmit_interrupt_mask) ∧
    (∀ (r : InterruptMaskSetClearRegister) (v : Bool), (r.with_nUARTDSR_modem_interrupt_mask v).transmit_interrupt_mask = r.transmit_interrupt_mask) ∧
    (∀ (r : InterruptMaskSetClearRegister) (v : Bool), (r.with_nUARTDCD_modem_interrupt_mask v).transmit_interrupt_mask = r.transmit_interrupt_mask) ∧
    (∀ (r : InterruptMaskSetClearRegister) (v : Bool), (r.with_nUARTCTS_modem_interrupt_mask v).transmit_interrupt_mask = r.transmit_interrupt_mask) ∧
    (∀ (r : InterruptMaskSetClearRegister) (v : Bool), (r.with_nUARTRI_modem_interrupt_mask v).transmit_interrupt_mask = r.transmit_interrupt_mask) ∧
    (∀ (r : InterruptMaskSetClearRegister) (v : Bool), (r.with_overrun_error_interrupt_mask v).receive_interrupt_mask = r.receive_interrupt_mask) ∧
    (∀ (r : InterruptMaskSetClearRegister) (v : Bool), (r.with_break_error_interrupt_mask v).receive_interrupt_mask = r.receive_interrupt_mask) ∧
    (∀ (r : InterruptMaskSetClearRegister) (v : Bool), (r.with_parity_error_interrupt_mask v).receive_interrupt_mask = r.receive_interrupt_mask) ∧
    (∀ (r : InterruptMaskSetClearRegister) (v : Bool), (r.with_framing_error_interrupt_mask v).receive_interrupt_mask = r.receive_interrupt_mask) ∧
    (∀ (r : InterruptMaskSetClearRegister) (v : Bool), (r.with_receive_timeout_interrupt_mask v).receive_interrupt_mask = r.receive_interrupt_mask) ∧
    (∀ (r : InterruptMaskSetClearRegister) (v : Bool), (r.with_transmit_interrupt_mask v).receive_interrupt_mask = r.receive_interrupt_mask) ∧
    (∀ (r : InterruptMaskSetClearRegister) (v : Bool), (r.with_nUARTDSR_modem_interrupt_mask v).receive_interrupt_mask = r.receive_interrupt_mask) ∧
    (∀ (r : InterruptMaskSetClearRegister) (v : Bool), (r.with_nUARTDCD_modem_interrupt_mask v).receive_interrupt_mask = r.receive_interrupt_mask) ∧
    (∀ (r : InterruptMaskSetClearRegister) (v : Bool), (r.with_nUARTCTS_modem_interrupt_mask v).receive_interrupt_mask = r.receive_interrupt_mask) ∧
    (∀ (r : InterruptMaskSetClearRegister) (v : Bool), (r.with_nUARTRI_modem_interrupt_mask v).receive_interrupt_mask = r.receive_interrupt_mask) ∧
    (∀ (r : InterruptMaskSetClearRegister) (v : Bool), (r.with_overrun_error_interrupt_mask v).nUARTDSR_modem_interrupt_mask = r.nUARTDSR_modem_interrupt_mask) ∧
    (∀ (r : InterruptMaskSetClearRegister) (v : Bool), (r.with_break_error_interrupt_mask v).nUARTDSR_modem_interrupt_mask = r.nUARTDSR_modem_interrupt_mask) ∧
    (∀ (r : InterruptMaskSetClearRegister) (v : Bool), (r.with_parity_error_interrupt_mask v).nUARTDSR_modem_interrupt_mask = r.nUARTDSR_modem_interrupt_mask) ∧
    (∀ (r : InterruptMaskSetClearRegister) (v : Bool), (r.with_framing_error_interrupt_mask v).nUARTDSR_modem_interrupt_mask = r.nUARTDSR_modem_interrupt_mask) ∧
    (∀ (r : InterruptMaskSetClearRegister) (v : Bool), (r.with_receive_timeout_interrupt_mask v).nUARTDSR_modem_interrupt_mask = r.nUARTDSR_modem_interrupt_mask) ∧
    (∀ (r : InterruptMaskSetClearRegister) (v : Bool), (r.with_transmit_interrupt_mask v).nUARTDSR_modem_interrupt_mask = r.nUARTDSR_modem_interrupt_mask) ∧
    (∀ (r : InterruptMaskSetClearRegister) (v : Bool), (r.with_receive_interrupt_mask v).nUARTDSR_modem_interrupt_mask = r.nUARTDSR_modem_interrupt_mask) ∧
    (∀ (r : InterruptMaskSetClearRegister) (v : Bool), (r.with_nUARTDCD_modem_interrupt_mask v).nUARTDSR_modem_interrupt_mask = r.nUARTDSR_modem_interrupt_mask) ∧
    (∀ (r : InterruptMaskSetClearRegister) (v : Bool), (r.with_nUARTCTS_modem_interrupt_mask v).nUARTDSR_modem_interrupt_mask = r.nUARTDSR_modem_interrupt_mask) ∧
    (∀ (r : InterruptMaskSetClearRegister) (v : Bool), (r.with_nUARTRI_modem_interrupt_mask v).nUARTDSR_modem_interrupt_mask = r.nUARTDSR_modem_interrupt_mask) ∧
    (∀ (r : InterruptMaskSetClearRegister) (v : Bool), (r.with_overrun_error_interrupt_mask v).nUARTDCD_modem_interrupt_mask = r.nUARTDCD_modem_interrupt_mask) ∧
    (∀ (r : InterruptMaskSetClearRegister) (v : Bool), (r.with_break_error_interrupt_mask v).nUARTDCD_modem_interrupt_mask = r.nUARTDCD_modem_interrupt_mask) ∧
    (∀ (r : InterruptMaskSetClearRegister) (v : Bool), (r.with_parity_error_interrupt_mask v).nUARTDCD_modem_interrupt_mask = r.nUARTDCD_modem_interrupt_mask) ∧
    (∀ (r : InterruptMaskSetClearRegister) (v : Bool), (r.with_framing_error_interrupt_mask v).nUARTDCD_modem_interrupt_mask = r.nUARTDCD_modem_interrupt_mask) ∧
    (∀ (r : InterruptMaskSetClearRegister) (v : Bool), (r.with_receive_timeout_interrupt_mask v).nUARTDCD_modem_interrupt_mask = r.nUARTDCD_modem_interrupt_mask) ∧
    (∀ (r : InterruptMaskSetClearRegister) (v : Bool), (r.with_transmit_interrupt_mask v).nUARTDCD_modem_interrupt_mask = r.nUARTDCD_modem_interrupt_mask) ∧
    (∀ (r : InterruptMaskSetClearRegister) (v : Bool), (r.with_receive_interrupt_mask v).nUARTDCD_modem_interrupt_mask = r.nUARTDCD_modem_interrupt_mask) ∧
    (∀ (r : InterruptMaskSetClearRegister) (v : Bool), (r.with_nUARTDSR_modem_interrupt_mask v).nUARTDCD_modem_interrupt_mask = r.nUARTDCD_modem_interrupt_mask) ∧
    (∀ (r : InterruptMaskSetClearRegister) (v : Bool), (r.with_nUARTCTS_modem_interrupt_mask v).nUARTDCD_modem_interrupt_mask = r.nUARTDCD_modem_interrupt_mask) ∧
    (∀ (r : InterruptMaskSetClearRegister) (v : Bool), (r.with_nUARTRI_modem_interrupt_mask v).nUARTDCD_modem_interrupt_mask = r.nUARTDCD_modem_interrupt_mask) ∧
    (∀ (r : InterruptMaskSetClearRegister) (v : Bool), (r.with_overrun_error_interrupt_mask v).nUARTCTS_modem_interrupt_mask = r.nUARTCTS_modem_interrupt_mask) ∧
    (∀ (r : InterruptMaskSetClearRegister) (v : Bool), (r.with_break_error_interrupt_mask v).nUARTCTS_modem_interrupt_mask = r.nUARTCTS_modem_interrupt_mask) ∧
    (∀ (r : InterruptMaskSetClearRegister) (v : Bool), (r.with_parity_error_interrupt_mask v).nUARTCTS_modem_interrupt_mask = r.nUARTCTS_modem_interrupt_mask) ∧
    (∀ (r : InterruptMaskSetClearRegister) (v : Bool), (r.with_framing_error_interrupt_mask v).nUARTCTS_modem_interrupt_mask = r.nUARTCTS_modem_interrupt_mask) ∧
    (∀ (r : InterruptMaskSetClearRegister) (v : Bool), (r.with_receive_timeout_interrupt_mask v).nUARTCTS_modem_interrupt_mask = r.nUARTCTS_modem_interrupt_mask) ∧
    (∀ (r : InterruptMaskSetClearRegister) (v : Bool), (r.with_transmit_interrupt_mask v).nUARTCTS_modem_interrupt_mask = r.nUARTCTS_modem_interrupt_mask) ∧
    (∀ (r : InterruptMaskSetClearRegister) (v : Bool), (r.with_receive_interrupt_mask v).nUARTCTS_modem_interrupt_mask = r.nUARTCTS_modem_interrupt_mask) ∧
    (∀ (r : InterruptMaskSetClearRegister) (v : Bool), (r.with_nUARTDSR_modem_interrupt_mask v).nUARTCTS_modem_interrupt_mask = r.nUARTCTS_modem_interrupt_mask) ∧
    (∀ (r : InterruptMaskSetClearRegister) (v : Bool), (r.with_nUARTDCD_modem_interrupt_mask v).nUARTCTS_modem_interrupt_mask = r.nUARTCTS_modem_interrupt_mask) ∧
    (∀ (r : InterruptMaskSetClearRegister) (v : Bool), (r.with_nUARTRI_modem_interrupt_mask v).nUARTCTS_modem_interrupt_mask = r.nUARTCTS_modem_interrupt_mask) ∧
    (∀ (r : InterruptMaskSetClearRegister) (v : Bool), (r.with_overrun_error_interrupt_mask v).nUARTRI_modem_interrupt_mask = r.nUARTRI_modem_interrupt_mask) ∧
    (∀ (r : InterruptMaskSetClearRegister) (v : Bool), (r.with_break_error_interrupt_mask v).nUARTRI_modem_interrupt_mask = r.nUARTRI_modem_interrupt_mask) ∧
    (∀ (r : InterruptMaskSetClearRegister) (v : Bool), (r.with_parity_error_interrupt_mask v).nUARTRI_modem_interrupt_mask = r.nUARTRI_modem_interrupt_mask) ∧
    (∀ (r : InterruptMaskSetClearRegister) (v : Bool), (r.with_framing_error_interrupt_mask v).nUARTRI_modem_interrupt_mask = r.nUARTRI_modem_interrupt_mask) ∧
    (∀ (r : InterruptMaskSetClearRegister) (v : Bool), (r.with_receive_timeout_interrupt_mask v).nUARTRI_modem_interrupt_mask = r.nUARTRI_modem_interrupt_mask) ∧
    (∀ (r : InterruptMaskSetClearRegister) (v : Bool), (r.with_transmit_interrupt_mask v).nUARTRI_modem_interrupt_mask = r.nUARTRI_modem_interrupt_mask) ∧
    (∀ (r : InterruptMaskSetClearRegister) (v : Bool), (r.with_receive_interrupt_mask v).nUARTRI_modem_interrupt_mask = r.nUARTRI_modem_interrupt_mask) ∧
    (∀ (r : InterruptMaskSetClearRegister) (v : Bool), (r.with_nUARTDSR_modem_interrupt_mask v).nUARTRI_modem_interrupt_mask = r.nUARTRI_modem_interrupt_mask) ∧
    (∀ (r : InterruptMaskSetClearRegister) (v : Bool), (r.with_nUARTDCD_modem_interrupt_mask v).nUARTRI_modem_interrupt_mask = r.nUARTRI_modem_interrupt_mask) ∧
    (∀ (r : InterruptMaskSetClearRegister) (v : Bool), (r.with_nUARTCTS_modem_interrupt_mask v).nUARTRI_modem_interrupt_mask = r.nUARTRI_modem_interrupt_mask)) ∧
    (∀ (r : DataRegister),
      ((r.with_overrun_error true).with_data 0xFF).overrun_error = true ∧
      ((r.with_overrun_error true).with_data 0xFF).data = 0xFF) :=
  ⟨⟨isol_DR_overrun_error_break_error, isol_DR_overrun_error_parity_error, isol_DR_overrun_error_framing_error, isol_DR_overrun_error_data, isol_DR_break_error_overrun_error, isol_DR_break_error_parity_error, isol_DR_break_error_framing_error, isol_DR_break_error_data, isol_DR_parity_error_overrun_error, isol_DR_parity_error_break_error, isol_DR_parity_error_framing_error, isol_DR_parity_error_data, isol_DR_framing_error_overrun_error, isol_DR_framing_error_break_error, isol_DR_framing_error_parity_error, isol_DR_framing_error_data, isol_DR_data_overrun_error, isol_DR_data_break_error, isol_DR_data_parity_error, isol_DR_data_framing_error, isol_RSR_overrun_error_break_error, isol_RSR_overrun_error_parity_error, isol_RSR_overrun_error_framing_error, isol_RSR_break_error_overrun_error, isol_RSR_break_error_parity_error, isol_RSR_break_error_framing_error, isol_RSR_parity_error_overrun_error, isol_RSR_parity_error_break_error, isol_RSR_parity_error_framing_error, isol_RSR_framing_error_overrun_error, isol_RSR_framing_error_break_error, isol_RSR_framing_error_parity_error, isol_FR_ring_indicator_transmit_fifo_empty, isol_FR_ring_indicator_receive_fifo_full, isol_FR_ring_indicator_transmit_fifo_full, isol_FR_ring_indicator_receive_fifo_empty, isol_FR_ring_indicator_uart_busy, isol_FR_ring_indicator_data_carrier_detect, isol_FR_ring_indicator_data_set_ready, isol_FR_ring_indicator_clear_to_send, isol_FR_transmit_fifo_empty_ring_indicator, isol_FR_transmit_fifo_empty_receive_fifo_full, isol_FR_transmit_fifo_empty_transmit_fifo_full, isol_FR_transmit_fifo_empty_receive_fifo_empty, isol_FR_transmit_fifo_empty_uart_busy, isol_FR_transmit_fifo_empty_data_carrier_detect, isol_FR_transmit_fifo_empty_data_set_ready, isol_FR_transmit_fifo_empty_clear_to_send, isol_FR_receive_fifo_full_ring_indicator, isol_FR_receive_fifo_full_transmit_fifo_empty, isol_FR_receive_fifo_full_transmit_fifo_full, isol_FR_receive_fifo_full_receive_fifo_empty, isol_FR_receive_fifo_full_uart_busy, isol_FR_receive_fifo_full_data_carrier_detect, isol_FR_receive_fifo_full_data_set_ready, isol_FR_receive_fifo_full_clear_to_send, isol_FR_transmit_fifo_full_ring_indicator, isol_FR_transmit_fifo_full_transmit_fifo_empty, isol_FR_transmit_fifo_full_receive_fifo_full, isol_FR_transmit_fifo_full_receive_fifo_empty, isol_FR_transmit_fifo_full_uart_busy, isol_FR_transmit_fifo_full_data_carrier_detect, isol_FR_transmit_fifo_full_data_set_ready, isol_FR_transmit_fifo_full_clear_to_send, isol_FR_receive_fifo_empty_ring_indicator, isol_FR_receive_fifo_empty_transmit_fifo_empty, isol_FR_receive_fifo_empty_receive_fifo_full, isol_FR_receive_fifo_empty_transmit_fifo_full, isol_FR_receive_fifo_empty_uart_busy, isol_FR_receive_fifo_empty_data_carrier_detect, isol_FR_receive_fifo_empty_data_set_ready, isol_FR_receive_fifo_empty_clear_to_send, isol_FR_uart_busy_ring_indicator, isol_FR_uart_busy_transmit_fifo_empty, isol_FR_uart_busy_receive_fifo_full, isol_FR_uart_busy_transmit_fifo_full, isol_FR_uart_busy_receive_fifo_empty, isol_FR_uart_busy_data_carrier_detect, isol_FR_uart_busy_data_set_ready, isol_FR_uart_busy_clear_to_send, isol_FR_data_carrier_detect_ring_indicator, isol_FR_data_carrier_detect_transmit_fifo_empty, isol_FR_data_carrier_detect_receive_fifo_full, isol_FR_data_carrier_detect_transmit_fifo_full, isol_FR_data_carrier_detect_receive_fifo_empty, isol_FR_data_carrier_detect_uart_busy, isol_FR_data_carrier_detect_data_set_ready, isol_FR_data_carrier_detect_clear_to_send, isol_FR_data_set_ready_ring_indicator, isol_FR_data_set_ready_transmit_fifo_empty, isol_FR_data_set_ready_receive_fifo_full, isol_FR_data_set_ready_transmit_fifo_full, isol_FR_data_set_ready_receive_fifo_empty, isol_FR_data_set_ready_uart_busy, isol_FR_data_set_ready_data_carrier_detect, isol_FR_data_set_ready_clear_to_send, isol_FR_clear_to_send_ring_indicator, isol_FR_clear_to_send_transmit_fifo_empty, isol_FR_clear_to_send_receive_fifo_full, isol_FR_clear_to_send_transmit_fifo_full, isol_FR_clear_to_send_receive_fifo_empty, isol_FR_clear_to_send_uart_busy, isol_FR_clear_to_send_data_carrier_detect, isol_FR_clear_to_send_data_set_ready, isol_LCR_stick_parity_word_length, isol_LCR_stick_parity_enable_fifos, isol_LCR_stick_parity_two_stop_bits_select, isol_LCR_stick_parity_even_parity_select, isol_LCR_stick_parity_parity_enable, isol_LCR_stick_parity_send_break, isol_LCR_word_length_stick_parity, isol_LCR_word_length_enable_fifos, isol_LCR_word_length_two_stop_bits_select, isol_LCR_word_length_even_parity_select, isol_LCR_word_length_parity_enable, isol_LCR_word_length_send_break, isol_LCR_enable_fifos_stick_parity, isol_LCR_enable_fifos_word_length, isol_LCR_enable_fifos_two_stop_bits_select, isol_LCR_enable_fifos_even_parity_select, isol_LCR_enable_fifos_parity_enable, isol_LCR_enable_fifos_send_break, isol_LCR_two_stop_bits_select_stick_parity, isol_LCR_two_stop_bits_select_word_length, isol_LCR_two_stop_bits_select_enable_fifos, isol_LCR_two_stop_bits_select_even_parity_select, isol_LCR_two_stop_bits_select_parity_enable, isol_LCR_two_stop_bits_select_send_break, isol_LCR_even_parity_select_stick_parity, isol_LCR_even_parity_select_word_length, isol_LCR_even_parity_select_enable_fifos, isol_LCR_even_parity_select_two_stop_bits_select, isol_LCR_even_parity_select_parity_enable, isol_LCR_even_parity_select_send_break, isol_LCR_parity_enable_stick_parity, isol_LCR_parity_enable_word_length, isol_LCR_parity_enable_enable_fifos, isol_LCR_parity_enable_two_stop_bits_select, isol_LCR_parity_enable_even_parity_select, isol_LCR_parity_enable_send_break, isol_LCR_send_break_stick_parity, isol_LCR_send_break_word_length, isol_LCR_send_break_enable_fifos, isol_LCR_send_break_two_stop_bits_select, isol_LCR_send_break_even_parity_select, isol_LCR_send_break_parity_enable, isol_CR_CTS_hardware_flow_control_enable_RTS_hardware_flow_control_enable, isol_CR_CTS_hardware_flow_control_enable_out2, isol_CR_CTS_hardware_flow_control_enable_out1, isol_CR_CTS_hardware_flow_control_enable_request_to_send, isol_CR_CTS_hardware_flow_control_enable_data_transmit_ready, isol_CR_CTS_hardware_flow_control_enable_receive_enable, isol_CR_CTS_hardware_flow_control_enable_transmit_enable, isol_CR_CTS_hardware_flow_control_enable_loopback_enable, isol_CR_CTS_hardware_flow_control_enable_SIR_enable, isol_CR_CTS_hardware_flow_control_enable_UART_enable, isol_CR_RTS_hardware_flow_control_enable_CTS_hardware_flow_control_enable, isol_CR_RTS_hardware_flow_control_enable_out2, isol_CR_RTS_hardware_flow_control_enable_out1, isol_CR_RTS_hardware_flow_control_enable_request_to_send, isol_CR_RTS_hardware_flow_control_enable_data_transmit_ready, isol_CR_RTS_hardware_flow_control_enable_receive_enable, isol_CR_RTS_hardware_flow_control_enable_transmit_enable, isol_CR_RTS_hardware_flow_control_enable_loopback_enable, isol_CR_RTS_hardware_flow_control_enable_SIR_enable, isol_CR_RTS_hardware_flow_control_enable_UART_enable, isol_CR_out2_CTS_hardware_flow_control_enable, isol_CR_out2_RTS_hardware_flow_control_enable, isol_CR_out2_out1, isol_CR_out2_request_to_send, isol_CR_out2_data_transmit_ready, isol_CR_out2_receive_enable, isol_CR_out2_transmit_enable, isol_CR_out2_loopback_enable, isol_CR_out2_SIR_enable, isol_CR_out2_UART_enable, isol_CR_out1_CTS_hardware_flow_control_enable, isol_CR_out1_RTS_hardware_flow_control_enable, isol_CR_out1_out2, isol_CR_out1_request_to_send, isol_CR_out1_data_transmit_ready, isol_CR_out1_receive_enable, isol_CR_out1_transmit_enable, isol_CR_out1_loopback_enable, isol_CR_out1_SIR_enable, isol_CR_out1_UART_enable, isol_CR_request_to_send_CTS_hardware_flow_control_enable, isol_CR_request_to_send_RTS_hardware_flow_control_enable, isol_CR_request_to_send_out2, isol_CR_request_to_send_out1, isol_CR_request_to_send_data_transmit_ready, isol_CR_request_to_send_receive_enable, isol_CR_request_to_send_transmit_enable, isol_CR_request_to_send_loopback_enable, isol_CR_request_to_send_SIR_enable, isol_CR_request_to_send_UART_enable, isol_CR_data_transmit_ready_CTS_hardware_flow_control_enable, isol_CR_data_transmit_ready_RTS_hardware_flow_control_enable, isol_CR_data_transmit_ready_out2, isol_CR_data_transmit_ready_out1, isol_CR_data_transmit_ready_request_to_send, isol_CR_data_transmit_ready_receive_enable, isol_CR_data_transmit_ready_transmit_enable, isol_CR_data_transmit_ready_loopback_enable, isol_CR_data_transmit_ready_SIR_enable, isol_CR_data_transmit_ready_UART_enable, isol_CR_receive_enable_CTS_hardware_flow_control_enable, isol_CR_receive_enable_RTS_hardware_flow_control_enable, isol_CR_receive_enable_out2, isol_CR_receive_enable_out1, isol_CR_receive_enable_request_to_send, isol_CR_receive_enable_data_transmit_ready, isol_CR_receive_enable_transmit_enable, isol_CR_receive_enable_loopback_enable, isol_CR_receive_enable_SIR_enable, isol_CR_receive_enable_UART_enable, isol_CR_transmit_enable_CTS_hardware_flow_control_enable, isol_CR_transmit_enable_RTS_hardware_flow_control_enable, isol_CR_transmit_enable_out2, isol_CR_transmit_enable_out1, isol_CR_transmit_enable_request_to_send, isol_CR_transmit_enable_data_transmit_ready, isol_CR_transmit_enable_receive_enable, isol_CR_transmit_enable_loopback_enable, isol_CR_transmit_enable_SIR_enable, isol_CR_transmit_enable_UART_enable, isol_CR_loopback_enable_CTS_hardware_flow_control_enable, isol_CR_loopback_enable_RTS_hardware_flow_control_enable, isol_CR_loopback_enable_out2, isol_CR_loopback_enable_out1, isol_CR_loopback_enable_request_to_send, isol_CR_loopback_enable_data_transmit_ready, isol_CR_loopback_enable_receive_enable, isol_CR_loopback_enable_transmit_enable, isol_CR_loopback_enable_SIR_enable, isol_CR_loopback_enable_UART_enable, isol_CR_SIR_enable_CTS_hardware_flow_control_enable, isol_CR_SIR_enable_RTS_hardware_flow_control_enable, isol_CR_SIR_enable_out2, isol_CR_SIR_enable_out1, isol_CR_SIR_enable_request_to_send, isol_CR_SIR_enable_data_transmit_ready, isol_CR_SIR_enable_receive_enable, isol_CR_SIR_enable_transmit_enable, isol_CR_SIR_enable_loopback_enable, isol_CR_SIR_enable_UART_enable, isol_CR_UART_enable_CTS_hardware_flow_control_enable, isol_CR_UART_enable_RTS_hardware_flow_control_enable, isol_CR_UART_enable_out2, isol_CR_UART_enable_out1, isol_CR_UART_enable_request_to_send, isol_CR_UART_enable_data_transmit_ready, isol_CR_UART_enable_receive_enable, isol_CR_UART_enable_transmit_enable, isol_CR_UART_enable_loopback_enable, isol_CR_UART_enable_SIR_enable, isol_IFLS_receive_interrupt_FIFO_level_select_transmit_interrupt_FIFO_level_select, isol_IFLS_transmit_interrupt_FIFO_level_select_receive_interrupt_FIFO_level_select, isol_IMSC_overrun_error_interrupt_mask_break_error_interrupt_mask, isol_IMSC_overrun_error_interrupt_mask_parity_error_interrupt_mask, isol_IMSC_overrun_error_interrupt_mask_framing_error_interrupt_mask, isol_IMSC_overrun_error_interrupt_mask_receive_timeout_interrupt_mask, isol_IMSC_overrun_error_interrupt_mask_transmit_interrupt_mask, isol_IMSC_overrun_error_interrupt_mask_receive_interrupt_mask, isol_IMSC_overrun_error_interrupt_mask_nUARTDSR_modem_interrupt_mask, isol_IMSC_overrun_error_interrupt_mask_nUARTDCD_modem_interrupt_mask, isol_IMSC_overrun_error_interrupt_mask_nUARTCTS_modem_interrupt_mask, isol_IMSC_overrun_error_interrupt_mask_nUARTRI_modem_interrupt_mask, isol_IMSC_break_error_interrupt_mask_overrun_error_interrupt_mask, isol_IMSC_break_error_interrupt_mask_parity_error_interrupt_mask, isol_IMSC_break_error_interrupt_mask_framing_error_interrupt_mask, isol_IMSC_break_error_interrupt_mask_receive_timeout_interrupt_mask, isol_IMSC_break_error_interrupt_mask_transmit_interrupt_mask, isol_IMSC_break_error_interrupt_mask_receive_interrupt_mask, isol_IMSC_break_error_interrupt_mask_nUARTDSR_modem_interrupt_mask, isol_IMSC_break_error_interrupt_mask_nUARTDCD_modem_interrupt_mask, isol_IMSC_break_error_interrupt_mask_nUARTCTS_modem_interrupt_mask, isol_IMSC_break_error_interrupt_mask_nUARTRI_modem_interrupt_mask, isol_IMSC_parity_error_interrupt_mask_overrun_error_interrupt_mask, isol_IMSC_parity_error_interrupt_mask_break_error_interrupt_mask, isol_IMSC_parity_error_interrupt_mask_framing_error_interrupt_mask, isol_IMSC_parity_error_interrupt_mask_receive_timeout_interrupt_mask, isol_IMSC_parity_error_interrupt_mask_transmit_interrupt_mask, isol_IMSC_parity_error_interrupt_mask_receive_interrupt_mask, isol_IMSC_parity_error_interrupt_mask_nUARTDSR_modem_interrupt_mask, isol_IMSC_parity_error_interrupt_mask_nUARTDCD_modem_interrupt_mask, isol_IMSC_parity_error_interrupt_mask_nUARTCTS_modem_interrupt_mask, isol_IMSC_parity_error_interrupt_mask_nUARTRI_modem_interrupt_mask, isol_IMSC_framing_error_interrupt_mask_overrun_error_interrupt_mask, isol_IMSC_framing_error_interrupt_mask_break_error_interrupt_mask, isol_IMSC_framing_error_interrupt_mask_parity_error_interrupt_mask, isol_IMSC_framing_error_interrupt_mask_receive_timeout_interrupt_mask, isol_IMSC_framing_error_interrupt_mask_transmit_interrupt_mask, isol_IMSC_framing_error_interrupt_mask_receive_interrupt_mask, isol_IMSC_framing_error_interrupt_mask_nUARTDSR_modem_interrupt_mask, isol_IMSC_framing_error_interrupt_mask_nUARTDCD_modem_interrupt_mask, isol_IMSC_framing_error_interrupt_mask_nUARTCTS_modem_interrupt_mask, isol_IMSC_framing_error_interrupt_mask_nUARTRI_modem_interrupt_mask, isol_IMSC_receive_timeout_interrupt_mask_overrun_error_interrupt_mask, isol_IMSC_receive_timeout_interrupt_mask_break_error_interrupt_mask, isol_IMSC_receive_timeout_interrupt_mask_parity_error_interrupt_mask, isol_IMSC_receive_timeout_interrupt_mask_framing_error_interrupt_mask, isol_IMSC_receive_timeout_interrupt_mask_transmit_interrupt_mask, isol_IMSC_receive_timeout_interrupt_mask_receive_interrupt_mask, isol_IMSC_receive_timeout_interrupt_mask_nUARTDSR_modem_interrupt_mask, isol_IMSC_receive_timeout_interrupt_mask_nUARTDCD_modem_interrupt_mask, isol_IMSC_receive_timeout_interrupt_mask_nUARTCTS_modem_interrupt_mask, isol_IMSC_receive_timeout_interrupt_mask_nUARTRI_modem_interrupt_mask, isol_IMSC_transmit_interrupt_mask_overrun_error_interrupt_mask, isol_IMSC_transmit_interrupt_mask_break_error_interrupt_mask, isol_IMSC_transmit_interrupt_mask_parity_error_interrupt_mask, isol_IMSC_transmit_interrupt_mask_framing_error_interrupt_mask, isol_IMSC_transmit_interrupt_mask_receive_timeout_interrupt_mask, isol_IMSC_transmit_interrupt_mask_receive_interrupt_mask, isol_IMSC_transmit_interrupt_mask_nUARTDSR_modem_interrupt_mask, isol_IMSC_transmit_interrupt_mask_nUARTDCD_modem_interrupt_mask, isol_IMSC_transmit_interrupt_mask_nUARTCTS_modem_interrupt_mask, isol_IMSC_transmit_interrupt_mask_nUARTRI_modem_interrupt_mask, isol_IMSC_receive_interrupt_mask_overrun_error_interrupt_mask, isol_IMSC_receive_interrupt_mask_break_error_interrupt_mask, isol_IMSC_receive_interrupt_mask_parity_error_interrupt_mask, isol_IMSC_receive_interrupt_mask_framing_error_interrupt_mask, isol_IMSC_receive_interrupt_mask_receive_timeout_interrupt_mask, isol_IMSC_receive_interrupt_mask_transmit_interrupt_mask, isol_IMSC_receive_interrupt_mask_nUARTDSR_modem_interrupt_mask, isol_IMSC_receive_interrupt_mask_nUARTDCD_modem_interrupt_mask, isol_IMSC_receive_interrupt_mask_nUARTCTS_modem_interrupt_mask, isol_IMSC_receive_interrupt_mask_nUARTRI_modem_interrupt_mask, isol_IMSC_nUARTDSR_modem_interrupt_mask_overrun_error_interrupt_mask, isol_IMSC_nUARTDSR_modem_interrupt_mask_break_error_interrupt_mask, isol_IMSC_nUARTDSR_modem_interrupt_mask_parity_error_interrupt_mask, isol_IMSC_nUARTDSR_modem_interrupt_mask_framing_error_interrupt_mask, isol_IMSC_nUARTDSR_modem_interrupt_mask_receive_timeout_interrupt_mask, isol_IMSC_nUARTDSR_modem_interrupt_mask_transmit_interrupt_mask, isol_IMSC_nUARTDSR_modem_interrupt_mask_receive_interrupt_mask, isol_IMSC_nUARTDSR_modem_interrupt_mask_nUARTDCD_modem_interrupt_mask, isol_IMSC_nUARTDSR_modem_interrupt_mask_nUARTCTS_modem_interrupt_mask, isol_IMSC_nUARTDSR_modem_interrupt_mask_nUARTRI_modem_interrupt_mask, isol_IMSC_nUARTDCD_modem_interrupt_mask_overrun_error_interrupt_mask, isol_IMSC_nUARTDCD_modem_interrupt_mask_break_error_interrupt_mask, isol_IMSC_nUARTDCD_modem_interrupt_mask_parity_error_interrupt_mask, isol_IMSC_nUARTDCD_modem_interrupt_mask_framing_error_interrupt_mask, isol_IMSC_nUARTDCD_modem_interrupt_mask_receive_timeout_interrupt_mask, isol_IMSC_nUARTDCD_modem_interrupt_mask_transmit_interrupt_mask, isol_IMSC_nUARTDCD_modem_interrupt_mask_receive_interrupt_mask, isol_IMSC_nUARTDCD_modem_interrupt_mask_nUARTDSR_modem_interrupt_mask, isol_IMSC_nUARTDCD_modem_interrupt_mask_nUARTCTS_modem_interrupt_mask, isol_IMSC_nUARTDCD_modem_interrupt_mask_nUARTRI_modem_interrupt_mask, isol_IMSC_nUARTCTS_modem_interrupt_mask_overrun_error_interrupt_mask, isol_IMSC_nUARTCTS_modem_interrupt_mask_break_error_interrupt_mask, isol_IMSC_nUARTCTS_modem_interrupt_mask_parity_error_interrupt_mask, isol_IMSC_nUARTCTS_modem_interrupt_mask_framing_error_interrupt_mask, isol_IMSC_nUARTCTS_modem_interrupt_mask_receive_timeout_interrupt_mask, isol_IMSC_nUARTCTS_modem_interrupt_mask_transmit_interrupt_mask, isol_IMSC_nUARTCTS_modem_interrupt_mask_receive_interrupt_mask, isol_IMSC_nUARTCTS_modem_interrupt_mask_nUARTDSR_modem_interrupt_mask, isol_IMSC_nUARTCTS_modem_interrupt_mask_nUARTDCD_modem_interrupt_mask, isol_IMSC_nUARTCTS_modem_interrupt_mask_nUARTRI_modem_interrupt_mask, isol_IMSC_nUARTRI_modem_interrupt_mask_overrun_error_interrupt_mask, isol_IMSC_nUARTRI_modem_interrupt_mask_break_error_interrupt_mask, isol_IMSC_nUARTRI_modem_interrupt_mask_parity_error_interrupt_mask, isol_IMSC_nUARTRI_modem_interrupt_mask_framing_error_interrupt_mask, isol_IMSC_nUARTRI_modem_interrupt_mask_receive_timeout_interrupt_mask, isol_IMSC_nUARTRI_modem_interrupt_mask_transmit_interrupt_mask, isol_IMSC_nUARTRI_modem_interrupt_mask_receive_interrupt_mask, isol_IMSC_nUARTRI_modem_interrupt_mask_nUARTDSR_modem_interrupt_mask, isol_IMSC_nUARTRI_modem_interrupt_mask_nUARTDCD_modem_interrupt_mask, isol_IMSC_nUARTRI_modem_interrupt_mask_nUARTCTS_modem_interrupt_mask⟩,
   fun r =>
    ⟨(isol_DR_overrun_error_data (r.with_overrun_error true) 0xFF).trans
       (get_set_bool 32 11 0b100000000000 r.raw true (by decide) (by omega)),
     get_set_u8 32 0 0b11111111 (r.with_overrun_error true).raw 0xFF (by decide) (by omega)⟩⟩

/-! ### Volatile register access (`src/lib.rs`)

The volatile layer is modelled operationally: memory is an explicit map
from addresses to stored raw values, and every operation returns, next
to its result, the exact list of volatile accesses it issues, in
program order.  A `w`-bit load or store touches exactly the cell at
`base + offset` and is truncated to `w` bits. -/

/-- The memory the register block lives in: one raw value per address. -/
def Mem : Type := Nat → Nat

/-- One volatile hardware access: a `width`-bit load or store of `value`
at `addr`. -/
inductive Access where
  | read (addr width value : Nat)
  | write (addr width value : Nat)
deriving DecidableEq, Repr

/-- The `UART` register block of `src/lib.rs`.  `base` is the numeric
address its `BaseAddress` holder yields (`self.base.base_address()`). -/
structure UART where
  base : Nat
deriving DecidableEq, Repr

/-- `UART::read_register::<R>`: one volatile `W`-bit load at
`base + offset`. -/
def UART.read_register (self : UART) (W offset : Nat) (m : Mem) : Nat × List Access :=
  let a := self.base + offset
  (m a % 2 ^ W, [Access.read a W (m a % 2 ^ W)])

/-- `UART::write_register::<R>`: one volatile `W`-bit store at
`base + offset`; no other cell changes. -/
def UART.write_register (self : UART) (W offset value : Nat) (m : Mem) :
    Mem × List Access :=
  let a := self.base + offset
  (fun x => if x = a then value % 2 ^ W else m x, [Access.write a W (value % 2 ^ W)])

/-- `UART::update_register::<R, F>`: exactly
`write_register(offset, f(read_register(offset)))`. -/
def UART.update_register (self : UART) (W offset : Nat) (f : Nat → Nat) (m : Mem) :
    Mem × List Access :=
  let r := self.read_register W offset m
  let wr := self.write_register W offset (f r.1) m
  (wr.1, r.2 ++ wr.2)

/-- `UART::write_error_clear_register`: write-only, takes no value
argument, always stores the constant `0u32` at offset `0x04`. -/
def UART.write_error_clear_register (self : UART) (m : Mem) : Mem × List Access :=
  self.write_register 32 0x04 0 m
/-- `UART::read_data_register` — offset `0x00`, 32-bit. -/
def UART.read_data_register (self : UART) (m : Mem) : DataRegister × List Access :=
  let p := self.read_register DataRegister.width 0x00 m
  (⟨p.1⟩, p.2)

/-- `UART::write_data_register` — offset `0x00`, 32-bit. -/
def UART.write_data_register (self : UART) (value : DataRegister) (m : Mem) :
    Mem × List Access :=
  self.write_register DataRegister.width 0x00 value.raw m

/-- `UART::update_data_register` — offset `0x00`, 32-bit. -/
def UART.update_data_register (self : UART) (f : DataRegister → DataRegister) (m : Mem) :
    Mem × List Access :=
  self.update_register DataRegister.width 0x00 (fun n => (f ⟨n⟩).raw) m

/-- `UART::read_receive_status_register` — offset `0x04`, 32-bit. -/
def UART.read_receive_status_register (self : UART) (m : Mem) : ReceiveStatusRegister × List Access :=
  let p := self.read_register ReceiveStatusRegister.width 0x04 m
  (⟨p.1⟩, p.2)

/-- `UART::read_flag_register` — offset `0x18`, 32-bit. -/
def UART.read_flag_register (self : UART) (m : Mem) : FlagRegister × List Access :=
  let p := self.read_register FlagRegister.width 0x18 m
  (⟨p.1⟩, p.2)

/-- `UART::read_irda_low_power_register` — offset `0x20`, 8-bit. -/
def UART.read_irda_low_power_register (self : UART) (m : Mem) : IrDALowPowerRegister × List Access :=
  let p := self.read_register IrDALowPowerRegister.width 0x20 m
  (⟨p.1⟩, p.2)

/-- `UART::write_irda_low_power_register` — offset `0x20`, 8-bit. -/
def UART.write_irda_low_power_register (self : UART) (value : IrDALowPowerRegister) (m : Mem) :
    Mem × List Access :=
  self.write_register IrDALowPowerRegister.width 0x20 value.raw m

/-- `UART::update_irda_low_power_register` — offset `0x20`, 8-bit. -/
def UART.update_irda_low_power_register (self : UART) (f : IrDALowPowerRegister → IrDALowPowerRegister) (m : Mem) :
    Mem × List Access :=
  self.update_register IrDALowPowerRegister.width 0x20 (fun n => (f ⟨n⟩).raw) m

/-- `UART::read_integer_baud_rate_divisor_register` — offset `0x24`, 16-bit. -/
def UART.read_integer_baud_rate_divisor_register (self : UART) (m : Mem) : IntegerBaudRateDivisorRegister × List Access :=
  let p := self.read_register IntegerBaudRateDivisorRegister.width 0x24 m
  (⟨p.1⟩, p.2)

/-- `UART::write_integer_baud_rate_divisor_register` — offset `0x24`, 16-bit. -/
def UART.write_integer_baud_rate_divisor_register (self : UART) (value : IntegerBaudRateDivisorRegister) (m : Mem) :
    Mem × List Access :=
  self.write_register IntegerBaudRateDivisorRegister.width 0x24 value.raw m

/-- `UART::update_integer_baud_rate_divisor_register` — offset `0x24`, 16-bit. -/
def UART.update_integer_baud_rate_divisor_register (self : UART) (f : IntegerBaudRateDivisorRegister → IntegerBaudRateDivisorRegister) (m : Mem) :
    Mem × List Access :=
  self.update_register IntegerBaudRateDivisorRegister.width 0x24 (fun n => (f ⟨n⟩).raw) m

/-- `UART::read_fractional_baud_rate_divisor_register` — offset `0x28`, 8-bit. -/
def UART.read_fractional_baud_rate_divisor_register (self : UART) (m : Mem) : FractionalBaudRateDivisorRegister × List Access :=
  let p := self.read_register FractionalBaudRateDivisorRegister.width 0x28 m
  (⟨p.1⟩, p.2)

/-- `UART::write_fractional_baud_rate_divisor_register` — offset `0x28`, 8-bit. -/
def UART.write_fractional_baud_rate_divisor_register (self : UART) (value : FractionalBaudRateDivisorRegister) (m : Mem) :
    Mem × List Access :=
  self.write_register FractionalBaudRateDivisorRegister.width 0x28 value.raw m

/-- `UART::update_fractional_baud_rate_divisor_register` — offset `0x28`, 8-bit. -/
def UART.update_fractional_baud_rate_divisor_register (self : UART) (f : FractionalBaudRateDivisorRegister → FractionalBaudRateDivisorRegister) (m : Mem) :
    Mem × List Access :=
  self.update_register FractionalBaudRateDivisorRegister.width 0x28 (fun n => (f ⟨n⟩).raw) m

/-- `UART::read_line_control_register` — offset `0x2C`, 16-bit. -/
def UART.read_line_control_register (self : UART) (m : Mem) : LineControlRegister × List Access :=
  let p := self.read_register LineControlRegister.width 0x2C m
  (⟨p.1⟩, p.2)

/-- `UART::write_line_control_register` — offset `0x2C`, 16-bit. -/
def UART.write_line_control_register (self : UART) (value : LineControlRegister) (m : Mem) :
    Mem × List Access :=
  self.write_register LineControlRegister.width 0x2C value.raw m

/-- `UART::update_line_control_register` — offset `0x2C`, 16-bit. -/
def UART.update_line_control_register (self : UART) (f : LineControlRegister → LineControlRegister) (m : Mem) :
    Mem × List Access :=
  self.update_register LineControlRegister.width 0x2C (fun n => (f ⟨n⟩).raw) m

/-- `UART::read_control_register` — offset `0x30`, 16-bit. -/
def UART.read_control_register (self : UART) (m : Mem) : ControlRegister × List Access :=
  let p := self.read_register ControlRegister.width 0x30 m
  (⟨p.1⟩, p.2)

/-- `UART::write_control_register` — offset `0x30`, 16-bit. -/
def UART.write_control_register (self : UART) (value : ControlRegister) (m : Mem) :
    Mem × List Access :=
  self.write_register ControlRegister.width 0x30 value.raw m

/-- `UART::update_control_register` — offset `0x30`, 16-bit. -/
def UART.update_control_register (self : UART) (f : ControlRegister → ControlRegister) (m : Mem) :
    Mem × List Access :=
  self.update_register ControlRegister.width 0x30 (fun n => (f ⟨n⟩).raw) m

/-- `UART::read_interrupt_fifo_level_select_register` — offset `0x34`, 16-bit. -/
def UART.read_interrupt_fifo_level_select_register (self : UART) (m : Mem) : InterruptFIFOLevelSelectRegister × List Access :=
  let p := self.read_register InterruptFIFOLevelSelectRegister.width 0x34 m
  (⟨p.1⟩, p.2)

/-- `UART::write_interrupt_fifo_level_select_register` — offset `0x34`, 16-bit. -/
def UART.write_interrupt_fifo_level_select_register (self : UART) (value : InterruptFIFOLevelSelectRegister) (m : Mem) :
    Mem × List Access :=
  self.write_register InterruptFIFOLevelSelectRegister.width 0x34 value.raw m

/-- `UART::update_interrupt_fifo_level_select_register` — offset `0x34`, 16-bit. -/
def UART.update_interrupt_fifo_level_select_register (self : UART) (f : InterruptFIFOLevelSelectRegister → InterruptFIFOLevelSelectRegister) (m : Mem) :
    Mem × List Access :=
  self.update_register InterruptFIFOLevelSelectRegister.width 0x34 (fun n => (f ⟨n⟩).raw) m

/-- `UART::read_interrupt_mask_set_clear_register` — offset `0x38`, 16-bit. -/
def UART.read_interrupt_mask_set_clear_register (self : UART) (m : Mem) : InterruptMaskSetClearRegister × List Access :=
  let p := self.read_register InterruptMaskSetClearRegister.width 0x38 m
  (⟨p.1⟩, p.2)

/-- `UART::write_interrupt_mask_set_clear_register` — offset `0x38`, 16-bit. -/
def UART.write_interrupt_mask_set_clear_register (self : UART) (value : InterruptMaskSetClearRegister) (m : Mem) :
    Mem × List Access :=
  self.write_register InterruptMaskSetClearRegister.width 0x38 value.raw m

/-- `UART::update_interrupt_mask_set_clear_register` — offset `0x38`, 16-bit. -/
def UART.update_interrupt_mask_set_clear_register (self : UART) (f : InterruptMaskSetClearRegister → InterruptMaskSetClearRegister) (m : Mem) :
    Mem × List Access :=
  self.update_register InterruptMaskSetClearRegister.width 0x38 (fun n => (f ⟨n⟩).raw) m

/-- Decoding the IrDA low-power register's raw value at any valid
(nonzero) pattern succeeds with that exact value. -/
theorem nz8_decode_raw (v : NonZeroU8) :
    (IrDALowPowerRegister.mk v.val).low_power_divisor_value = .ok v := by
  obtain ⟨n, hpos, hlt⟩ := v
  have hp : bitstuff.u8.cast n = ⟨n, hlt⟩ :=
    Fin.ext (by simp [bitstuff.u8.cast, Nat.mod_eq_of_lt hlt])
  simp [IrDALowPowerRegister.low_power_divisor_value, hp,
    bitstuff.NonZeroU8.try_from_bits, hpos]

/-- Decoding the integer baud-rate divisor register's raw value at any
valid (nonzero) pattern succeeds with that exact value. -/
theorem nz16_decode_raw (v : NonZeroU16) :
    (IntegerBaudRateDivisorRegister.mk v.val).integer_baud_rate_divisor = .ok v := by
  obtain ⟨n, hpos, hlt⟩ := v
  have hp : bitstuff.u16.cast n = ⟨n, hlt⟩ :=
    Fin.ext (by simp [bitstuff.u16.cast, Nat.mod_eq_of_lt hlt])
  simp [IntegerBaudRateDivisorRegister.integer_baud_rate_divisor, hp,
    bitstuff.NonZeroU16.try_from_bits, hpos]

/-- C3: Fallible field decoding — `FIFOLevelSelect` patterns `0b000`
to `0b100` decode to the five named levels in order, patterns `0b101`,
`0b110`, `0b111` fail carrying that exact pattern (also through both
register fields); the non-zero-constrained divisor fields succeed on
every nonzero pattern with that exact value and fail on pattern `0`
carrying it, with `0x0001` and `0xFFFF` as concrete successes. -/
theorem fallible_field_decoding :
    (FIFOLevelSelect.try_from_bits 0 = .ok .OneEighth) ∧
    (FIFOLevelSelect.try_from_bits 1 = .ok .OneFourth) ∧
    (FIFOLevelSelect.try_from_bits 2 = .ok .OneHalf) ∧
    (FIFOLevelSelect.try_from_bits 3 = .ok .ThreeFourth) ∧
    (FIFOLevelSelect.try_from_bits 4 = .ok .SevenEighth) ∧
    (FIFOLevelSelect.try_from_bits 5 = .err 5) ∧
    (FIFOLevelSelect.try_from_bits 6 = .err 6) ∧
    (FIFOLevelSelect.try_from_bits 7 = .err 7) ∧
    (∀ (p : Fin 8),
      (InterruptFIFOLevelSelectRegister.mk
          (p.val <<< 3)).receive_interrupt_FIFO_level_select
        = FIFOLevelSelect.try_from_bits p) ∧
    (∀ (p : Fin 8),
      (InterruptFIFOLevelSelectRegister.mk p.val).transmit_interrupt_FIFO_level_select
        = FIFOLevelSelect.try_from_bits p) ∧
    (∀ (v : NonZeroU8), (IrDALowPowerRegister.mk v.val).low_power_divisor_value = .ok v) ∧
    ((IrDALowPowerRegister.mk 0).low_power_divisor_value = .err 0) ∧
    (∀ (v : NonZeroU16),
      (IntegerBaudRateDivisorRegister.mk v.val).integer_baud_rate_divisor = .ok v) ∧
    ((IntegerBaudRateDivisorRegister.mk 0).integer_baud_rate_divisor = .err 0) ∧
    ((IntegerBaudRateDivisorRegister.mk 0x0001).integer_baud_rate_divisor
      = .ok ⟨0x0001, by omega⟩) ∧
    ((IntegerBaudRateDivisorRegister.mk 0xFFFF).integer_baud_rate_divisor
      = .ok ⟨0xFFFF, by omega⟩) :=
  ⟨by decide, by decide, by decide, by decide, by decide, by decide, by decide, by decide,
   by decide, by decide, nz8_decode_raw, by decide, nz16_decode_raw, by decide,
   by decide, by decide⟩

/-- C4: Read-modify-write semantics — `update_register` is exactly one
volatile read at `base + offset` followed by exactly one volatile write
of `f(read_value)` to the same address, modifying no other cell;
`read_register` loads exactly the `W`-bit cell at `base + offset` and
`write_register` stores exactly there. -/
theorem update_register_read_modify_write :
    (∀ (u : UART) (W offset : Nat) (f : Nat → Nat) (m : Mem),
      u.update_register W offset f m
        = (fun a => if a = u.base + offset
             then f (m (u.base + offset) % 2 ^ W) % 2 ^ W else m a,
           [Access.read (u.base + offset) W (m (u.base + offset) % 2 ^ W),
            Access.write (u.base + offset) W
              (f (m (u.base + offset) % 2 ^ W) % 2 ^ W)])) ∧
    (∀ (u : UART) (W offset : Nat) (m : Mem),
      u.read_register W offset m
        = (m (u.base + offset) % 2 ^ W,
           [Access.read (u.base + offset) W (m (u.base + offset) % 2 ^ W)])) ∧
    (∀ (u : UART) (W offset value : Nat) (m : Mem),
      u.write_register W offset value m
        = (fun a => if a = u.base + offset then value % 2 ^ W else m a,
           [Access.write (u.base + offset) W (value % 2 ^ W)])) ∧
    (∀ (u : UART) (W offset : Nat) (f : Nat → Nat) (m : Mem) (a : Nat),
      a ≠ u.base + offset → (u.update_register W offset f m).1 a = m a) :=
  ⟨fun u W offset f m => rfl, fun u W offset m => rfl, fun u W offset value m => rfl,
   fun u W offset f m a ha => if_neg ha⟩

/-- Witness for C4 at a concrete instance: updating offset `0x04` from
base `0x1000` leaves the unrelated cell `0x2000` untouched. -/
theorem update_register_read_modify_write_witness :
    ((UART.mk 0x1000).update_register 32 0x04 (fun n => n + 1) (fun _ => 5)).1 0x2000 = 5 :=
  update_register_read_modify_write.2.2.2 (UART.mk 0x1000) 32 0x04 (fun n => n + 1)
    (fun _ => 5) 0x2000 (by decide)

/-- C5: Memory map conformance — every named register accessor of the
`UART` block issues its volatile access at the documented byte offset
with the documented storage width: data `0x00`/32, receive-status and
error-clear `0x04`/32, flag `0x18`/32, IrDA low-power `0x20`/8, integer
baud-rate divisor `0x24`/16, fractional baud-rate divisor `0x28`/8,
line control `0x2C`/16, control `0x30`/16, interrupt FIFO level select
`0x34`/16, interrupt mask set/clear `0x38`/16. -/
theorem memory_map_conformance :
    (∀ (u : UART) (m : Mem), (u.read_data_register m).2
      = [Access.read (u.base + 0x00) 32 (m (u.base + 0x00) % 2 ^ 32)]) ∧
    (∀ (u : UART) (value : DataRegister) (m : Mem), (u.write_data_register value m).2
      = [Access.write (u.base + 0x00) 32 (value.raw % 2 ^ 32)]) ∧
    (∀ (u : UART) (f : DataRegister → DataRegister) (m : Mem), (u.update_data_register f m).2
      = [Access.read (u.base + 0x00) 32 (m (u.base + 0x00) % 2 ^ 32),
         Access.write (u.base + 0x00) 32
           ((f ⟨m (u.base + 0x00) % 2 ^ 32⟩).raw % 2 ^ 32)]) ∧
    (∀ (u : UART) (m : Mem), (u.read_receive_status_register m).2
      = [Access.read (u.base + 0x04) 32 (m (u.base + 0x04) % 2 ^ 32)]) ∧
    (∀ (u : UART) (m : Mem), (u.read_flag_register m).2
      = [Access.read (u.base + 0x18) 32 (m (u.base + 0x18) % 2 ^ 32)]) ∧
    (∀ (u : UART) (m : Mem), (u.read_irda_low_power_register m).2
      = [Access.read (u.base + 0x20) 8 (m (u.base + 0x20) % 2 ^ 8)]) ∧
    (∀ (u : UART) (value : IrDALowPowerRegister) (m : Mem), (u.write_irda_low_power_register value m).2
      = [Access.write (u.base + 0x20) 8 (value.raw % 2 ^ 8)]) ∧
    (∀ (u : UART) (f : IrDALowPowerRegister → IrDALowPowerRegister) (m : Mem), (u.update_irda_low_power_register f m).2
      = [Access.read (u.base + 0x20) 8 (m (u.base + 0x20) % 2 ^ 8),
         Access.write (u.base + 0x20) 8
           ((f ⟨m (u.base + 0x20) % 2 ^ 8⟩).raw % 2 ^ 8)]) ∧
    (∀ (u : UART) (m : Mem), (u.read_integer_baud_rate_divisor_register m).2
      = [Access.read (u.base + 0x24) 16 (m (u.base + 0x24) % 2 ^ 16)]) ∧
    (∀ (u : UART) (value : IntegerBaudRateDivisorRegister) (m : Mem), (u.write_integer_baud_rate_divisor_register value m).2
      = [Access.write (u.base + 0x24) 16 (value.raw % 2 ^ 16)]) ∧
    (∀ (u : UART) (f : IntegerBaudRateDivisorRegister → IntegerBaudRateDivisorRegister) (m : Mem), (u.update_integer_baud_rate_divisor_register f m).2
      = [Access.read (u.base + 0x24) 16 (m (u.base + 0x24) % 2 ^ 16),
         Access.write (u.base + 0x24) 16
           ((f ⟨m (u.base + 0x24) % 2 ^ 16⟩).raw % 2 ^ 16)]) ∧
    (∀ (u : UART) (m : Mem), (u.read_fractional_baud_rate_divisor_register m).2
      = [Access.read (u.base + 0x28) 8 (m (u.base + 0x28) % 2 ^ 8)]) ∧
    (∀ (u : UART) (value : FractionalBaudRateDivisorRegister) (m : Mem), (u.write_fractional_baud_rate_divisor_register value m).2
      = [Access.write (u.base + 0x28) 8 (value.raw % 2 ^ 8)]) ∧
    (∀ (u : UART) (f : FractionalBaudRateDivisorRegister → FractionalBaudRateDivisorRegister) (m : Mem), (u.update_fractional_baud_rate_divisor_register f m).2
      = [Access.read (u.base + 0x28) 8 (m (u.base + 0x28) % 2 ^ 8),
         Access.write (u.base + 0x28) 8
           ((f ⟨m (u.base + 0x28) % 2 ^ 8⟩).raw % 2 ^ 8)]) ∧
    (∀ (u : UART) (m : Mem), (u.read_line_control_register m).2
      = [Access.read (u.base + 0x2C) 16 (m (u.base + 0x2C) % 2 ^ 16)]) ∧
    (∀ (u : UART) (value : LineControlRegister) (m : Mem), (u.write_line_control_register value m).2
      = [Access.write (u.base + 0x2C) 16 (value.raw % 2 ^ 16)]) ∧
    (∀ (u : UART) (f : LineControlRegister → LineControlRegister) (m : Mem), (u.update_line_control_register f m).2
      = [Access.read (u.base + 0x2C) 16 (m (u.base + 0x2C) % 2 ^ 16),
         Access.write (u.base + 0x2C) 16
           ((f ⟨m (u.base + 0x2C) % 2 ^ 16⟩).raw % 2 ^ 16)]) ∧
    (∀ (u : UART) (m : Mem), (u.read_control_register m).2
      = [Access.read (u.base + 0x30) 16 (m (u.base + 0x30) % 2 ^ 16)]) ∧
    (∀ (u : UART) (value : ControlRegister) (m : Mem), (u.write_control_register value m).2
      = [Access.write (u.base + 0x30) 16 (value.raw % 2 ^ 16)]) ∧
    (∀ (u : UART) (f : ControlRegister → ControlRegister) (m : Mem), (u.update_control_register f m).2
      = [Access.read (u.base + 0x30) 16 (m (u.base + 0x30) % 2 ^ 16),
         Access.write (u.base + 0x30) 16
           ((f ⟨m (u.base + 0x30) % 2 ^ 16⟩).raw % 2 ^ 16)]) ∧
    (∀ (u : UART) (m : Mem), (u.read_interrupt_fifo_level_select_register m).2
      = [Access.read (u.base + 0x34) 16 (m (u.base + 0x34) % 2 ^ 16)]) ∧
    (∀ (u : UART) (value : InterruptFIFOLevelSelectRegister) (m : Mem), (u.write_interrupt_fifo_level_select_register value m).2
      = [Access.write (u.base + 0x34) 16 (value.raw % 2 ^ 16)]) ∧
    (∀ (u : UART) (f : InterruptFIFOLevelSelectRegister → InterruptFIFOLevelSelectRegister) (m : Mem), (u.update_interrupt_fifo_level_select_register f m).2
      = [Access.read (u.base + 0x34) 16 (m (u.base + 0x34) % 2 ^ 16),
         Access.write (u.base + 0x34) 16
           ((f ⟨m (u.base + 0x34) % 2 ^ 16⟩).raw % 2 ^ 16)]) ∧
    (∀ (u : UART) (m : Mem), (u.read_interrupt_mask_set_clear_register m).2
      = [Access.read (u.base + 0x38) 16 (m (u.base + 0x38) % 2 ^ 16)]) ∧
    (∀ (u : UART) (value : InterruptMaskSetClearRegister) (m : Mem), (u.write_interrupt_mask_set_clear_register value m).2
      = [Access.write (u.base + 0x38) 16 (value.raw % 2 ^ 16)]) ∧
    (∀ (u : UART) (f : InterruptMaskSetClearRegister → InterruptMaskSetClearRegister) (m : Mem), (u.update_interrupt_mask_set_clear_register f m).2
      = [Access.read (u.base + 0x38) 16 (m (u.base + 0x38) % 2 ^ 16),
         Access.write (u.base + 0x38) 16
           ((f ⟨m (u.base + 0x38) % 2 ^ 16⟩).raw % 2 ^ 16)]) ∧
    (∀ (u : UART) (m : Mem), (u.write_error_clear_register m).2
      = [Access.write (u.base + 0x04) 32 0]) :=
  ⟨fun u m => rfl, fun u value m => rfl, fun u f m => rfl, fun u m => rfl, fun u m => rfl, fun u m => rfl, fun u value m => rfl, fun u f m => rfl, fun u m => rfl, fun u value m => rfl, fun u f m => rfl, fun u m => rfl, fun u value m => rfl, fun u f m => rfl, fun u m => rfl, fun u value m => rfl, fun u f m => rfl, fun u m => rfl, fun u value m => rfl, fun u f m => rfl, fun u m => rfl, fun u value m => rfl, fun u f m => rfl, fun u m => rfl, fun u value m => rfl, fun u f m => rfl, fun u m => rfl⟩

/-- C8: Single-direction exposure at `0x04` and `0x18` — the error-clear
operation (the only write bound to `0x04`) takes no value argument and
always stores the constant 32-bit `0` there, whatever the prior state;
the flag register operation (the only one bound to `0x18`) issues
exactly one read and never a write. -/
theorem error_clear_constant_and_flag_read_only :
    (∀ (u : UART) (m : Mem),
      u.write_error_clear_register m
        = (fun a => if a = u.base + 0x04 then 0 else m a,
           [Access.write (u.base + 0x04) 32 0])) ∧
    (∀ (u : UART) (m : Mem),
      u.read_flag_register m
        = (⟨m (u.base + 0x18) % 2 ^ 32⟩,
           [Access.read (u.base + 0x18) 32 (m (u.base + 0x18) % 2 ^ 32)])) :=
  ⟨fun u m => rfl, fun u m => rfl⟩

/-- `BaseAddress for FixedAddress<BASE>` from `src/lib.rs`: a zero-sized
holder of a compile-time-constant base address. -/
structure FixedAddress (BASE : Nat) where
deriving DecidableEq, Repr

/-- `FixedAddress::<BASE>::base_address` returns the const parameter. -/
def FixedAddress.base_address {BASE : Nat} (_ : FixedAddress BASE) : Nat := BASE

/-- `BaseAddress for usize` from `src/lib.rs`: the runtime value is its
own base address. -/
def Usize.base_address (self : Nat) : Nat := self

/-- C9: Base-address stability and determinism — `FixedAddress<BASE>`
yields exactly `BASE` and a `usize` yields exactly itself; both are
pure, so every copy of a holder yields the same address. -/
theorem base_address_stable :
    (∀ (BASE : Nat) (x : FixedAddress BASE), x.base_address = BASE) ∧
    (∀ (a : Nat), Usize.base_address a = a) ∧
    (∀ (BASE : Nat) (x y : FixedAddress BASE), x.base_address = y.base_address) :=
  ⟨fun BASE x => rfl, fun a => rfl, fun BASE x y => rfl⟩

/-- Hardware reset value of the control register, from the source doc
comment of `ControlRegister`: "All the bits are cleared to 0 on reset
except for bits 9 and 8 that are set to 1". -/
def ControlRegister.resetValue : Nat :=
  (((ControlRegister.mk 0).with_receive_enable true).with_transmit_enable true).raw

/-- Hardware reset value of the flag register, from the source doc
comment of `FlagRegister`: "After reset TXFF, RXFF, and BUSY are 0, and
TXFE and RXFE are 1" (TXFE is bit 7, RXFE is bit 4). -/
def FlagRegister.resetValue : Nat :=
  (((FlagRegister.mk 0).with_transmit_fifo_empty true).with_receive_fifo_empty true).raw

/-- Hardware reset value of the interrupt FIFO level select register,
from the source doc comment of `InterruptFIFOLevelSelectRegister`: "The
bits are reset so that the trigger level is when the FIFOs are at the
half-way mark" (both fields `OneHalf`). -/
def InterruptFIFOLevelSelectRegister.resetValue : Nat :=
  (((InterruptFIFOLevelSelectRegister.mk 0).with_receive_interrupt_FIFO_level_select
      .OneHalf).with_transmit_interrupt_FIFO_level_select .OneHalf).raw

/-- C6 counterexample: the flag register is not the control register,
yet its documented hardware reset value (TXFE and RXFE set to 1) is not
the all-zero raw value that `Default` constructs. -/
theorem flag_reset_value_not_default :
    FlagRegister.resetValue ≠ FlagRegister.default.raw := by decide

/-- C6 (amended): every register value type that provides `Default`
constructs the all-zero raw value; all-zero is the documented hardware
reset value except for the control register (bits 8 and 9 reset to 1),
the flag register (TXFE and RXFE reset to 1) and the interrupt FIFO
level select register (reset to the half-way trigger level). -/
theorem default_zero_and_reset_asymmetries :
    DataRegister.default.raw = 0 ∧ ReceiveStatusRegister.default.raw = 0 ∧
    FlagRegister.default.raw = 0 ∧ IrDALowPowerRegister.default.raw = 0 ∧
    IntegerBaudRateDivisorRegister.default.raw = 0 ∧
    FractionalBaudRateDivisorRegister.default.raw = 0 ∧
    LineControlRegister.default.raw = 0 ∧ ControlRegister.default.raw = 0 ∧
    ControlRegister.resetValue = 0b1100000000 ∧
    FlagRegister.resetValue = 0b10010000 ∧
    InterruptFIFOLevelSelectRegister.resetValue = 0b010010 := by
  refine ⟨rfl, rfl, rfl, rfl, rfl, rfl, rfl, rfl, ?_, ?_, ?_⟩ <;> decide

/-- C7: `WordLength` total conversion — pattern `0b11` decodes to
`EightBits` and `EightBits` encodes to `0b11`; decode then encode is the
identity on all four patterns (`00, 01, 10, 11` mapping to `FiveBits,
SixBits, SevenBits, EightBits`), and encode then decode is the identity
on all four variants, so the two are mutual inverses. -/
theorem wordlength_total_conversion :
    (WordLength.from_bits 0b11 = .EightBits) ∧
    (WordLength.to_bits .EightBits = 0b11) ∧
    (WordLength.from_bits 0b00 = .FiveBits) ∧
    (WordLength.from_bits 0b01 = .SixBits) ∧
    (WordLength.from_bits 0b10 = .SevenBits) ∧
    (∀ (p : Fin 4), WordLength.to_bits (WordLength.from_bits p) = p) ∧
    (∀ (v : WordLength), WordLength.from_bits (WordLength.to_bits v) = v) :=
  ⟨by decide, by decide, by decide, by decide, by decide, by decide,
   fun v => by cases v <;> decide⟩

/-- C10: `WordLength::from_bits` is total over its 2-bit input domain —
the match covers all four possible `u2` inputs, so the source's
unreachable-code panic arm (kept observable as the `none` arm of
`from_bits_checked`) can never execute for any input. -/
theorem wordlength_from_bits_never_panics :
    ∀ (value : Fin 4),
      WordLength.from_bits_checked value = some (WordLength.from_bits value) := by
  decide
